import Mathlib

/-!
# manta-muskie: error translation and multipart-upload commit

Shallow embedding of `lib/errors.js` (the error constructors used by
`translateError`, and `translateError` itself), of the multipart-upload test
helper `test/mpu/helper.js` (`computePartsMD5`, over an executable MD5), and of
the upload lifecycle that `test/mpu/commit.test.js` exercises, followed by the
statements proved about them.
-/

namespace Muskie

/-! ## Error values (`lib/errors.js`) -/

/-- Position of an error value in the prototype chains that `translateError`
tests with `instanceof`: built by a constructor of `errors.js` (all of which
inherit from `MuskieError`, itself inheriting from restify's `RestError`, an
`HttpError`), built by restify itself, or anything else. -/
inductive ErrorClass where
  | muskie (ctor : String)
  | httpError (ctor : String)
  | other
  deriving DecidableEq, Repr

/-- Own and inherited properties of an error value that `errors.js` reads or
writes. `headers` is the `Content-Range` entry of `this.headers` when that
object was set; `resultHeaders` is the `content-range` entry of
`err._result.headers` when `err._result.headers` is present. -/
structure ErrorProps where
  cls : ErrorClass
  name : String
  restCode : Option String
  statusCode : Option Nat
  message : String
  headers : Option (Option String)
  resultHeaders : Option (Option String)
  deriving DecidableEq, Repr

/-- An error value: its properties, and the error stored in `jse_cause` when
that property is set. -/
inductive JsError where
  | plain (props : ErrorProps)
  | caused (props : ErrorProps) (jse_cause : JsError)
  deriving DecidableEq, Repr

/-- Properties of the error value itself. -/
def JsError.props : JsError → ErrorProps
  | .plain p => p
  | .caused p _ => p

/-- Value of `err.jse_cause`, `none` when the property is not set. -/
def JsError.jse_cause : JsError → Option JsError
  | .plain _ => none
  | .caused _ c => some c

/-- Value of `err.name`. -/
def JsError.name (e : JsError) : String := e.props.name

/-- The request, as far as the error constructors read it: `req.path()`,
`req.method`, `req.headers['range']` and `req.headers.location`. -/
structure Request where
  path : String
  method : String
  range : Option String
  location : Option String
  deriving DecidableEq, Repr

/-- The options object handed to `MuskieError`. -/
structure ErrorOptions where
  restCode : String
  statusCode : Nat
  message : String
  deriving DecidableEq, Repr

/-- Rendering of one `%s` argument by `util.format`: a string is copied, an
absent value prints as `undefined`. -/
def formatS : Option String → String
  | some s => s
  | none => "undefined"

/-- The object `new C(...)` hands to the constructor `C` of `errors.js` as
`this`: nothing set yet; `name` is the one inherited along the prototype chain
of restify's `RestError`, which is `WError`, and no constructor of `errors.js`
sets another. -/
def newObject (ctor : String) : ErrorProps :=
  { cls := .muskie ctor, name := "WError", restCode := none, statusCode := none,
    message := "", headers := none, resultHeaders := none }

/-- What restify's `RestError.call(this, obj)` leaves on `this`: the code, the
status and the message of the options object. -/
def RestError (this : ErrorProps) (obj : ErrorOptions) : ErrorProps :=
  { this with restCode := some obj.restCode, statusCode := some obj.statusCode,
              message := obj.message }

/-- Source `MuskieError(obj)`: delegates to `RestError` on the same `this`. -/
def MuskieError (this : ErrorProps) (obj : ErrorOptions) : ErrorProps :=
  RestError this obj

/-- Source `ConcurrentRequestError(p)`. -/
def ConcurrentRequestError (p : String) : JsError :=
  .plain (MuskieError (newObject "ConcurrentRequestError")
    { restCode := "ConcurrentRequest", statusCode := 409,
      message := p ++ " was being concurrently updated" })

/-- Source `InternalError(cause)`; the cause, when given, is kept by the
restify base as the wrapped error. -/
def InternalError (cause : Option JsError) : JsError :=
  let this := MuskieError (newObject "InternalError")
    { restCode := "InternalError", statusCode := 500,
      message := "an unexpected error occurred" }
  match cause with
  | none => .plain this
  | some c => .caused this c

/-- Source `RequestedRangeNotSatisfiableError(req, err)`: `this.headers` is set
first, from `err._result.headers` when present, then `MuskieError` is called. -/
def RequestedRangeNotSatisfiableError (req : Request) (err : Option JsError) : JsError :=
  let this := newObject "RequestedRangeNotSatisfiableError"
  let this :=
    match err with
    | some e =>
      match e.props.resultHeaders with
      | some contentRange => { this with headers := some contentRange }
      | none => this
    | none => this
  .plain (MuskieError this
    { restCode := "RequestedRangeNotSatisfiable", statusCode := 416,
      message := formatS req.range ++ " is an invalid range" })

/-- What `new restify.ResourceNotFoundError(cause, '%s does not exist', p)`
builds: a restify `RestError` (hence an `HttpError`) of status 404 wrapping
`cause`. -/
def restify.ResourceNotFoundError (cause : JsError) (p : String) : JsError :=
  .caused
    { cls := .httpError "ResourceNotFoundError", name := "ResourceNotFoundError",
      restCode := some "ResourceNotFound", statusCode := some 404,
      message := p ++ " does not exist", headers := none, resultHeaders := none }
    cause

/-- Source test `err instanceof MuskieError`. -/
def instanceofMuskieError (err : JsError) : Bool :=
  match err.props.cls with
  | .muskie _ => true
  | _ => false

/-- Source test `err instanceof restify.HttpError`; `MuskieError` inherits from
restify's `RestError`, so its instances pass too. -/
def instanceofHttpError (err : JsError) : Bool :=
  match err.props.cls with
  | .muskie _ => true
  | .httpError _ => true
  | .other => false

/-- The error whose `name` the `switch` of `translateError` reads:
`err.jse_cause` when set, otherwise `err`. -/
def effectiveError (err : JsError) : JsError :=
  match err.jse_cause with
  | some c => c
  | none => err

/-- Source `translateError(err, req)`. -/
def translateError (err : JsError) (req : Request) : JsError :=
  if instanceofMuskieError err || instanceofHttpError err then err
  else
    let err := effectiveError err
    match err.name with
    | "ObjectNotFoundError" => restify.ResourceNotFoundError err req.path
    | "PreconditionFailedError" => err
    | "RequestedRangeNotSatisfiableError" => RequestedRangeNotSatisfiableError req (some err)
    | "EtagConflictError" => ConcurrentRequestError req.path
    | "UniqueAttributeError" => ConcurrentRequestError req.path
    | _ => InternalError none

/-- Membership in the error taxonomy: an instance of `MuskieError` or of
restify's `HttpError`. -/
def isTaxonomyMember (err : JsError) : Bool :=
  instanceofMuskieError err || instanceofHttpError err

/-- An error value outside the taxonomy with the given name and nothing else
set. -/
def rawError (name : String) : ErrorProps :=
  { cls := .other, name := name, restCode := none, statusCode := none,
    message := "", headers := none, resultHeaders := none }

/-- A request for the given path. -/
def getRequest (path : String) : Request :=
  { path := path, method := "GET", range := none, location := none }

/-! ## Node's `crypto` MD5 hash object (used by `test/mpu/helper.js`) -/

/-- UTF-8 encoding of one Unicode scalar value, as a list of bytes. -/
def utf8EncodeChar (c : Nat) : List Nat :=
  if c < 0x80 then [c]
  else if c < 0x800 then [0xC0 + c / 64, 0x80 + c % 64]
  else if c < 0x10000 then [0xE0 + c / 4096, 0x80 + c / 64 % 64, 0x80 + c % 64]
  else [0xF0 + c / 262144, 0x80 + c / 4096 % 64, 0x80 + c / 64 % 64, 0x80 + c % 64]

/-- Bytes that `hash.update(s)` feeds to the digest for a string `s`: its
UTF-8 encoding. -/
def utf8Bytes (s : String) : List Nat :=
  s.data.foldr (fun c acc => utf8EncodeChar c.toNat ++ acc) []

/-- The four 32-bit words of the MD5 chaining value. -/
structure MD5State where
  a : Nat
  b : Nat
  c : Nat
  d : Nat
  deriving DecidableEq, Repr

/-- Initial chaining value of MD5 (RFC 1321, 3.3). -/
def md5Init : MD5State :=
  { a := 0x67452301, b := 0xefcdab89, c := 0x98badcfe, d := 0x10325476 }

/-- Per-round left-rotation amounts of MD5. -/
def md5Shifts : List Nat :=
  [7, 12, 17, 22, 7, 12, 17, 22, 7, 12, 17, 22, 7, 12, 17, 22,
   5, 9, 14, 20, 5, 9, 14, 20, 5, 9, 14, 20, 5, 9, 14, 20,
   4, 11, 16, 23, 4, 11, 16, 23, 4, 11, 16, 23, 4, 11, 16, 23,
   6, 10, 15, 21, 6, 10, 15, 21, 6, 10, 15, 21, 6, 10, 15, 21]

/-- Per-round additive constants of MD5 (RFC 1321, 3.4). -/
def md5K : List Nat :=
  [0xd76aa478, 0xe8c7b756, 0x242070db, 0xc1bdceee, 0xf57c0faf, 0x4787c62a, 0xa8304613, 0xfd469501,
   0x698098d8, 0x8b44f7af, 0xffff5bb1, 0x895cd7be, 0x6b901122, 0xfd987193, 0xa679438e, 0x49b40821,
   0xf61e2562, 0xc040b340, 0x265e5a51, 0xe9b6c7aa, 0xd62f105d, 0x02441453, 0xd8a1e681, 0xe7d3fbc8,
   0x21e1cde6, 0xc33707d6, 0xf4d50d87, 0x455a14ed, 0xa9e3e905, 0xfcefa3f8, 0x676f02d9, 0x8d2a4c8a,
   0xfffa3942, 0x8771f681, 0x6d9d6122, 0xfde5380c, 0xa4beea44, 0x4bdecfa9, 0xf6bb4b60, 0xbebfbc70,
   0x289b7ec6, 0xeaa127fa, 0xd4ef3085, 0x04881d05, 0xd9d4d039, 0xe6db99e5, 0x1fa27cf8, 0xc4ac5665,
   0xf4292244, 0x432aff97, 0xab9423a7, 0xfc93a039, 0x655b59c3, 0x8f0ccc92, 0xffeff47d, 0x85845dd1,
   0x6fa87e4f, 0xfe2ce6e0, 0xa3014314, 0x4e0811a1, 0xf7537e82, 0xbd3af235, 0x2ad7d2bb, 0xeb86d391]

/-- Rotation of a 32-bit word to the left by `n` bits. -/
def rotl32 (x n : Nat) : Nat :=
  ((x <<< n) ||| (x >>> (32 - n))) % 2 ^ 32

/-- Bitwise complement of a 32-bit word. -/
def not32 (x : Nat) : Nat := 0xffffffff - x % 2 ^ 32

/-- Little-endian 32-bit words of a byte list, four bytes at a time. -/
def leWords : List Nat → List Nat
  | b0 :: b1 :: b2 :: b3 :: rest =>
      (b0 + 256 * b1 + 65536 * b2 + 16777216 * b3) :: leWords rest
  | _ => []

/-- Little-endian bytes of the low `n` bytes of `x`. -/
def leBytes : Nat → Nat → List Nat
  | 0, _ => []
  | n + 1, x => x % 256 :: leBytes n (x / 256)

/-- One of the 64 operations of the MD5 compression function. -/
def md5Step (m : List Nat) (s : MD5State) (i : Nat) : MD5State :=
  let f :=
    if i < 16 then (s.b &&& s.c) ||| (not32 s.b &&& s.d)
    else if i < 32 then (s.d &&& s.b) ||| (not32 s.d &&& s.c)
    else if i < 48 then s.b ^^^ s.c ^^^ s.d
    else s.c ^^^ (s.b ||| not32 s.d)
  let g :=
    if i < 16 then i
    else if i < 32 then (5 * i + 1) % 16
    else if i < 48 then (3 * i + 5) % 16
    else (7 * i) % 16
  let t := (f + s.a + md5K.getD i 0 + m.getD g 0) % 2 ^ 32
  { a := s.d, b := (s.b + rotl32 t (md5Shifts.getD i 0)) % 2 ^ 32, c := s.b, d := s.c }

/-- MD5 compression of one 64-byte block into the chaining value. -/
def md5Compress (s : MD5State) (block : List Nat) : MD5State :=
  let r := (List.range 64).foldl (md5Step (leWords block)) s
  { a := (s.a + r.a) % 2 ^ 32, b := (s.b + r.b) % 2 ^ 32,
    c := (s.c + r.c) % 2 ^ 32, d := (s.d + r.d) % 2 ^ 32 }

/-- The base64 alphabet. -/
def base64Alphabet : List Char :=
  "ABCDEFGHIJKLMNOPQRSTUVWXYZabcdefghijklmnopqrstuvwxyz0123456789+/".data

/-- The base64 digit of a 6-bit value. -/
def base64Digit (n : Nat) : Char := base64Alphabet.getD n 'A'

/-- Base64 encoding of a byte list, with `=` padding. -/
def base64Encode : List Nat → List Char
  | a :: b :: c :: rest =>
      base64Digit (a / 4) :: base64Digit (a % 4 * 16 + b / 16) ::
        base64Digit (b % 16 * 4 + c / 64) :: base64Digit (c % 64) :: base64Encode rest
  | [a, b] =>
      [base64Digit (a / 4), base64Digit (a % 4 * 16 + b / 16), base64Digit (b % 16 * 4), '=']
  | [a] => [base64Digit (a / 4), base64Digit (a % 4 * 16), '=', '=']
  | [] => []

/-- The hash object of `crypto.createHash('md5')`: the chaining value, the
bytes received since the last complete 64-byte block, and the number of bytes
received in all. -/
structure Hash where
  state : MD5State
  buffer : List Nat
  length : Nat
  deriving DecidableEq, Repr

/-- Source `crypto.createHash('md5')`. -/
def createHash : Hash := { state := md5Init, buffer := [], length := 0 }

/-- Feeding one byte to the hash object: the byte is buffered, and a buffer
that reaches 64 bytes is compressed into the chaining value. -/
def Hash.updateByte (h : Hash) (b : Nat) : Hash :=
  let buf := h.buffer ++ [b]
  if buf.length = 64 then
    { state := md5Compress h.state buf, buffer := [], length := h.length + 1 }
  else
    { state := h.state, buffer := buf, length := h.length + 1 }

/-- Source `hash.update(data)` for a string: its UTF-8 bytes are fed in
order. -/
def Hash.update (h : Hash) (data : String) : Hash :=
  (utf8Bytes data).foldl Hash.updateByte h

/-- The 16 digest bytes of the hash object: the buffered bytes are padded with
`0x80`, zeros and the 64-bit little-endian bit count to one or two blocks, which
are compressed; the chaining value is written little-endian. -/
def Hash.digestBytes (h : Hash) : List Nat :=
  let tail := h.buffer ++ [0x80]
  let zeros := if tail.length ≤ 56 then 56 - tail.length else 120 - tail.length
  let padded := tail ++ List.replicate zeros 0 ++ leBytes 8 (8 * h.length % 2 ^ 64)
  let s :=
    if padded.length ≤ 64 then md5Compress h.state padded
    else md5Compress (md5Compress h.state (padded.take 64)) (padded.drop 64)
  leBytes 4 s.a ++ leBytes 4 s.b ++ leBytes 4 s.c ++ leBytes 4 s.d

/-- Source `hash.digest('base64')`. -/
def Hash.digest (h : Hash) : String :=
  String.mk (base64Encode h.digestBytes)

/-- RFC 1321, 3.1 and 3.2: the message followed by the byte `0x80`, zero bytes
up to 56 modulo 64, and the bit length of the message as 8 little-endian
bytes. -/
def md5Pad (bytes : List Nat) : List Nat :=
  bytes ++ 0x80 :: List.replicate ((119 - bytes.length % 64) % 64) 0 ++
    leBytes 8 (8 * bytes.length % 2 ^ 64)

/-- RFC 1321, 3.4: the chaining value after the first `n` complete 64-byte
blocks of `bytes`, each compressed in turn. -/
def md5Blocks : Nat → MD5State → List Nat → MD5State
  | 0, s, _ => s
  | n + 1, s, bytes =>
    if bytes.length < 64 then s
    else md5Blocks n (md5Compress s (bytes.take 64)) (bytes.drop 64)

/-- RFC 1321: the 16-byte MD5 digest of a whole message, computed in one shot:
the padded message is cut into 64-byte blocks, every block is compressed into
the chaining value, and the final value is written little-endian. -/
def md5Digest (bytes : List Nat) : List Nat :=
  let padded := md5Pad bytes
  let s := md5Blocks (padded.length / 64) md5Init padded
  leBytes 4 s.a ++ leBytes 4 s.b ++ leBytes 4 s.c ++ leBytes 4 s.d

/-! ## `test/mpu/helper.js` -/

/-- Source constant `MAX_PART_NUM`. -/
def MAX_PART_NUM : Nat := 9999

/-- Source `computePartsMD5(parts)`: one hash object, updated with every part
in order, then finalized in base64. -/
def computePartsMD5 (parts : List String) : String :=
  (parts.foldl (fun hash p => hash.update p) createHash).digest

/-- Source `writeObjectHelper`, the `md5` option it sends with an object: the
one-shot digest `crypto.createHash('md5').update(string).digest('base64')`. -/
def writeObjectHelper.md5 (string : String) : String :=
  (createHash.update string).digest

/-- Specification side of the summary: the base64 encoding of the MD5 digest
of the single string `p0 ∥ p1 ∥ ... ∥ pn-1`, computed in one shot over its
bytes. -/
def digestOfConcatenation (P : List String) : String :=
  String.mk (base64Encode (md5Digest (utf8Bytes (String.join P))))

/-! ## Multipart-upload lifecycle (server side)

`test/mpu/commit.test.js` drives the server through its HTTP interface; the
server code that commits and aborts uploads (`lib/uploads`) is not embedded.
The definitions of this section follow the specification: section 3 for the
data, 4.2 to 4.4 for the operations. They describe one gateway serving an
authorized caller; identifiers are taken as already parsed. -/

/-- Modelled from the spec: the failure kinds of section 4.1 that the upload
lifecycle raises (the server's `lib/uploads` is missing), under the names
`test/mpu/commit.test.js` asserts. `argumentInvalid` is
`MultipartUploadInvalidArgument`, `stateConflict` is
`InvalidMultipartUploadState`, `concurrentRequest` is `ConcurrentRequest`,
`notFound` is `ResourceNotFound`; the last five are the failures of a target
path: `OperationNotAllowedOnDirectory`, `DirectoryDoesNotExist`,
`AuthorizationFailed`, `AccountDoesNotExist`, and `DirectoryLimitExceeded` for
the entry-count limit of section 4.2. -/
inductive ErrorKind where
  | argumentInvalid
  | stateConflict
  | concurrentRequest
  | notFound
  | operationNotAllowedOnDirectory
  | directoryDoesNotExist
  | authorizationFailed
  | accountDoesNotExist
  | directoryLimitExceeded
  deriving DecidableEq, Repr

deriving instance DecidableEq for Except

/-- Modelled from the spec: the `state` field of an upload record (section 3;
the server's record type is missing). -/
inductive UploadState where
  | created
  | finalizing
  | done
  deriving DecidableEq, Repr

/-- Modelled from the spec: the `finalizationType` field (section 3). -/
inductive FinalizationType where
  | abort
  | commit
  deriving DecidableEq, Repr

/-- Modelled from the spec: the `result` field (section 3). -/
inductive FinalResult where
  | aborted
  | committed
  deriving DecidableEq, Repr

/-- Modelled from the spec: the headers captured at creation (section 3): the
declared content-length and content-md5 when given, and the other headers
verbatim. -/
structure Headers where
  contentLength : Option Nat
  contentMD5 : Option String
  other : List (String × String)
  deriving DecidableEq, Repr

/-- Modelled from the spec: the upload record of section 3 (the server's
record type is missing), field by field. -/
structure UploadRecord where
  id : Nat
  objectPath : String
  headers : Headers
  numCopies : Nat
  partsContainer : Option String
  state : UploadState
  finalizationType : Option FinalizationType
  result : Option FinalResult
  partsMD5Summary : Option String
  deriving DecidableEq, Repr

/-- Modelled from the spec: a stored part as the Part Store Accessor reports
it (sections 3 and 6): its fingerprint and its size in bytes. -/
structure Part where
  fingerprint : String
  size : Nat
  deriving DecidableEq, Repr

/-- Modelled from the spec: what `createOrOverwriteObject(path, size,
digestSummary, headers)` leaves at a path of the namespace (section 6). -/
structure StoredObject where
  size : Nat
  digestSummary : String
  headers : Headers
  deriving DecidableEq, Repr

/-- Modelled from the spec: the configured limits of section 4.3: the maximum
part count, the minimum size of a non-final part, and the syntactic test of a
fingerprint, which the specification does not spell out. -/
structure Config where
  maxParts : Nat
  minPartSize : Nat
  isFingerprint : String → Bool

/-- Modelled from the spec: the state held by the collaborators of section 6:
the upload records, the stored parts by upload and part number (`listPart`),
the objects of the namespace by path, the content digest of the object
assembled from the first `n` parts of an upload, when the backend supplies
one, and the failure with which the namespace tier and the authorization
engine answer the write of a target object at a path, if any (the path is a
top-level directory, its parent directory does not exist or is at its
entry-count limit, it lies under another account, or its account does not
exist); `checkTargetPath` computes that answer from a path. -/
structure Store where
  records : Nat → Option UploadRecord
  parts : Nat → Nat → Option Part
  objects : String → Option StoredObject
  contentDigest : Nat → Nat → Option String
  writeError : String → Option ErrorKind

/-- Modelled from the spec: the write of one upload record
(`conditionalWriteUploadRecord` of section 6 once its condition holds). -/
def setRecord (s : Store) (id : Nat) (r : UploadRecord) : Store :=
  { s with records := fun i => if i = id then some r else s.records i }

/-- Modelled from the spec: `transition(id, from, to, mutator)` of section
4.2: a compare-and-set on the state of the record; `mutator` writes the new
state. -/
def transition (s : Store) (id : Nat) (src : UploadState)
    (mutator : UploadRecord → UploadRecord) : Except ErrorKind Store :=
  match s.records id with
  | none => .error .notFound
  | some r =>
    if r.state = src then
      .ok (setRecord s id (mutator r))
    else .error .stateConflict

/-- Modelled from the spec: `get(id)` of sections 4.2 and 4.4. -/
def get (s : Store) (id : Nat) : Except ErrorKind UploadRecord :=
  match s.records id with
  | some r => .ok r
  | none => .error .notFound

/-- Modelled from the spec: step 2 of the Commit Validator (section 4.3): a
fingerprint is non-empty and syntactically a content fingerprint. -/
def fingerprintValid (cfg : Config) (p : String) : Bool :=
  p != "" && cfg.isFingerprint p

/-- Modelled from the spec: step 3 of the Commit Validator: for each index `i`
(counted from `i`) the part store reports a stored part whose fingerprint
equals `pi`; the stored parts are returned in order. -/
def lookupParts (listPart : Nat → Option Part) : Nat → List String → Option (List Part)
  | _, [] => some []
  | i, p :: ps =>
    match listPart i with
    | none => none
    | some part =>
      if part.fingerprint = p then
        match lookupParts listPart (i + 1) ps with
        | some rest => some (part :: rest)
        | none => none
      else none

/-- Modelled from the spec: step 4 of the Commit Validator: every part except
the last has a stored size of at least the configured minimum. -/
def minSizeOk (cfg : Config) (parts : List Part) : Bool :=
  parts.dropLast.all fun part => decide (cfg.minPartSize ≤ part.size)

/-- Modelled from the spec: step 5 of the Commit Validator: the total size is
the sum of the stored sizes of the referenced parts. -/
def totalSize (parts : List Part) : Nat :=
  (parts.map fun part => part.size).sum

/-- Modelled from the spec: step 6 of the Commit Validator: a declared
content-length equals the computed total size, and a declared content-md5
equals the content digest of the object when the backend supplies one. -/
def headersOk (h : Headers) (total : Nat) (digest : Option String) : Bool :=
  (match h.contentLength with
    | some l => decide (l = total)
    | none => true) &&
  (match h.contentMD5, digest with
    | some d, some d' => decide (d = d')
    | _, _ => true)

/-- Modelled from the spec: the Commit Validator of section 4.3 (the server's
commit code is missing) for the upload `id` with record `r`, steps 1 to 6 in
order; every violation is argument-invalid; on success the total size and the
summary of step 5, computed as `computePartsMD5` does. -/
def validate (cfg : Config) (s : Store) (id : Nat) (r : UploadRecord) (P : List String) :
    Except ErrorKind (Nat × String) :=
  if cfg.maxParts < P.length then .error .argumentInvalid
  else if !(P.all (fingerprintValid cfg)) then .error .argumentInvalid
  else
    match lookupParts (s.parts id) 0 P with
    | none => .error .argumentInvalid
    | some parts =>
      if !(minSizeOk cfg parts) then .error .argumentInvalid
      else if !(headersOk r.headers (totalSize parts) (s.contentDigest id P.length)) then
        .error .argumentInvalid
      else .ok (totalSize parts, computePartsMD5 P)

/-- Modelled from the spec: the discard of the parts container of an upload
(section 4.4): the part store no longer lists parts for it. -/
def discardParts (s : Store) (id : Nat) : Store :=
  { s with parts := fun i n => if i = id then none else s.parts i n }

/-- Modelled from the spec: the effect of an accepted
`createOrOverwriteObject(path, size, digestSummary, headers)` of section 6 on
the namespace. -/
def putObject (s : Store) (path : String) (o : StoredObject) : Store :=
  { s with objects := fun p => if p = path then some o else s.objects p }

/-- Modelled from the spec: `createOrOverwriteObject` of section 6. The write
is refused with the failure the collaborators hold for the path, as
`test/mpu/commit.test.js` observes at commit for an upload created with such a
path (`commit upload: path is top-level directory` and the four tests after
it); with one gateway there is no competing writer, so it is accepted
otherwise. -/
def materialize (s : Store) (path : String) (o : StoredObject) : Except ErrorKind Store :=
  match s.writeError path with
  | some e => .error e
  | none => .ok (putObject s path o)

/-- Modelled from the spec: `commit(id, P)` of section 4.4 (the server's commit
code is missing). A record in state `created` is moved to `finalizing(commit)`,
validated, materialized and moved to `done(committed)`; a failed validation or
a refused write leaves the record in `created` (the choice recommended in
section 9). The other states are the failure modes listed in 4.4: the summary
of an already committed record is compared with the one computed from `P`; an
aborted record is a state conflict; a record in `finalizing` is a concurrent
request. -/
def commit (cfg : Config) (s : Store) (id : Nat) (P : List String) :
    Except ErrorKind Unit × Store :=
  match s.records id with
  | none => (.error .notFound, s)
  | some r =>
    match r.state with
    | .finalizing => (.error .concurrentRequest, s)
    | .done =>
      match r.result with
      | some .committed =>
        if r.partsMD5Summary = some (computePartsMD5 P) then (.ok (), s)
        else (.error .argumentInvalid, s)
      | _ => (.error .stateConflict, s)
    | .created =>
      match transition s id .created (fun r =>
          { r with state := .finalizing, finalizationType := some .commit,
                   partsContainer := none }) with
      | .error e => (.error e, s)
      | .ok s1 =>
        match validate cfg s1 id r P with
        | .error e => (.error e, s)
        | .ok (total, summary) =>
          match materialize s1 r.objectPath
              { size := total, digestSummary := summary, headers := r.headers } with
          | .error e => (.error e, s)
          | .ok s2 =>
            match transition (discardParts s2 id) id .finalizing (fun r =>
                { r with state := .done, result := some .committed,
                         partsMD5Summary := some summary }) with
            | .error e => (.error e, s)
            | .ok s3 => (.ok (), s3)

/-- Modelled from the spec: `abort(id)` of section 4.4 (the server's abort code
is missing): a record in state `created` is moved to `finalizing(abort)`, its
parts container and target are discarded, and it is moved to `done(aborted)`;
an already aborted record is a success, a committed one a state conflict, one
in `finalizing` a concurrent request. -/
def abort (s : Store) (id : Nat) : Except ErrorKind Unit × Store :=
  match s.records id with
  | none => (.error .notFound, s)
  | some r =>
    match r.state with
    | .finalizing => (.error .concurrentRequest, s)
    | .done =>
      match r.result with
      | some .aborted => (.ok (), s)
      | _ => (.error .stateConflict, s)
    | .created =>
      match transition s id .created (fun r =>
          { r with state := .finalizing, finalizationType := some .abort,
                   partsContainer := none }) with
      | .error e => (.error e, s)
      | .ok s1 =>
        match transition (discardParts s1 id) id .finalizing (fun r =>
            { r with state := .done, result := some .aborted }) with
        | .error e => (.error e, s)
        | .ok s2 => (.ok (), s2)

/-- A configuration with the observed maximum of `MAX_PART_NUM + 1` parts, a
minimum part size of 5 bytes, and no syntactic restriction on fingerprints. -/
def sampleConfig : Config :=
  { maxParts := MAX_PART_NUM + 1, minPartSize := 5, isFingerprint := fun _ => true }

/-- A record in state `created` for upload 1, with no declared headers. -/
def sampleRecord : UploadRecord :=
  { id := 1, objectPath := "/user/stor/dir/obj", headers := ⟨none, none, []⟩,
    numCopies := 2, partsContainer := some "/user/uploads/1", state := .created,
    finalizationType := none, result := none, partsMD5Summary := none }

/-- A record in state `created` for upload 2, with no declared headers, whose
target path is a top-level directory. -/
def topLevelRecord : UploadRecord :=
  { id := 2, objectPath := "/user/stor", headers := ⟨none, none, []⟩,
    numCopies := 2, partsContainer := some "/user/uploads/2", state := .created,
    finalizationType := none, result := none, partsMD5Summary := none }

/-- A store holding upload 1 in state `created` with three stored parts: part
0 of 8 bytes (fingerprint `ab`), part 1 of 3 bytes (`c`), part 2 of 2 bytes
(`d`); and upload 2 in state `created` with no parts, whose target path is
refused as a top-level directory. -/
def sampleStore : Store :=
  { records := fun i =>
      if i = 1 then some sampleRecord else if i = 2 then some topLevelRecord else none,
    parts := fun i n =>
      if i = 1 then
        match n with
        | 0 => some ⟨"ab", 8⟩
        | 1 => some ⟨"c", 3⟩
        | 2 => some ⟨"d", 2⟩
        | _ => none
      else none,
    objects := fun _ => none,
    contentDigest := fun _ _ => none,
    writeError := fun p =>
      if p = "/user/stor" then some .operationNotAllowedOnDirectory else none }

/-- The store after upload 1 of `sampleStore` was committed with the parts
`ab`, `c`. -/
def committedStore : Store :=
  (commit sampleConfig sampleStore 1 ["ab", "c"]).2

/-- The record of upload 1 in `committedStore`. -/
def committedRecord : UploadRecord :=
  { sampleRecord with
    partsContainer := none, state := .done, finalizationType := some .commit,
    result := some .committed, partsMD5Summary := some (computePartsMD5 ["ab", "c"]) }

/-- The store after upload 1 of `sampleStore` was aborted. -/
def abortedStore : Store :=
  (abort sampleStore 1).2

/-- The store `sampleStore` while another caller's commit of upload 1 is under
way: the record was moved from `created` to `finalizing(commit)` by the first
transition of that commit, and the parts are still listed. -/
def finalizingStore : Store :=
  match transition sampleStore 1 .created (fun r =>
      { r with state := .finalizing, finalizationType := some .commit,
               partsContainer := none }) with
  | .ok s => s
  | .error _ => sampleStore


/-- The sum of the stored sizes of the parts `0 .. n-1` of an upload, as the
part store reports them (a part it does not hold counts for nothing). -/
def storedSize (s : Store) (id n : Nat) : Nat :=
  ((List.range n).map fun i =>
    match s.parts id i with
    | some part => part.size
    | none => 0).sum

/-- Modelled from the spec: the configured range of `numCopies` that `create`
validates (section 4.2; the server's configuration is missing). -/
structure CopiesRange where
  minCopies : Nat
  maxCopies : Nat
  deriving DecidableEq, Repr

/-- Modelled from the spec: the record `create` writes (section 3): state
`created`, the parts container present, no finalization type, result or
summary, the path and the headers verbatim. -/
def freshRecord (id : Nat) (container : String) (objectPath : String) (headers : Headers)
    (numCopies : Nat) : UploadRecord :=
  { id := id, objectPath := objectPath, headers := headers, numCopies := numCopies,
    partsContainer := some container, state := .created, finalizationType := none,
    result := none, partsMD5Summary := none }

/-- Modelled from the spec: `create(objectPath, headers, numCopies)` of section
4.2 (the server's create code is missing), for the identifier and the parts
container drawn for the new upload. `numCopies` outside the configured range is
argument-invalid; an identifier already in use is refused as a conflict of
`createUploadRecord`; otherwise the record is written in state `created`, with
`objectPath` kept verbatim. The checks of the target path that 4.2 lists are
`checkTargetPath`; they are not part of this operation but answer the write of
the object at commit (`Store.writeError`, read by `materialize`), because
`test/mpu/commit.test.js` (lines 415 to 538) requires `createUpload` to succeed
for a top-level directory, for a missing parent directory, for a path under
another account and for one under an account that does not exist, and expects
the failure from `commitUpload`. -/
def create (range : CopiesRange) (s : Store) (id : Nat) (container : String)
    (objectPath : String) (headers : Headers) (numCopies : Nat) :
    Except ErrorKind UploadRecord × Store :=
  if numCopies < range.minCopies ∨ range.maxCopies < numCopies then
    (.error .argumentInvalid, s)
  else
    match s.records id with
    | some _ => (.error .concurrentRequest, s)
    | none =>
      (.ok (freshRecord id container objectPath headers numCopies),
        setRecord s id (freshRecord id container objectPath headers numCopies))

/-- The record of upload 1 in `abortedStore`. -/
def abortedRecord : UploadRecord :=
  { sampleRecord with
    partsContainer := none, state := .done, finalizationType := some .abort,
    result := some .aborted }

/-- A record in state `created` for upload 3, created with a declared
content-length of 44 bytes. -/
def declaredRecord : UploadRecord :=
  { id := 3, objectPath := "/user/stor/dir/obj3", headers := ⟨some 44, none, []⟩,
    numCopies := 2, partsContainer := some "/user/uploads/3", state := .created,
    finalizationType := none, result := none, partsMD5Summary := none }

/-- A store holding upload 3 in state `created` with one stored part of 8
bytes (fingerprint `ab`). -/
def declaredStore : Store :=
  { records := fun i => if i = 3 then some declaredRecord else none,
    parts := fun i n =>
      if i = 3 then
        match n with
        | 0 => some ⟨"ab", 8⟩
        | _ => none
      else none,
    objects := fun _ => none,
    contentDigest := fun _ _ => none,
    writeError := fun _ => none }

/-- A range of one to nine copies. -/
def sampleRange : CopiesRange := { minCopies := 1, maxCopies := 9 }

/-! ## The error kinds of `lib/errors.js`

Every constructor of `errors.js` that inherits from `MuskieError`, in the order
of the file (`ConcurrentRequestError`, `InternalError` and
`RequestedRangeNotSatisfiableError` are defined above). String arguments are
strings; an argument the source tests for truthiness is optional; numeric
arguments are natural numbers. -/

/-- What `a || b` gives for an optional string `a`: `b` when `a` is absent or
empty. -/
def orDefault (a : Option String) (b : String) : String :=
  match a with
  | some s => if s = "" then b else s
  | none => b

/-- Node's posix `path.dirname`: the path without its last component and the
slashes before it; `.` or `/` when there is no directory part. -/
def dirname (path : String) : String :=
  match path.data with
  | [] => "."
  | c :: tail =>
    let afterBase := ((tail.reverse.dropWhile (· == '/')).dropWhile (· != '/'))
    match afterBase with
    | [] => if c == '/' then "/" else "."
    | _ :: before =>
      if c == '/' && before.isEmpty then "//"
      else String.mk (c :: before.reverse)

/-- The response, as far as `SharksExhaustedError` writes to it: its headers. -/
structure Response where
  headers : List (String × String)
  deriving DecidableEq, Repr

/-- Source `res.setHeader(name, value)`. -/
def Response.setHeader (res : Response) (name value : String) : Response :=
  { headers := (name, value) :: res.headers.filter fun h => h.1 != name }

/-- Source `AccountDoesNotExistError(account)`. -/
def AccountDoesNotExistError (account : String) : JsError :=
  .plain (MuskieError (newObject "AccountDoesNotExistError")
    { restCode := "AccountDoesNotExist", statusCode := 403,
      message := account ++ " does not exist" })

/-- Source `AccountBlockedError(login)`. -/
def AccountBlockedError (login : String) : JsError :=
  .plain (MuskieError (newObject "AccountBlockedError")
    { restCode := "AccountBlocked", statusCode := 403,
      message := login ++ " is not an active account" })

/-- Source `AuthSchemeError(scheme)`. -/
def AuthSchemeError (scheme : Option String) : JsError :=
  .plain (MuskieError (newObject "AuthSchemeError")
    { restCode := "AuthorizationSchemeNotAllowed", statusCode := 403,
      message := orDefault scheme "unknown scheme" ++
        " is not allowed (use \x27signature\x27)" })

/-- Source `AuthorizationError(login, _path, reason)`; the `reason` entry of the
options is not among those `RestError` keeps. -/
def AuthorizationError (login _path : String) (_reason : Option String) : JsError :=
  .plain (MuskieError (newObject "AuthorizationError")
    { restCode := "AuthorizationFailed", statusCode := 403,
      message := login ++ " is not allowed to access " ++ _path })

/-- Source `ChecksumError(expected, actual)`. -/
def ChecksumError (expected actual : String) : JsError :=
  .plain (MuskieError (newObject "ChecksumError")
    { restCode := "ContentMD5Mismatch", statusCode := 400,
      message := "Content-MD5 expected " ++ expected ++ ", but was " ++ actual })

/-- Source `ContentLengthError()`. -/
def ContentLengthError : JsError :=
  .plain (MuskieError (newObject "ContentLengthError")
    { restCode := "ContentLengthRequired", statusCode := 411,
      message := "Content-Length must be >= 0" })

/-- Source `DirectoryDoesNotExistError(req)`. -/
def DirectoryDoesNotExistError (req : Request) : JsError :=
  .plain (MuskieError (newObject "DirectoryDoesNotExistError")
    { restCode := "DirectoryDoesNotExist", statusCode := 404,
      message := dirname req.path ++ " does not exist" })

/-- Source `DirectoryLimitError(p)`. -/
def DirectoryLimitError (p : String) : JsError :=
  .plain (MuskieError (newObject "DirectoryLimitError")
    { restCode := "DirectoryLimitExceeded", statusCode := 409,
      message := p ++ " cannot exceed 1,000,000 entries" })

/-- Source `DirectoryNotEmptyError(req)`. -/
def DirectoryNotEmptyError (req : Request) : JsError :=
  .plain (MuskieError (newObject "DirectoryNotEmptyError")
    { restCode := "DirectoryNotEmpty", statusCode := 400,
      message := req.path ++ " is not empty" })

/-- Source `DirectoryOperationError(req)`. -/
def DirectoryOperationError (req : Request) : JsError :=
  .plain (MuskieError (newObject "DirectoryOperationError")
    { restCode := "OperationNotAllowedOnDirectory", statusCode := 400,
      message := req.path ++ " is a directory: " ++ req.method ++ " is not allowed" })

/-- Source `EntityExistsError(req)`. -/
def EntityExistsError (req : Request) : JsError :=
  .plain (MuskieError (newObject "EntityExistsError")
    { restCode := "EntityAlreadyExists", statusCode := 409,
      message := req.path ++ " already exists" })

/-- Source `ExpectedUpgradeError(req)`. -/
def ExpectedUpgradeError (req : Request) : JsError :=
  .plain (MuskieError (newObject "ExpectedUpgradeError")
    { restCode := "ExpectedUpgrade", statusCode := 400,
      message := req.path ++ " requires a Websocket Upgrade" })

/-- Source `InvalidAuthTokenError(reason)`. -/
def InvalidAuthTokenError (reason : Option String) : JsError :=
  .plain (MuskieError (newObject "InvalidAuthTokenError")
    { restCode := "InvalidAuthenticationToken", statusCode := 403,
      message := "the authentication token you provided is " ++
        orDefault reason "malformed" })

/-- Source `InvalidHttpAuthTokenError(reason)`. -/
def InvalidHttpAuthTokenError (reason : Option String) : JsError :=
  .plain (MuskieError (newObject "InvalidHttpAuthTokenError")
    { restCode := "InvalidHttpAuthenticationToken", statusCode := 403,
      message := orDefault reason "Invalid HTTP Auth Token" })

/-- Source `InvalidDurabilityLevelError(min, max)`. -/
def InvalidDurabilityLevelError (min max : Nat) : JsError :=
  .plain (MuskieError (newObject "InvalidDurabilityLevelError")
    { restCode := "InvalidDurabilityLevel", statusCode := 400,
      message := "durability-level must be between " ++ toString min ++ " and " ++
        toString max })

/-- Source `InvalidJobError(msg)`. -/
def InvalidJobError (msg : String) : JsError :=
  .plain (MuskieError (newObject "InvalidJobError")
    { restCode := "InvalidJob", statusCode := 400, message := msg })

/-- Source `InvalidKeyIdError()`. -/
def InvalidKeyIdError : JsError :=
  .plain (MuskieError (newObject "InvalidKeyIdError")
    { restCode := "InvalidKeyId", statusCode := 403,
      message := "the KeyId token you provided is invalid" })

/-- Source `InvalidLimitError(l)`. -/
def InvalidLimitError (l : String) : JsError :=
  .plain (MuskieError (newObject "InvalidLimitError")
    { restCode := "InvalidArgumentError", statusCode := 400,
      message := "limit=" ++ l ++ " is invalid: must be between [1, 1024]" })

/-- Source `InvalidLinkError(req)`. -/
def InvalidLinkError (req : Request) : JsError :=
  .plain (MuskieError (newObject "InvalidLinkError")
    { restCode := "InvalidLink", statusCode := 400,
      message := formatS req.location ++ " is an invalid link" })

/-- Source `InvalidUpdateError(k, extra)`. -/
def InvalidUpdateError (k : String) (extra : Option String) : JsError :=
  .plain (MuskieError (newObject "InvalidUpdateError")
    { restCode := "InvalidUpdate", statusCode := 400,
      message := "overwrite of \"" ++ k ++ "\" forbidden" ++ orDefault extra "" })

/-- Source `InvalidParameterError(k, v)`. -/
def InvalidParameterError (k v : String) : JsError :=
  .plain (MuskieError (newObject "InvalidParameterError")
    { restCode := "InvalidParameter", statusCode := 400,
      message := "\"" ++ v ++ "\" is invalid for \"" ++ k ++ "\"" })

/-- Source `InvalidPathError(p)`. -/
def InvalidPathError (p : String) : JsError :=
  .plain (MuskieError (newObject "InvalidPathError")
    { restCode := "InvalidResource", statusCode := 400,
      message := "\"" ++ p ++ "\" is invalid" })

/-- Source `InvalidRoleError(r)`. -/
def InvalidRoleError (r : String) : JsError :=
  .plain (MuskieError (newObject "InvalidRoleError")
    { restCode := "InvalidRole", statusCode := 409,
      message := "Role \"" ++ r ++ "\" is invalid." })

/-- Source `InvalidRoleTagError(r)`. -/
def InvalidRoleTagError (r : String) : JsError :=
  .plain (MuskieError (newObject "InvalidRoleTagError")
    { restCode := "InvalidRoleTag", statusCode := 409,
      message := "Role tag \"" ++ r ++ "\" is invalid." })

/-- Source `InvalidSignatureError()`. -/
def InvalidSignatureError : JsError :=
  .plain (MuskieError (newObject "InvalidSignatureError")
    { restCode := "InvalidSignature", statusCode := 403,
      message := "The signature we calculated does not match the one " ++ "you sent" })

/-- Source `JobStateError(id, state)`. -/
def JobStateError (id state : String) : JsError :=
  .plain (MuskieError (newObject "JobStateError")
    { restCode := "InvalidJobState", statusCode := 409,
      message := "job " ++ id ++ " is in state \x27" ++ state ++ "\x27" })

/-- Source `JobNotFoundError(req)`. -/
def JobNotFoundError (req : Request) : JsError :=
  .plain (MuskieError (newObject "JobNotFoundError")
    { restCode := "JobNotFound", statusCode := 404,
      message := req.path ++ " was not found" })

/-- Source `KeyDoesNotExistError(account, key, user)`. -/
def KeyDoesNotExistError (account key : String) (user : Option String) : JsError :=
  let message :=
    match user with
    | some u =>
      if u = "" then "/" ++ account ++ "/keys/" ++ key ++ " does not exist"
      else "/" ++ account ++ "/" ++ u ++ "/keys/" ++ key ++ " does not exist"
    | none => "/" ++ account ++ "/keys/" ++ key ++ " does not exist"
  .plain (MuskieError (newObject "KeyDoesNotExistError")
    { restCode := "KeyDoesNotExist", statusCode := 403, message := message })

/-- Source `LinkNotFoundError(req)`. -/
def LinkNotFoundError (req : Request) : JsError :=
  .plain (MuskieError (newObject "LinkNotFoundError")
    { restCode := "SourceObjectNotFound", statusCode := 404,
      message := formatS req.location ++ " was not found" })

/-- Source `LinkNotObjectError(req)`. -/
def LinkNotObjectError (req : Request) : JsError :=
  .plain (MuskieError (newObject "LinkNotObjectError")
    { restCode := "LinkNotObject", statusCode := 400,
      message := formatS req.location ++ " is not an object" })

/-- Source `LinkRequiredError()`. -/
def LinkRequiredError : JsError :=
  .plain (MuskieError (newObject "LinkRequiredError")
    { restCode := "LocationRequired", statusCode := 400,
      message := "An HTTP Location header must be specified" })

/-- Source `SharksExhaustedError(res)`: the error, and the response with its
`Retry-After` header set to 30 when a response was given. -/
def SharksExhaustedError (res : Option Response) : JsError × Option Response :=
  (.plain (MuskieError (newObject "SharksExhaustedError")
    { restCode := "InternalError", statusCode := 503,
      message := "No storage nodes available for this request" }),
   match res with
   | some r => some (r.setHeader "Retry-After" "30")
   | none => none)

/-- Source `MaxContentLengthError(len)`. -/
def MaxContentLengthError (len : String) : JsError :=
  .plain (MuskieError (newObject "MaxContentLengthError")
    { restCode := "InvalidMaxContentLength", statusCode := 400,
      message := len ++ " is an invalid max-content-length value" })

/-- Source `MaxSizeExceededError(max)`. -/
def MaxSizeExceededError (max : Nat) : JsError :=
  .plain (MuskieError (newObject "MaxSizeExceededError")
    { restCode := "MaxContentLengthExceeded", statusCode := 413,
      message := "request has exceeded " ++ toString max ++ " bytes" })

/-- Source `MissingPermissionError(perm)`. -/
def MissingPermissionError (perm : String) : JsError :=
  .plain (MuskieError (newObject "MissingPermissionError")
    { restCode := "MissingPermission", statusCode := 403,
      message := "missing role allowing " ++ perm })

/-- Source `NotAcceptableError(req, type)`. -/
def NotAcceptableError (req : Request) (type : String) : JsError :=
  .plain (MuskieError (newObject "NotAcceptableError")
    { restCode := "NotAcceptable", statusCode := 406,
      message := req.path ++ " accepts " ++ type })

/-- Source `NoMatchingRoleTagError()`. -/
def NoMatchingRoleTagError : JsError :=
  .plain (MuskieError (newObject "NoMatchingRoleTagError")
    { restCode := "NoMatchingRoleTag", statusCode := 403,
      message := "None of your active roles are present on the resource." })

/-- Source `NotEnoughSpaceError(size)`. -/
def NotEnoughSpaceError (size : Nat) : JsError :=
  .plain (MuskieError (newObject "NotEnoughSpaceError")
    { restCode := "NotEnoughSpace", statusCode := 507,
      message := "not enough free space for " ++ toString size ++ " MB" })

/-- Source `NotImplementedError(message)`. -/
def NotImplementedError (message : String) : JsError :=
  .plain (MuskieError (newObject "NotImplementedError")
    { restCode := "NotImplemented", statusCode := 501, message := message })

/-- Source `ParentNotDirectoryError(req)`. -/
def ParentNotDirectoryError (req : Request) : JsError :=
  .plain (MuskieError (newObject "ParentNotDirectoryError")
    { restCode := "ParentNotDirectory", statusCode := 400,
      message := dirname req.path ++ " is not a directory" })

/-- Source `PreSignedRequestError(msg)`. -/
def PreSignedRequestError (msg : String) : JsError :=
  .plain (MuskieError (newObject "PreSignedRequestError")
    { restCode := "InvalidQueryStringAuthentication", statusCode := 403, message := msg })

/-- Source `RootDirectoryError(req)`. -/
def RootDirectoryError (req : Request) : JsError :=
  .plain (MuskieError (newObject "RootDirectoryError")
    { restCode := "OperationNotAllowedOnRootDirectory", statusCode := 400,
      message := req.method ++ " is not allowed on " ++ req.path })

/-- Source `ResourceNotFoundError(p)`. -/
def ResourceNotFoundError (p : String) : JsError :=
  .plain (MuskieError (newObject "ResourceNotFoundError")
    { restCode := "ResourceNotFound", statusCode := 404,
      message := p ++ " was not found" })

/-- Source `ServiceUnavailableError(req)`; the request is not read. -/
def ServiceUnavailableError (_req : Request) : JsError :=
  .plain (MuskieError (newObject "ServiceUnavailableError")
    { restCode := "ServiceUnavailable", statusCode := 503,
      message := "manta is unable to serve this request" })

/-- Source `SSLRequiredError()`. -/
def SSLRequiredError : JsError :=
  .plain (MuskieError (newObject "SSLRequiredError")
    { restCode := "SecureTransportRequired", statusCode := 403,
      message := "Manta requires a secure transport (SSL/TLS)" })

/-- Source `UploadAbandonedError()`. -/
def UploadAbandonedError : JsError :=
  .plain (MuskieError (newObject "UploadAbandonedError")
    { restCode := "UploadAbandoned", statusCode := 499,
      message := "request was aborted prematurely by the client" })

/-- Source `UploadTimeoutError()`. -/
def UploadTimeoutError : JsError :=
  .plain (MuskieError (newObject "UploadTimeoutError")
    { restCode := "UploadTimeout", statusCode := 408,
      message := "request took too long to send data" })

/-- Source `UserDoesNotExistError(account, user)`. -/
def UserDoesNotExistError (account : Option String) (user : String) : JsError :=
  let message :=
    match account with
    | some a =>
      if a = "" then user ++ " does not exist"
      else a ++ "/" ++ user ++ " does not exist"
    | none => user ++ " does not exist"
  .plain (MuskieError (newObject "UserDoesNotExistError")
    { restCode := "UserDoesNotExist", statusCode := 403, message := message })

/-- A call of one of the error kinds of `errors.js` (the constructors
inheriting from `MuskieError`), with its arguments. -/
inductive ErrorCall where
  | accountDoesNotExist (account : String)
  | accountBlocked (login : String)
  | authScheme (scheme : Option String)
  | authorization (login _path : String) (reason : Option String)
  | checksum (expected actual : String)
  | concurrentRequest (p : String)
  | contentLength
  | directoryDoesNotExist (req : Request)
  | directoryLimit (p : String)
  | directoryNotEmpty (req : Request)
  | directoryOperation (req : Request)
  | entityExists (req : Request)
  | expectedUpgrade (req : Request)
  | internal (cause : Option JsError)
  | invalidAuthToken (reason : Option String)
  | invalidHttpAuthToken (reason : Option String)
  | invalidDurabilityLevel (min max : Nat)
  | invalidJob (msg : String)
  | invalidKeyId
  | invalidLimit (l : String)
  | invalidLink (req : Request)
  | invalidUpdate (k : String) (extra : Option String)
  | invalidParameter (k v : String)
  | invalidPath (p : String)
  | invalidRole (r : String)
  | invalidRoleTag (r : String)
  | invalidSignature
  | jobState (id state : String)
  | jobNotFound (req : Request)
  | keyDoesNotExist (account key : String) (user : Option String)
  | linkNotFound (req : Request)
  | linkNotObject (req : Request)
  | linkRequired
  | sharksExhausted (res : Option Response)
  | maxContentLength (len : String)
  | maxSizeExceeded (max : Nat)
  | missingPermission (perm : String)
  | notAcceptable (req : Request) (type : String)
  | noMatchingRoleTag
  | notEnoughSpace (size : Nat)
  | notImplemented (message : String)
  | parentNotDirectory (req : Request)
  | preSignedRequest (msg : String)
  | requestedRangeNotSatisfiable (req : Request) (err : Option JsError)
  | rootDirectory (req : Request)
  | resourceNotFound (p : String)
  | serviceUnavailable (req : Request)
  | sslRequired
  | uploadAbandoned
  | uploadTimeout
  | userDoesNotExist (account : Option String) (user : String)

/-- The error value a call builds. -/
def ErrorCall.construct : ErrorCall → JsError
  | .accountDoesNotExist account => AccountDoesNotExistError account
  | .accountBlocked login => AccountBlockedError login
  | .authScheme scheme => AuthSchemeError scheme
  | .authorization login _path reason => AuthorizationError login _path reason
  | .checksum expected actual => ChecksumError expected actual
  | .concurrentRequest p => ConcurrentRequestError p
  | .contentLength => ContentLengthError
  | .directoryDoesNotExist req => DirectoryDoesNotExistError req
  | .directoryLimit p => DirectoryLimitError p
  | .directoryNotEmpty req => DirectoryNotEmptyError req
  | .directoryOperation req => DirectoryOperationError req
  | .entityExists req => EntityExistsError req
  | .expectedUpgrade req => ExpectedUpgradeError req
  | .internal cause => InternalError cause
  | .invalidAuthToken reason => InvalidAuthTokenError reason
  | .invalidHttpAuthToken reason => InvalidHttpAuthTokenError reason
  | .invalidDurabilityLevel min max => InvalidDurabilityLevelError min max
  | .invalidJob msg => InvalidJobError msg
  | .invalidKeyId => InvalidKeyIdError
  | .invalidLimit l => InvalidLimitError l
  | .invalidLink req => InvalidLinkError req
  | .invalidUpdate k extra => InvalidUpdateError k extra
  | .invalidParameter k v => InvalidParameterError k v
  | .invalidPath p => InvalidPathError p
  | .invalidRole r => InvalidRoleError r
  | .invalidRoleTag r => InvalidRoleTagError r
  | .invalidSignature => InvalidSignatureError
  | .jobState id state => JobStateError id state
  | .jobNotFound req => JobNotFoundError req
  | .keyDoesNotExist account key user => KeyDoesNotExistError account key user
  | .linkNotFound req => LinkNotFoundError req
  | .linkNotObject req => LinkNotObjectError req
  | .linkRequired => LinkRequiredError
  | .sharksExhausted res => (SharksExhaustedError res).1
  | .maxContentLength len => MaxContentLengthError len
  | .maxSizeExceeded max => MaxSizeExceededError max
  | .missingPermission perm => MissingPermissionError perm
  | .notAcceptable req type => NotAcceptableError req type
  | .noMatchingRoleTag => NoMatchingRoleTagError
  | .notEnoughSpace size => NotEnoughSpaceError size
  | .notImplemented message => NotImplementedError message
  | .parentNotDirectory req => ParentNotDirectoryError req
  | .preSignedRequest msg => PreSignedRequestError msg
  | .requestedRangeNotSatisfiable req err => RequestedRangeNotSatisfiableError req err
  | .rootDirectory req => RootDirectoryError req
  | .resourceNotFound p => ResourceNotFoundError p
  | .serviceUnavailable req => ServiceUnavailableError req
  | .sslRequired => SSLRequiredError
  | .uploadAbandoned => UploadAbandonedError
  | .uploadTimeout => UploadTimeoutError
  | .userDoesNotExist account user => UserDoesNotExistError account user

/-- An error name without its last five characters, the suffix `Error`. -/
def withoutErrorSuffix (name : String) : String :=
  String.mk (name.data.take (name.data.length - 5))

/-! ## `checkGetResponse` (`test/mpu/helper.js`) -/

/-- A JavaScript value, as far as `checkGetResponse` distinguishes values:
by truthiness, by strict equality and by what `%s` prints. Objects are told
apart by reference. -/
inductive JsValue where
  | undefined
  | null
  | bool (b : Bool)
  | number (n : Int)
  | string (s : String)
  | object (ref : Nat)
  deriving DecidableEq, Repr

/-- Truthiness of a value, as `!v` tests it. -/
def JsValue.truthy : JsValue → Bool
  | .undefined => false
  | .null => false
  | .bool b => b
  | .number n => n != 0
  | .string s => s != ""
  | .object _ => true

/-- What `util.format` prints for a `%s` argument. -/
def JsValue.format : JsValue → String
  | .undefined => "undefined"
  | .null => "null"
  | .bool b => if b then "true" else "false"
  | .number n => toString n
  | .string s => s
  | .object _ => "[object Object]"

/-- The object returned from get-mpu, with the properties `checkGetResponse`
reads. -/
structure UploadObject where
  id : JsValue
  state : JsValue
  targetObject : JsValue
  headers : JsValue
  numCopies : JsValue
  partsDirectory : JsValue
  type : JsValue
  result : JsValue
  partsMD5Summary : JsValue
  deriving DecidableEq, Repr

/-- The tester object `checkGetResponse` is called on, with the two
properties it reads (`initMPUTester` sets both to `null`). -/
structure Tester where
  uploadId : JsValue
  partsDirectory : JsValue
  deriving DecidableEq, Repr

/-- Source `checkGetResponse(u)`, from the test `if (!u.state)` to the end: the
checks that do not read the tester. `none` is the `null` returned on success,
`some msg` the `Error` returned with that message. -/
def checkGetResponse.fields (u : UploadObject) : Option String :=
  if ¬ u.state.truthy then
    some "get-mpu did not return an upload state"
  else if ¬ (u.state = .string "created" ∨ u.state = .string "finalizing" ∨
      u.state = .string "done") then
    some ("get-mpu returned an invalid state: " ++ u.state.format)
  else if ¬ u.targetObject.truthy then
    some "get-mpu did not return the target object path"
  else if ¬ u.headers.truthy then
    some "get-mpu did not return the target object headers"
  else if ¬ u.numCopies.truthy then
    some ("get-mpu did not return numCopies for the target " ++ "object")
  else if ¬ u.headers.truthy then
    some "get-mpu did not return the target object headers"
  else if u.state = .string "created" then
    if ¬ u.partsDirectory.truthy then
      some ("get-mpu returned an upload in state \"created\" " ++
        "with no \"partsDirectory\" field")
    else none
  else if u.state = .string "finalizing" then
    if ¬ u.type.truthy then
      some ("get-mpu returned an upload in state " ++ "\"finalizing\" with no \"type\" field")
    else if ¬ (u.type = .string "abort" ∨ u.type = .string "commit") then
      some ("get-mpu returned an upload in state " ++
        "\"finalizing\" with invalid \"type\": %s")
    else none
  else
    if ¬ u.result.truthy then
      some ("get-mpu returned an upload in state " ++ "\"done\" with no \"result\" field")
    else if ¬ (u.result = .string "aborted" ∨ u.result = .string "committed") then
      some ("get-mpu returned an upload in state " ++
        "\"finalizing\" with invalid \"result\": " ++ u.result.format)
    else if u.result = .string "committed" then
      if ¬ u.partsMD5Summary.truthy then
        some ("get-mpu returned an upload in state " ++
          "\"finalizing\", result \"committed\", with no " ++ "\"partsMD5Summary\" field")
      else none
    else none

/-- Source `checkGetResponse(u)`, called on the tester `this`; an absent
response is `none`. `none` is the `null` returned on success, `some msg` the
`Error` returned with that message. -/
def checkGetResponse (this : Tester) (u : Option UploadObject) : Option String :=
  match u with
  | none => some "get-mpu returned no response"
  | some u =>
    if ¬ u.id.truthy then
      some "get-mpu did not return an upload ID"
    else if this.uploadId.truthy then
      if this.uploadId ≠ u.id then
        some ("get-mpu returned an upload with a " ++
          "different id than was returned from create-mpu: " ++
          "expected id \"" ++ this.uploadId.format ++ "\", but got id \"" ++
          u.id.format ++ "\"")
      else if u.state = .string "created" ∧ this.partsDirectory ≠ u.partsDirectory then
        some ("get-mpu returned an upload with a " ++
          "different partsDirectory than was returned from " ++
          "create-mpu: expected partsDirectory \"" ++ this.partsDirectory.format ++
          "\", but got \"" ++ u.partsDirectory.format ++ "\"")
      else checkGetResponse.fields u
    else checkGetResponse.fields u

/-- The tester before any upload was created. -/
def freshTester : Tester := { uploadId := .null, partsDirectory := .null }

/-- A response in state `created` that also carries the result `committed`,
without a partsMD5Summary. -/
def createdWithResult : UploadObject :=
  { id := .string "0f1e", state := .string "created",
    targetObject := .string "/user/stor/dir/obj", headers := .object 1,
    numCopies := .number 2, partsDirectory := .string "/user/uploads/0/0f1e",
    type := .undefined, result := .string "committed", partsMD5Summary := .undefined }

/-- A response in state `done`, result `aborted`, that still carries a
partsDirectory and a type. -/
def doneWithPartsDirectory : UploadObject :=
  { id := .string "0f1e", state := .string "done",
    targetObject := .string "/user/stor/dir/obj", headers := .object 1,
    numCopies := .number 2, partsDirectory := .string "/user/uploads/0/0f1e",
    type := .string "abort", result := .string "aborted", partsMD5Summary := .undefined }

/-- A response in state `done`, result `committed`, with its summary and no
field of another state. -/
def committedResponse : UploadObject :=
  { id := .string "0f1e", state := .string "done",
    targetObject := .string "/user/stor/dir/obj", headers := .object 1,
    numCopies := .number 2, partsDirectory := .undefined,
    type := .undefined, result := .string "committed",
    partsMD5Summary := .string "1B2M2Y8AsgTpgAmY7PhCfg==" }

/-! ## Sample errors for `translateError` -/

/-- A `VError` whose cause is an error named `PreconditionFailedError` that
has a cause of its own, a `TypeError`; none of the three is in the taxonomy. -/
def wrappedTwice : JsError :=
  .caused (rawError "VError")
    (.caused (rawError "PreconditionFailedError") (.plain (rawError "TypeError")))

/-! ## `checkCreateResponse` and `createUploadHelper` (`test/mpu/helper.js`) -/

/-- Node's `path.basename(path)` for POSIX paths, called without the `ext`
argument: trailing slashes are dropped, and what follows the last remaining
slash is returned. -/
def basename (path : String) : String :=
  String.mk (((path.data.reverse.dropWhile (· == '/')).takeWhile (· != '/')).reverse)

/-- The object returned from create-mpu, with the two properties
`checkCreateResponse` reads. `partsDirectory` is a string when it is set, as
`path.basename` takes a string. -/
structure CreateObject where
  id : JsValue
  partsDirectory : Option String
  deriving DecidableEq, Repr

/-- Value of `o.partsDirectory`: `undefined` when the property is not set. -/
def CreateObject.partsDirectoryValue (o : CreateObject) : JsValue :=
  match o.partsDirectory with
  | some s => .string s
  | none => .undefined

/-- Source `checkCreateResponse(o)`; an absent response is `none`. `none` is
the `null` returned on success, `some msg` the `Error` returned with that
message. -/
def checkCreateResponse (o : Option CreateObject) : Option String :=
  match o with
  | none => some "create-mpu returned no response"
  | some o =>
    if ¬ o.id.truthy then
      some "create-mpu did not return an upload ID"
    else
      match o.partsDirectory with
      | none => some "create-mpu did not return a parts directory"
      | some partsDirectory =>
        if ¬ (JsValue.string partsDirectory).truthy then
          some "create-mpu did not return a parts directory"
        else if ¬ (o.id = .string (basename partsDirectory)) then
          some ("create-mpu returned an upload ID that does not " ++
            "match its parts directory")
        else none

/-- One call of the callback `cb(err, object)` of `createUploadHelper`: the
first argument, and the second when one is passed. -/
structure CallbackCall where
  err : JsValue
  object : Option CreateObject
  deriving DecidableEq, Repr

/-- Source `createUploadHelper(p, h, subuser, cb)`, from the callback of
`signRequest` on. `err` is what `signRequest` reports, `err2` and `o` are the
error and the object that `jsonClient.post` hands to its callback. The result
is the call made to `cb` and the tester afterwards; `none` when `o.id` is read
from an absent `o`, which throws before `cb` is called. -/
def createUploadHelper (self : Tester) (err err2 : JsValue) (o : Option CreateObject) :
    Option (CallbackCall × Tester) :=
  if err.truthy then
    some ({ err := err, object := none }, self)
  else if err2.truthy then
    some ({ err := err2, object := none }, self)
  else
    match o with
    | none => none
    | some obj =>
      let self := { self with uploadId := obj.id, partsDirectory := obj.partsDirectoryValue }
      let err3 := checkCreateResponse o
      if err3.isSome then
        some ({ err := err2, object := none }, self)
      else
        some ({ err := .null, object := some obj }, self)

/-- A create-mpu response whose id is not the last component of its parts
directory. -/
def mismatchedCreateObject : CreateObject :=
  { id := .string "0f1e", partsDirectory := some "/user/uploads/0/ffff" }

/-! ## The exports of `lib/errors.js` -/

/-- The class `\s` of a JavaScript regular expression. -/
def isWhiteSpace (c : Char) : Bool :=
  c.toNat == 0x20 || (0x09 ≤ c.toNat && c.toNat ≤ 0x0d) || c.toNat == 0xa0 ||
    c.toNat == 0x1680 || (0x2000 ≤ c.toNat && c.toNat ≤ 0x200a) || c.toNat == 0x2028 ||
    c.toNat == 0x2029 || c.toNat == 0x202f || c.toNat == 0x205f || c.toNat == 0x3000 ||
    c.toNat == 0xfeff

/-- The class `\w` of a JavaScript regular expression: `[A-Za-z0-9_]`. -/
def isWordChar (c : Char) : Bool :=
  (0x41 ≤ c.toNat && c.toNat ≤ 0x5a) || (0x61 ≤ c.toNat && c.toNat ≤ 0x7a) ||
    (0x30 ≤ c.toNat && c.toNat ≤ 0x39) || c == '_'

/-- Whether a line begins with the eight characters `function`. -/
def beginsWithFunction (l : String) : Bool :=
  match l.data with
  | 'f' :: 'u' :: 'n' :: 'c' :: 't' :: 'i' :: 'o' :: 'n' :: _ => true
  | _ => false

/-- Source `/^function\s+(\w+)\(.*/.exec(l)`, reduced to `match[1]`: `none` when
the line does not match. The two classes are disjoint and neither holds `(`, so
the greedy runs are the only way to match. -/
def execFunctionLine (l : String) : Option String :=
  match l.data with
  | 'f' :: 'u' :: 'n' :: 'c' :: 't' :: 'i' :: 'o' :: 'n' :: rest =>
    let spaces := rest.takeWhile isWhiteSpace
    let rest := rest.dropWhile isWhiteSpace
    let name := rest.takeWhile isWordChar
    let rest := rest.dropWhile isWordChar
    if spaces.isEmpty || name.isEmpty then none
    else
      match rest with
      | '(' :: _ => some (String.mk name)
      | _ => none
  | _ => none

/-- Source `/\w+Error$/.test(name)`: the text ends in `Error`, with a word
character right before it. -/
def testErrorName (name : String) : Bool :=
  match name.data.reverse with
  | 'r' :: 'o' :: 'r' :: 'r' :: 'E' :: c :: _ => isWordChar c
  | _ => false

/-- A function declared at the top level of `errors.js`, which is what
`eval(match[1])` yields for the name of a declaration line. -/
structure DeclaredFunction where
  name : String
  deriving DecidableEq, Repr

/-- Assignment `obj[k] = v` on an object kept as the list of its own
properties in insertion order. -/
def setProperty (obj : List (String × DeclaredFunction)) (k : String) (v : DeclaredFunction) :
    List (String × DeclaredFunction) :=
  if obj.any (fun kv => kv.1 == k) then
    obj.map (fun kv => if kv.1 == k then (k, v) else kv)
  else obj ++ [(k, v)]

/-- Source loop over the lines of the file: a line that matches, with a name
that passes the test, sets `module.exports[match[1]]`. -/
def autoExport (lines : List String) (exports : List (String × DeclaredFunction)) :
    List (String × DeclaredFunction) :=
  lines.foldl
    (fun exports l =>
      match execFunctionLine l with
      | some name => if testErrorName name then setProperty exports name ⟨name⟩ else exports
      | none => exports)
    exports

/-- Source loop `Object.keys(module.exports).forEach(...)`: every key of the
exports is set on `global` to the value the exports hold for it. The global
object is kept as the map from a name to the function stored under it. -/
def injectGlobals (exports : List (String × DeclaredFunction))
    (global : String → Option DeclaredFunction) : String → Option DeclaredFunction :=
  exports.foldl (fun global kv => fun k => if k = kv.1 then some kv.2 else global k) global

/-- State left by loading the module: `module.exports` and the global
object. -/
structure LoadedModule where
  exports : List (String × DeclaredFunction)
  global : String → Option DeclaredFunction

/-- What loading `errors.js` does with the lines of its own text:
`module.exports` starts empty, is filled by the loop over the lines, and is
then copied into the global object. -/
def loadErrors (lines : List String) (global : String → Option DeclaredFunction) :
    LoadedModule :=
  let exports := autoExport lines []
  { exports := exports, global := injectGlobals exports global }

/-- The lines of `errors.js` that begin with `function`, in file order. -/
def declarationLines : List String :=
  ["function MuskieError(obj) \x7b",
   "function AccountDoesNotExistError(account) \x7b",
   "function AccountBlockedError(login) \x7b",
   "function AuthSchemeError(scheme) \x7b",
   "function AuthorizationError(login, _path, reason) \x7b",
   "function ChecksumError(expected, actual) \x7b",
   "function ConcurrentRequestError(p) \x7b",
   "function ContentLengthError() \x7b",
   "function DirectoryDoesNotExistError(req) \x7b",
   "function DirectoryLimitError(p) \x7b",
   "function DirectoryNotEmptyError(req) \x7b",
   "function DirectoryOperationError(req) \x7b",
   "function EntityExistsError(req) \x7b",
   "function ExpectedUpgradeError(req) \x7b",
   "function InternalError(cause) \x7b",
   "function InvalidAuthTokenError(reason) \x7b",
   "function InvalidHttpAuthTokenError(reason) \x7b",
   "function InvalidDurabilityLevelError(min, max) \x7b",
   "function InvalidJobError(msg) \x7b",
   "function InvalidKeyIdError() \x7b",
   "function InvalidLimitError(l) \x7b",
   "function InvalidLinkError(req) \x7b",
   "function InvalidUpdateError(k, extra) \x7b",
   "function InvalidParameterError(k, v) \x7b",
   "function InvalidPathError(p) \x7b",
   "function InvalidRoleError(r) \x7b",
   "function InvalidRoleTagError(r) \x7b",
   "function InvalidSignatureError() \x7b",
   "function JobStateError(id, state) \x7b",
   "function JobNotFoundError(req) \x7b",
   "function KeyDoesNotExistError(account, key, user) \x7b",
   "function LinkNotFoundError(req) \x7b",
   "function LinkNotObjectError(req) \x7b",
   "function LinkRequiredError() \x7b",
   "function SharksExhaustedError(res) \x7b",
   "function MaxContentLengthError(len) \x7b",
   "function MaxSizeExceededError(max) \x7b",
   "function MissingPermissionError(perm) \x7b",
   "function NotAcceptableError(req, type) \x7b",
   "function NoMatchingRoleTagError() \x7b",
   "function NotEnoughSpaceError(size) \x7b",
   "function NotImplementedError(message) \x7b",
   "function ParentNotDirectoryError(req) \x7b",
   "function PreSignedRequestError(msg) \x7b",
   "function RequestedRangeNotSatisfiableError(req, err) \x7b",
   "function RootDirectoryError(req) \x7b",
   "function ResourceNotFoundError(p) \x7b",
   "function ServiceUnavailableError(req) \x7b",
   "function SSLRequiredError() \x7b",
   "function UploadAbandonedError() \x7b",
   "function UploadTimeoutError() \x7b",
   "function UserDoesNotExistError(account, user) \x7b",
   "function translateError(err, req) \x7b"]

/-- Specification side of the exports: `MuskieError`, the 51 kinds that
inherit from it, and `translateError`, in file order. -/
def exportedNames : List String :=
  ["MuskieError", "AccountDoesNotExistError", "AccountBlockedError", "AuthSchemeError",
   "AuthorizationError", "ChecksumError", "ConcurrentRequestError", "ContentLengthError",
   "DirectoryDoesNotExistError", "DirectoryLimitError", "DirectoryNotEmptyError",
   "DirectoryOperationError", "EntityExistsError", "ExpectedUpgradeError", "InternalError",
   "InvalidAuthTokenError", "InvalidHttpAuthTokenError", "InvalidDurabilityLevelError",
   "InvalidJobError", "InvalidKeyIdError", "InvalidLimitError", "InvalidLinkError",
   "InvalidUpdateError", "InvalidParameterError", "InvalidPathError", "InvalidRoleError",
   "InvalidRoleTagError", "InvalidSignatureError", "JobStateError", "JobNotFoundError",
   "KeyDoesNotExistError", "LinkNotFoundError", "LinkNotObjectError", "LinkRequiredError",
   "SharksExhaustedError", "MaxContentLengthError", "MaxSizeExceededError",
   "MissingPermissionError", "NotAcceptableError", "NoMatchingRoleTagError",
   "NotEnoughSpaceError", "NotImplementedError", "ParentNotDirectoryError",
   "PreSignedRequestError", "RequestedRangeNotSatisfiableError", "RootDirectoryError",
   "ResourceNotFoundError", "ServiceUnavailableError", "SSLRequiredError",
   "UploadAbandonedError", "UploadTimeoutError", "UserDoesNotExistError", "translateError"]

/-- A text with every declaration line of `errors.js` among lines of other
kinds: a `require`, a comment, an indented statement, a blank line. -/
def sampleErrorsText : List String :=
  ["var fs = require(\x27fs\x27);", "// Auto export all Errors defined in this file"] ++
    declarationLines ++ ["    return (e);", "", "\x7d);"]

/-! ## Target paths of uploads (server side)

The checks of a target path are those section 4.2 of the specification lists;
`test/mpu/commit.test.js` (lines 415 to 538) fixes the operation that makes
them: every test there requires `createUpload` to succeed for the bad path and
expects the failure from `commitUpload`. -/

/-- The components of a path: the non-empty texts between its slashes, read
from the characters left, with the component under way in `acc`, reversed. -/
def splitPath : List Char → List Char → List String
  | [], acc => if acc.isEmpty then [] else [String.mk acc.reverse]
  | c :: cs, acc =>
    if c == '/' then
      if acc.isEmpty then splitPath cs [] else String.mk acc.reverse :: splitPath cs []
    else splitPath cs (c :: acc)

/-- The components of a path. -/
def pathComponents (path : String) : List String :=
  splitPath path.data []

/-- Modelled from the spec: the account that owns a path (section 4.2, `that
path's owning account`; the server's path handling is missing): the first
component, as in `/poseidon/stor/foo.txt`. -/
def pathAccount (path : String) : String :=
  (pathComponents path).headD ""

/-- Modelled from the spec: a root or top-level directory (section 4.2; the
server's path handling is missing): the root of an account or a directory right
below it, such as `/user/stor`. -/
def isTopLevelDirectory (path : String) : Bool :=
  decide ((pathComponents path).length ≤ 2)

/-- Modelled from the spec: the collaborators of section 6 that a target path
is checked against (their code is missing): the accounts that exist,
`directoryExists` and `entryCount` of the namespace tier, and the account of
the caller, the one account that `checkAccess` lets the caller write under. -/
structure Namespace where
  accountExists : String → Bool
  directoryExists : String → Bool
  entryCount : String → Nat
  caller : String

/-- Modelled from the spec: the entry-count limit of a directory (section 6). -/
def maxDirectoryEntries : Nat := 1000000

/-- Modelled from the spec: the checks of a target path that section 4.2 lists
(the server's code is missing), each with the failure 4.2 names for it: the
caller is authorized on the owning account (authorization-denied for
cross-account access), the path is no root or top-level directory
(operation-not-allowed), its parent directory exists (not-found) and is below
its entry-count limit. An owning account that does not exist is refused first,
as the test `commit upload: object path under a nonexistent account` expects.
The result is the failure, `none` when the path passes. -/
def checkTargetPath (ns : Namespace) (path : String) : Option ErrorKind :=
  if !ns.accountExists (pathAccount path) then some .accountDoesNotExist
  else if pathAccount path != ns.caller then some .authorizationFailed
  else if isTopLevelDirectory path then some .operationNotAllowedOnDirectory
  else if !ns.directoryExists (dirname path) then some .directoryDoesNotExist
  else if maxDirectoryEntries ≤ ns.entryCount (dirname path) then
    some .directoryLimitExceeded
  else none

/-- The code under which a failure kind is reported; `test/mpu/commit.test.js`
asserts each as the error name made of this code and `Error`. -/
def ErrorKind.restCode : ErrorKind → String
  | .argumentInvalid => "MultipartUploadInvalidArgument"
  | .stateConflict => "InvalidMultipartUploadState"
  | .concurrentRequest => "ConcurrentRequest"
  | .notFound => "ResourceNotFound"
  | .operationNotAllowedOnDirectory => "OperationNotAllowedOnDirectory"
  | .directoryDoesNotExist => "DirectoryDoesNotExist"
  | .authorizationFailed => "AuthorizationFailed"
  | .accountDoesNotExist => "AccountDoesNotExist"
  | .directoryLimitExceeded => "DirectoryLimitExceeded"

/-- A namespace with the accounts `user` and `poseidon`, in which the caller is
`user`; the directories are the top-level `stor` of both accounts and
`/user/stor/dir`, none near its limit. -/
def sampleNamespace : Namespace :=
  { accountExists := fun a => a == "user" || a == "poseidon",
    directoryExists := fun d =>
      d == "/user/stor" || d == "/user/stor/dir" || d == "/poseidon/stor",
    entryCount := fun _ => 3,
    caller := "user" }

/-- A store with no upload, whose target paths are checked against
`sampleNamespace`. -/
def emptyStore : Store :=
  { records := fun _ => none,
    parts := fun _ _ => none,
    objects := fun _ => none,
    contentDigest := fun _ _ => none,
    writeError := checkTargetPath sampleNamespace }

/-! ## Theorems -/

/-! ### `translateError` -/

theorem RequestedRangeNotSatisfiableError_props (req : Request) (err : Option JsError) :
    (RequestedRangeNotSatisfiableError req err).props.cls
        = .muskie "RequestedRangeNotSatisfiableError" ∧
      (RequestedRangeNotSatisfiableError req err).props.restCode
        = some "RequestedRangeNotSatisfiable" ∧
      (RequestedRangeNotSatisfiableError req err).props.statusCode = some 416 := by
  unfold RequestedRangeNotSatisfiableError
  cases err with
  | none => simp [JsError.props, MuskieError, RestError, newObject]
  | some e =>
    dsimp only
    split <;> simp [JsError.props, MuskieError, RestError, newObject]

theorem isTaxonomyMember_RequestedRange (req : Request) (err : Option JsError) :
    isTaxonomyMember (RequestedRangeNotSatisfiableError req err) = true := by
  simp [isTaxonomyMember, instanceofMuskieError,
    (RequestedRangeNotSatisfiableError_props req err).1]

theorem isTaxonomyMember_ConcurrentRequest (p : String) :
    isTaxonomyMember (ConcurrentRequestError p) = true := by
  simp [isTaxonomyMember, instanceofMuskieError, ConcurrentRequestError, JsError.props,
    MuskieError, RestError, newObject]

theorem isTaxonomyMember_InternalError (c : Option JsError) :
    isTaxonomyMember (InternalError c) = true := by
  cases c <;> simp [isTaxonomyMember, instanceofMuskieError, InternalError, JsError.props,
    MuskieError, RestError, newObject]

theorem isTaxonomyMember_ResourceNotFound (c : JsError) (p : String) :
    isTaxonomyMember (restify.ResourceNotFoundError c p) = true := by
  simp [isTaxonomyMember, instanceofMuskieError, instanceofHttpError,
    restify.ResourceNotFoundError, JsError.props]

theorem translateError_of_member (err : JsError) (req : Request)
    (h : isTaxonomyMember err = true) : translateError err req = err := by
  have h' : (instanceofMuskieError err || instanceofHttpError err) = true := h
  simp [translateError, h']

theorem translateError_of_raw (err : JsError) (req : Request)
    (h : isTaxonomyMember err = false) :
    translateError err req =
      match (effectiveError err).name with
      | "ObjectNotFoundError" => restify.ResourceNotFoundError (effectiveError err) req.path
      | "PreconditionFailedError" => effectiveError err
      | "RequestedRangeNotSatisfiableError" =>
          RequestedRangeNotSatisfiableError req (some (effectiveError err))
      | "EtagConflictError" => ConcurrentRequestError req.path
      | "UniqueAttributeError" => ConcurrentRequestError req.path
      | _ => InternalError none := by
  have h' : (instanceofMuskieError err || instanceofHttpError err) = false := h
  simp [translateError, h']

theorem translateError_member_iff_aux (err : JsError) (req : Request) :
    isTaxonomyMember (translateError err req) = true ↔
      (isTaxonomyMember err = true ∨
        (effectiveError err).name ≠ "PreconditionFailedError" ∨
        isTaxonomyMember (effectiveError err) = true) := by
  by_cases h : isTaxonomyMember err = true
  · simp [translateError_of_member err req h, h]
  · have h' : isTaxonomyMember err = false := by simpa using h
    rw [translateError_of_raw err req h']
    split <;> simp_all [isTaxonomyMember_RequestedRange, isTaxonomyMember_ConcurrentRequest,
      isTaxonomyMember_InternalError, isTaxonomyMember_ResourceNotFound]

/-- Claim C1, as stated, fails: an error outside the taxonomy whose name is
`PreconditionFailedError` is returned by `translateError` as it is, and the
value returned is neither a `MuskieError` nor a restify `HttpError`. -/
theorem translateError_preconditionFailed_raw :
    translateError (.plain (rawError "PreconditionFailedError")) (getRequest "/a/stor/x")
        = .plain (rawError "PreconditionFailedError") ∧
      instanceofMuskieError
        (translateError (.plain (rawError "PreconditionFailedError"))
          (getRequest "/a/stor/x")) = false ∧
      instanceofHttpError
        (translateError (.plain (rawError "PreconditionFailedError"))
          (getRequest "/a/stor/x")) = false := by
  decide

/-- Claim C1, amended: for every `err` and `req`, `translateError(err, req)` is
a member of the taxonomy (an instance of `MuskieError` or of restify's
`HttpError`) exactly when `err` is one, or the effective name is not
`PreconditionFailedError`, or the effective error (`err.jse_cause` when set,
otherwise `err`) is a member; when `err` is outside the taxonomy and the
effective name is `PreconditionFailedError`, the result is that effective
error, handed back unchanged. -/
theorem translateError_member_iff (err : JsError) (req : Request) :
    (isTaxonomyMember (translateError err req) = true ↔
      (isTaxonomyMember err = true ∨
        (effectiveError err).name ≠ "PreconditionFailedError" ∨
        isTaxonomyMember (effectiveError err) = true)) ∧
    (isTaxonomyMember err = false →
      (effectiveError err).name = "PreconditionFailedError" →
      translateError err req = effectiveError err) := by
  refine ⟨translateError_member_iff_aux err req, ?_⟩
  intro h1 h2
  rw [translateError_of_raw err req h1]
  simp [h2]

/-- Claim C2: for every `err` that is neither a `MuskieError` nor a restify
`HttpError` and whose effective name (that of `err.jse_cause` when set,
otherwise of `err`) is none of the five names the `switch` handles,
`translateError(err, req)` is the `InternalError` built without a cause: its
restCode is `InternalError`, its statusCode 500 and its message
`an unexpected error occurred`. -/
theorem translateError_default_internalError (err : JsError) (req : Request)
    (hm : instanceofMuskieError err = false) (hh : instanceofHttpError err = false)
    (h1 : (effectiveError err).name ≠ "ObjectNotFoundError")
    (h2 : (effectiveError err).name ≠ "PreconditionFailedError")
    (h3 : (effectiveError err).name ≠ "RequestedRangeNotSatisfiableError")
    (h4 : (effectiveError err).name ≠ "EtagConflictError")
    (h5 : (effectiveError err).name ≠ "UniqueAttributeError") :
    translateError err req = InternalError none ∧
      (translateError err req).props.cls = .muskie "InternalError" ∧
      (translateError err req).props.restCode = some "InternalError" ∧
      (translateError err req).props.statusCode = some 500 ∧
      (translateError err req).props.message = "an unexpected error occurred" := by
  have h' : isTaxonomyMember err = false := by simp [isTaxonomyMember, hm, hh]
  have : translateError err req = InternalError none := by
    rw [translateError_of_raw err req h']
    split <;> simp_all
  rw [this]
  simp [InternalError, JsError.props, MuskieError, RestError, newObject]

/-- Claim C2 at a concrete input: a `VError` wrapping a `TypeError`, for a
request of path `/a/stor/x`. -/
theorem translateError_default_internalError_witness :
    translateError (.caused (rawError "VError") (.plain (rawError "TypeError")))
        (getRequest "/a/stor/x") = InternalError none ∧
      (translateError (.caused (rawError "VError") (.plain (rawError "TypeError")))
        (getRequest "/a/stor/x")).props.cls = .muskie "InternalError" ∧
      (translateError (.caused (rawError "VError") (.plain (rawError "TypeError")))
        (getRequest "/a/stor/x")).props.restCode = some "InternalError" ∧
      (translateError (.caused (rawError "VError") (.plain (rawError "TypeError")))
        (getRequest "/a/stor/x")).props.statusCode = some 500 ∧
      (translateError (.caused (rawError "VError") (.plain (rawError "TypeError")))
        (getRequest "/a/stor/x")).props.message = "an unexpected error occurred" :=
  translateError_default_internalError
    (.caused (rawError "VError") (.plain (rawError "TypeError"))) (getRequest "/a/stor/x")
    (by decide) (by decide) (by decide) (by decide) (by decide) (by decide) (by decide)

/-- Claim C3: for every `err` that is neither a `MuskieError` nor a restify
`HttpError` and whose effective name is `EtagConflictError` or
`UniqueAttributeError`, `translateError(err, req)` is the
`ConcurrentRequestError` of `req.path()`: restCode `ConcurrentRequest`,
statusCode 409, message `req.path()` followed by
` was being concurrently updated`. -/
theorem translateError_conflict_concurrentRequest (err : JsError) (req : Request)
    (hm : instanceofMuskieError err = false) (hh : instanceofHttpError err = false)
    (hn : (effectiveError err).name = "EtagConflictError" ∨
      (effectiveError err).name = "UniqueAttributeError") :
    translateError err req = ConcurrentRequestError req.path ∧
      (translateError err req).props.cls = .muskie "ConcurrentRequestError" ∧
      (translateError err req).props.restCode = some "ConcurrentRequest" ∧
      (translateError err req).props.statusCode = some 409 ∧
      (translateError err req).props.message
        = req.path ++ " was being concurrently updated" := by
  have h' : isTaxonomyMember err = false := by simp [isTaxonomyMember, hm, hh]
  have : translateError err req = ConcurrentRequestError req.path := by
    rw [translateError_of_raw err req h']
    rcases hn with hn | hn <;> simp [hn]
  rw [this]
  simp [ConcurrentRequestError, JsError.props, MuskieError, RestError, newObject]

/-- Claim C3 at a concrete input: a `VError` wrapping an `EtagConflictError`,
for a request of path `/a/stor/x`. -/
theorem translateError_conflict_concurrentRequest_witness :
    translateError (.caused (rawError "VError") (.plain (rawError "EtagConflictError")))
        (getRequest "/a/stor/x") = ConcurrentRequestError "/a/stor/x" ∧
      (translateError (.caused (rawError "VError") (.plain (rawError "EtagConflictError")))
        (getRequest "/a/stor/x")).props.cls = .muskie "ConcurrentRequestError" ∧
      (translateError (.caused (rawError "VError") (.plain (rawError "EtagConflictError")))
        (getRequest "/a/stor/x")).props.restCode = some "ConcurrentRequest" ∧
      (translateError (.caused (rawError "VError") (.plain (rawError "EtagConflictError")))
        (getRequest "/a/stor/x")).props.statusCode = some 409 ∧
      (translateError (.caused (rawError "VError") (.plain (rawError "EtagConflictError")))
        (getRequest "/a/stor/x")).props.message
        = "/a/stor/x" ++ " was being concurrently updated" :=
  translateError_conflict_concurrentRequest
    (.caused (rawError "VError") (.plain (rawError "EtagConflictError")))
    (getRequest "/a/stor/x") (by decide) (by decide) (Or.inl (by decide))

/-! ### `computePartsMD5` -/

theorem utf8Bytes_append (a b : String) :
    utf8Bytes (a ++ b) = utf8Bytes a ++ utf8Bytes b := by
  unfold utf8Bytes
  rw [String.data_append, List.foldr_append]
  induction a.data with
  | nil => simp
  | cons c cs ih => simp [ih]

theorem Hash.update_append (h : Hash) (a b : String) :
    h.update (a ++ b) = (h.update a).update b := by
  simp [Hash.update, utf8Bytes_append, List.foldl_append]

theorem Hash.update_empty (h : Hash) : h.update "" = h := rfl

theorem foldl_update_eq (parts : List String) (h : Hash) (acc : String) :
    parts.foldl (fun hash p => hash.update p) (h.update acc)
      = h.update (parts.foldl (fun r s => r ++ s) acc) := by
  induction parts generalizing acc with
  | nil => rfl
  | cons p ps ih =>
    simp only [List.foldl_cons]
    rw [← Hash.update_append, ih]

theorem md5Blocks_append (k : Nat) :
    ∀ (m : Nat) (s : MD5State) (xs ys : List Nat), xs.length = 64 * k →
      md5Blocks (k + m) s (xs ++ ys) = md5Blocks m (md5Blocks k s xs) ys := by
  induction k with
  | zero =>
    intro m s xs ys h
    have : xs = [] := List.length_eq_zero.mp (by simpa using h)
    subst this
    simp [md5Blocks]
  | succ k ih =>
    intro m s xs ys h
    have e : k + 1 + m = (k + m) + 1 := by omega
    rw [e]
    have hlen : ¬ (xs ++ ys).length < 64 := by simp; omega
    have hlen' : ¬ xs.length < 64 := by omega
    simp only [md5Blocks, hlen, hlen', if_false]
    have htake : (xs ++ ys).take 64 = xs.take 64 := by
      rw [List.take_append_of_le_length (by omega)]
    have hdrop : (xs ++ ys).drop 64 = xs.drop 64 ++ ys := by
      rw [List.drop_append_of_le_length (by omega)]
    rw [htake, hdrop]
    exact ih m _ _ _ (by simp; omega)

theorem md5Blocks_short (n : Nat) (s : MD5State) (xs : List Nat) (h : xs.length < 64) :
    md5Blocks n s xs = s := by
  cases n <;> simp [md5Blocks, h]

/-- Feeding bytes one at a time leaves the hash object with the chaining value
of the complete blocks seen so far and the incomplete block in its buffer. -/
theorem foldl_updateByte (bs : List Nat) :
    ∀ h : Hash, h.buffer.length < 64 →
      (bs.foldl Hash.updateByte h).state
          = md5Blocks ((h.buffer.length + bs.length) / 64) h.state (h.buffer ++ bs) ∧
        (bs.foldl Hash.updateByte h).buffer
          = (h.buffer ++ bs).drop (64 * ((h.buffer.length + bs.length) / 64)) ∧
        (bs.foldl Hash.updateByte h).length = h.length + bs.length := by
  induction bs with
  | nil =>
    intro h hb
    have : h.buffer.length / 64 = 0 := Nat.div_eq_of_lt hb
    simp [this, md5Blocks]
  | cons b rest ih =>
    intro h hb
    simp only [List.foldl_cons]
    by_cases hfull : h.buffer.length + 1 = 64
    · have hu : h.updateByte b
          = { state := md5Compress h.state (h.buffer ++ [b]), buffer := [],
              length := h.length + 1 } := by
        simp [Hash.updateByte, hfull]
      obtain ⟨h1, h2, h3⟩ := ih (h.updateByte b) (by rw [hu]; simp)
      rw [hu] at h1 h2 h3
      simp only [List.length_nil, Nat.zero_add, List.nil_append] at h1 h2 h3
      have hk : (h.buffer.length + (b :: rest).length) / 64 = rest.length / 64 + 1 := by
        simp only [List.length_cons]
        omega
      have hsplit : h.buffer ++ b :: rest = (h.buffer ++ [b]) ++ rest := by simp
      have hlen64 : (h.buffer ++ [b]).length = 64 := by simp [hfull]
      refine ⟨?_, ?_, ?_⟩
      · rw [hu, h1, hk, hsplit]
        have hnot : ¬ ((h.buffer ++ [b]) ++ rest).length < 64 := by
          rw [List.length_append, hlen64]; omega
        simp only [md5Blocks, hnot, if_false]
        rw [List.take_left' hlen64, List.drop_left' hlen64]
      · have hr : List.drop (64 * (rest.length / 64 + 1)) ((h.buffer ++ [b]) ++ rest)
            = List.drop (64 * (rest.length / 64)) rest := by
          have e : 64 * (rest.length / 64 + 1) = 64 + 64 * (rest.length / 64) := by omega
          rw [e, ← List.drop_drop, List.drop_left' hlen64]
        rw [hu, h2, hk, hsplit, hr]
      · rw [hu, h3]; simp only [List.length_cons]; omega
    · have hu : h.updateByte b
          = { state := h.state, buffer := h.buffer ++ [b], length := h.length + 1 } := by
        simp [Hash.updateByte, hfull]
      obtain ⟨h1, h2, h3⟩ := ih (h.updateByte b) (by rw [hu]; simp; omega)
      rw [hu] at h1 h2 h3
      have hk : (h.buffer ++ [b]).length + rest.length
          = h.buffer.length + (b :: rest).length := by simp; omega
      simp only [hk] at h1 h2
      have hsplit : h.buffer ++ b :: rest = (h.buffer ++ [b]) ++ rest := by simp
      refine ⟨?_, ?_, ?_⟩
      · rw [hu, h1, hsplit]
      · rw [hu, h2, hsplit]
      · rw [hu, h3]; simp only [List.length_cons]; omega

theorem length_leBytes (n : Nat) : ∀ x : Nat, (leBytes n x).length = n := by
  induction n with
  | zero => intro x; rfl
  | succ n ih => intro x; simp [leBytes, ih]

theorem md5Blocks_one (s : MD5State) (p : List Nat) (h : p.length = 64) :
    md5Blocks 1 s p = md5Compress s p := by
  have hn : ¬ p.length < 64 := by omega
  simp only [md5Blocks, hn, if_false]
  rw [List.take_of_length_le (by omega)]

theorem md5Blocks_two (s : MD5State) (p : List Nat) (h : p.length = 128) :
    md5Blocks 2 s p = md5Compress (md5Compress s (p.take 64)) (p.drop 64) := by
  have hn : ¬ p.length < 64 := by omega
  have hd : (p.drop 64).length = 64 := by simp [h]
  have hn2 : ¬ (p.drop 64).length < 64 := by omega
  simp only [md5Blocks, hn, hn2, if_false]
  rw [List.take_of_length_le (by omega : (p.drop 64).length ≤ 64)]

theorem digestBytes_of_blocks (h : Hash) (bs : List Nat)
    (h1 : h.state = md5Blocks (bs.length / 64) md5Init bs)
    (h2 : h.buffer = bs.drop (64 * (bs.length / 64)))
    (h3 : h.length = bs.length) : h.digestBytes = md5Digest bs := by
  have hsplit : bs = bs.take (64 * (bs.length / 64)) ++ bs.drop (64 * (bs.length / 64)) :=
    (List.take_append_drop _ _).symm
  have hfull : (bs.take (64 * (bs.length / 64))).length = 64 * (bs.length / 64) := by
    rw [List.length_take]; omega
  have hrem : (bs.drop (64 * (bs.length / 64))).length = bs.length % 64 := by
    rw [List.length_drop]; omega
  have hstate : md5Blocks (bs.length / 64) md5Init bs
      = md5Blocks (bs.length / 64) md5Init (bs.take (64 * (bs.length / 64))) := by
    have := md5Blocks_append (bs.length / 64) 0 md5Init _ (bs.drop (64 * (bs.length / 64))) hfull
    rw [← hsplit] at this
    simpa [md5Blocks] using this
  have hlt : bs.length % 64 < 64 := Nat.mod_lt _ (by decide)
  unfold Hash.digestBytes md5Digest
  simp only [h1, h2, h3]
  -- the padded tail, as the hash object builds it
  have hz : (if (bs.drop (64 * (bs.length / 64)) ++ [0x80]).length ≤ 56
      then 56 - (bs.drop (64 * (bs.length / 64)) ++ [0x80]).length
      else 120 - (bs.drop (64 * (bs.length / 64)) ++ [0x80]).length)
      = (119 - bs.length % 64) % 64 := by
    rw [List.length_append, hrem]
    simp only [List.length_singleton]
    split <;> omega
  rw [hz]
  have key : ∀ X : List Nat, bs ++ X
      = bs.take (64 * (bs.length / 64)) ++ (bs.drop (64 * (bs.length / 64)) ++ X) := by
    intro X
    rw [← List.append_assoc, List.take_append_drop]
  have hpad : md5Pad bs = bs.take (64 * (bs.length / 64)) ++
      (bs.drop (64 * (bs.length / 64)) ++ [0x80] ++
        List.replicate ((119 - bs.length % 64) % 64) 0 ++
        leBytes 8 (8 * bs.length % 2 ^ 64)) := by
    unfold md5Pad
    rw [key]
    simp [List.append_assoc]
  have htail : (bs.drop (64 * (bs.length / 64)) ++ [0x80] ++
        List.replicate ((119 - bs.length % 64) % 64) 0 ++
        leBytes 8 (8 * bs.length % 2 ^ 64)).length
      = if bs.length % 64 < 56 then 64 else 128 := by
    simp only [List.length_append, hrem, List.length_singleton, List.length_replicate,
      length_leBytes]
    split <;> omega
  rw [hpad]
  generalize (bs.drop (64 * (bs.length / 64)) ++ [0x80] ++
        List.replicate ((119 - bs.length % 64) % 64) 0 ++
        leBytes 8 (8 * bs.length % 2 ^ 64)) = T at htail ⊢
  rw [List.length_append (bs.take (64 * (bs.length / 64))) T, hfull]
  by_cases hc : bs.length % 64 < 56
  · simp only [hc, if_true] at htail
    have e : (64 * (bs.length / 64) + T.length) / 64 = bs.length / 64 + 1 := by omega
    rw [e, md5Blocks_append _ 1 _ _ _ hfull, ← hstate, md5Blocks_one _ _ htail]
    simp [htail]
  · simp only [hc, if_false] at htail
    have e : (64 * (bs.length / 64) + T.length) / 64 = bs.length / 64 + 2 := by omega
    rw [e, md5Blocks_append _ 2 _ _ _ hfull, ← hstate, md5Blocks_two _ _ htail]
    simp [htail]

theorem digestBytes_foldl_updateByte (bs : List Nat) :
    (bs.foldl Hash.updateByte createHash).digestBytes = md5Digest bs := by
  obtain ⟨h1, h2, h3⟩ := foldl_updateByte bs createHash (by simp [createHash])
  have hb : createHash.buffer = [] := rfl
  have hs : createHash.state = md5Init := rfl
  have hl : createHash.length = 0 := rfl
  rw [hb, hs, List.length_nil, Nat.zero_add, List.nil_append] at h1
  rw [hb, List.length_nil, Nat.zero_add, List.nil_append] at h2
  rw [hl, Nat.zero_add] at h3
  exact digestBytes_of_blocks _ bs h1 h2 h3

/-- One update with a string, then the digest, is the base64 encoding of the
RFC 1321 digest of the UTF-8 bytes of the string. -/
theorem writeObjectHelper_md5_eq (string : String) :
    writeObjectHelper.md5 string = String.mk (base64Encode (md5Digest (utf8Bytes string))) := by
  unfold writeObjectHelper.md5 Hash.digest Hash.update
  rw [digestBytes_foldl_updateByte]

/-- Claim C4: for every list of part fingerprints, `computePartsMD5`, which
feeds each part in order into one running MD5 digest, equals the base64
encoding of the MD5 digest of the single string `p0 ∥ p1 ∥ ... ∥ pn-1`: it is
the digest of that string computed from its bytes in one shot, and it is what
one `update` with that string followed by `digest` gives. -/
theorem computePartsMD5_eq_digestOfConcatenation (parts : List String) :
    computePartsMD5 parts = digestOfConcatenation parts ∧
      computePartsMD5 parts = writeObjectHelper.md5 (String.join parts) := by
  have h : computePartsMD5 parts = writeObjectHelper.md5 (String.join parts) := by
    unfold computePartsMD5 writeObjectHelper.md5 String.join
    have := foldl_update_eq parts createHash ""
    rw [Hash.update_empty] at this
    rw [this]
  exact ⟨by rw [h, writeObjectHelper_md5_eq]; rfl, h⟩

set_option maxRecDepth 100000 in
/-- Claim C5: `computePartsMD5([])` is the digest of an empty input: it is the
base64 MD5 of the empty string, `1B2M2Y8AsgTpgAmY7PhCfg==`, the value a
zero-byte object has as its content MD5. -/
theorem computePartsMD5_nil :
    computePartsMD5 [] = "1B2M2Y8AsgTpgAmY7PhCfg==" ∧
      String.mk (base64Encode (md5Digest [])) = "1B2M2Y8AsgTpgAmY7PhCfg==" ∧
      computePartsMD5 [] = writeObjectHelper.md5 "" := by
  decide

/-! ### Commit of a multipart upload -/

theorem setRecord_records_self (s : Store) (id : Nat) (r : UploadRecord) :
    (setRecord s id r).records id = some r := by
  simp [setRecord]

theorem setRecord_writeError (s : Store) (id : Nat) (r : UploadRecord) :
    (setRecord s id r).writeError = s.writeError := rfl

theorem transition_of_state (s : Store) (id : Nat) (r : UploadRecord) (src : UploadState)
    (f : UploadRecord → UploadRecord) (hr : s.records id = some r) (hs : r.state = src) :
    transition s id src f = .ok (setRecord s id (f r)) := by
  simp [transition, hr, hs]

theorem validate_setRecord (cfg : Config) (s : Store) (i id : Nat) (r' r : UploadRecord)
    (P : List String) : validate cfg (setRecord s i r') id r P = validate cfg s id r P := rfl

theorem validate_ok_summary (cfg : Config) (s : Store) (id : Nat) (r : UploadRecord)
    (P : List String) (total : Nat) (summary : String)
    (h : validate cfg s id r P = .ok (total, summary)) : summary = computePartsMD5 P := by
  unfold validate at h
  repeat' split at h
  all_goals cases h
  rfl

theorem validate_nil (cfg : Config) (s : Store) (id : Nat) (r : UploadRecord)
    (hl : r.headers.contentLength = none) (hm : r.headers.contentMD5 = none) :
    validate cfg s id r [] = .ok (0, computePartsMD5 []) := by
  simp [validate, lookupParts, minSizeOk, headersOk, hl, hm, totalSize, fingerprintValid]

theorem commit_of_created (cfg : Config) (s : Store) (id : Nat) (r : UploadRecord)
    (P : List String) (hr : s.records id = some r) (hs : r.state = .created) :
    commit cfg s id P =
      match validate cfg s id r P with
      | .error e => (.error e, s)
      | .ok (total, summary) =>
        match s.writeError r.objectPath with
        | some e => (.error e, s)
        | none =>
          (.ok (), setRecord
            (discardParts
              (putObject
                (setRecord s id { r with state := .finalizing,
                                         finalizationType := some .commit,
                                         partsContainer := none })
                r.objectPath
                { size := total, digestSummary := summary, headers := r.headers }) id)
            id { r with state := .done, finalizationType := some .commit,
                        partsContainer := none, result := some .committed,
                        partsMD5Summary := some summary }) := by
  unfold commit
  simp only [hr, hs]
  rw [transition_of_state s id r .created _ hr hs]
  simp only [validate_setRecord]
  cases hv : validate cfg s id r P with
  | error e => rfl
  | ok v =>
    obtain ⟨total, summary⟩ := v
    simp only [materialize, setRecord_writeError]
    cases hw : s.writeError r.objectPath with
    | some e => rfl
    | none =>
      simp only
      rw [transition_of_state _ id
        { r with state := .finalizing, finalizationType := some .commit,
                 partsContainer := none }
        .finalizing _ (by simp [discardParts, putObject, setRecord]) rfl]

theorem commit_created_error (cfg : Config) (s : Store) (id : Nat) (r : UploadRecord)
    (P : List String) (e : ErrorKind) (hr : s.records id = some r) (hs : r.state = .created)
    (hv : validate cfg s id r P = .error e) : commit cfg s id P = (.error e, s) := by
  rw [commit_of_created cfg s id r P hr hs, hv]

theorem commit_of_committed (cfg : Config) (s : Store) (id : Nat) (r : UploadRecord)
    (P : List String) (hr : s.records id = some r) (hs : r.state = .done)
    (hres : r.result = some .committed) :
    commit cfg s id P =
      if r.partsMD5Summary = some (computePartsMD5 P) then (.ok (), s)
      else (.error .argumentInvalid, s) := by
  simp [commit, hr, hs, hres]

theorem commit_ok_record (cfg : Config) (s s' : Store) (id : Nat) (P : List String)
    (h : commit cfg s id P = (.ok (), s')) :
    ∃ r', s'.records id = some r' ∧ r'.state = .done ∧ r'.result = some .committed ∧
      r'.partsMD5Summary = some (computePartsMD5 P) := by
  cases hr : s.records id with
  | none => simp [commit, hr] at h
  | some r =>
    cases hs : r.state with
    | finalizing => simp [commit, hr, hs] at h
    | done =>
      cases hres : r.result with
      | none => simp [commit, hr, hs, hres] at h
      | some res =>
        cases res with
        | aborted => simp [commit, hr, hs, hres] at h
        | committed =>
          rw [commit_of_committed cfg s id r P hr hs hres] at h
          split at h
          · rename_i hsum
            cases h
            exact ⟨r, hr, hs, hres, hsum⟩
          · cases h
    | created =>
      rw [commit_of_created cfg s id r P hr hs] at h
      cases hv : validate cfg s id r P with
      | error e => simp [hv] at h
      | ok v =>
        obtain ⟨total, summary⟩ := v
        have hsum := validate_ok_summary cfg s id r P total summary hv
        simp only [hv] at h
        cases hw : s.writeError r.objectPath with
        | some e => simp [hw] at h
        | none =>
          simp only [hw, Prod.mk.injEq, true_and] at h
          subst h
          exact ⟨_, setRecord_records_self _ _ _, rfl, rfl, by simp [hsum]⟩

theorem minSizeOk_iff (cfg : Config) (parts : List Part) :
    minSizeOk cfg parts = true ↔
      ∀ i part, i + 1 < parts.length → parts[i]? = some part → cfg.minPartSize ≤ part.size := by
  unfold minSizeOk
  rw [List.all_eq_true]
  constructor
  · intro h i part hi hp
    have hmem : part ∈ parts.dropLast := by
      rw [List.mem_iff_getElem?]
      refine ⟨i, ?_⟩
      rw [List.getElem?_dropLast, if_pos (by omega), hp]
    simpa using h part hmem
  · intro h part hmem
    rw [List.mem_iff_getElem?] at hmem
    obtain ⟨i, hi⟩ := hmem
    rw [List.getElem?_dropLast] at hi
    split at hi
    · rename_i hlt
      simpa using h i part (by omega) hi
    · cases hi

theorem lookupParts_getElem? (listPart : Nat → Option Part) (P : List String) :
    ∀ (k : Nat) (parts : List Part), lookupParts listPart k P = some parts →
      parts.length = P.length ∧ ∀ i, i < P.length → parts[i]? = listPart (k + i) := by
  induction P with
  | nil =>
    intro k parts h
    simp only [lookupParts, Option.some.injEq] at h
    subst h
    simp
  | cons p ps ih =>
    intro k parts h
    unfold lookupParts at h
    cases hp : listPart k with
    | none => simp [hp] at h
    | some part =>
      simp only [hp] at h
      split at h
      · cases hrest : lookupParts listPart (k + 1) ps with
        | none => simp [hrest] at h
        | some rest =>
          simp only [hrest, Option.some.injEq] at h
          subst h
          obtain ⟨hlen, hget⟩ := ih (k + 1) rest hrest
          refine ⟨by simp [hlen], ?_⟩
          intro i hi
          cases i with
          | zero => simp [hp]
          | succ j =>
            have := hget j (by simpa using hi)
            simp only [List.getElem?_cons_succ, this]
            congr 1
            omega
      · cases h

theorem lookupParts_of_match (listPart : Nat → Option Part) (P : List String) :
    ∀ k : Nat,
      (∀ i p, P[i]? = some p → ∃ part, listPart (k + i) = some part ∧ part.fingerprint = p) →
      ∃ parts, lookupParts listPart k P = some parts := by
  induction P with
  | nil => intro k _; exact ⟨[], rfl⟩
  | cons p ps ih =>
    intro k h
    obtain ⟨part, hpart, hfp⟩ := h 0 p (by simp)
    obtain ⟨rest, hrest⟩ := ih (k + 1) (by
      intro i q hq
      have := h (i + 1) q (by simpa using hq)
      have e : k + 1 + i = k + (i + 1) := by omega
      rw [e]
      exact this)
    refine ⟨part :: rest, ?_⟩
    unfold lookupParts
    simp only [Nat.add_zero] at hpart
    simp [hpart, hfp, hrest]

/-- Claim C6, as stated, fails: upload 2 of `sampleStore` is freshly created,
in state created with no declared headers, for a target path that is a
top-level directory; `commit(id, [])` fails with
`OperationNotAllowedOnDirectory`, as the test
`commit upload: path is top-level directory` expects, and the record stays in
state created. -/
theorem commit_zero_parts_top_level_directory :
    get sampleStore 2 = .ok topLevelRecord ∧
      topLevelRecord.state = .created ∧
      topLevelRecord.headers.contentLength = none ∧
      topLevelRecord.headers.contentMD5 = none ∧
      (commit sampleConfig sampleStore 2 []).1 = .error .operationNotAllowedOnDirectory ∧
      get (commit sampleConfig sampleStore 2 []).2 2 = .ok topLevelRecord := by
  decide

/-- Claim C6, amended: for every upload in state created whose headers declare
neither a content-length nor a content-md5 and whose target path the namespace
accepts for writing, `commit(id, [])` succeeds, and a following `get(id)`
returns a record with state `done`, result `committed`, partsMD5Summary the
digest of an empty input, and the headers captured at creation. -/
theorem commit_zero_parts (cfg : Config) (s : Store) (id : Nat) (r : UploadRecord)
    (hr : s.records id = some r) (hs : r.state = .created)
    (hl : r.headers.contentLength = none) (hm : r.headers.contentMD5 = none)
    (hw : s.writeError r.objectPath = none) :
    ∃ s', commit cfg s id [] = (.ok (), s') ∧
      ∃ r', get s' id = .ok r' ∧ r'.state = .done ∧ r'.result = some .committed ∧
        r'.partsMD5Summary = some createHash.digest ∧ r'.headers = r.headers := by
  rw [commit_of_created cfg s id r [] hr hs, validate_nil cfg s id r hl hm]
  simp only [hw]
  refine ⟨_, rfl, ?_⟩
  simp only [get, setRecord_records_self]
  exact ⟨_, rfl, rfl, rfl, rfl, rfl⟩

/-- Claim C6, amended, at a concrete input: upload 1 of `sampleStore`, freshly
created with no declared headers for an accepted target path. -/
theorem commit_zero_parts_witness :
    ∃ s', commit sampleConfig sampleStore 1 [] = (.ok (), s') ∧
      ∃ r', get s' 1 = .ok r' ∧ r'.state = .done ∧ r'.result = some .committed ∧
        r'.partsMD5Summary = some createHash.digest ∧ r'.headers = sampleRecord.headers :=
  commit_zero_parts sampleConfig sampleStore 1 sampleRecord rfl rfl rfl rfl (by decide)

/-- Claim C7: commit is idempotent for an identical part list: whenever
`commit(id, P)` succeeds, a second `commit(id, P)` also succeeds and leaves the
store as the first left it; the record is in state `done`, result `committed`,
with the partsMD5Summary of `P`. -/
theorem commit_idempotent (cfg : Config) (s s' : Store) (id : Nat) (P : List String)
    (h : commit cfg s id P = (.ok (), s')) :
    commit cfg s' id P = (.ok (), s') ∧
      ∃ r', get s' id = .ok r' ∧ r'.state = .done ∧ r'.result = some .committed ∧
        r'.partsMD5Summary = some (computePartsMD5 P) := by
  obtain ⟨r', hr', hs', hres', hsum'⟩ := commit_ok_record cfg s s' id P h
  refine ⟨?_, r', by simp [get, hr'], hs', hres', hsum'⟩
  rw [commit_of_committed cfg s' id r' P hr' hs' hres', if_pos hsum']

/-- Claim C7 at a concrete input: upload 1 of `sampleStore` committed twice
with its stored part 0. -/
theorem commit_idempotent_witness :
    commit sampleConfig (commit sampleConfig sampleStore 1 ["ab"]).2 1 ["ab"]
        = (.ok (), (commit sampleConfig sampleStore 1 ["ab"]).2) ∧
      ∃ r', get (commit sampleConfig sampleStore 1 ["ab"]).2 1 = .ok r' ∧
        r'.state = .done ∧ r'.result = some .committed ∧
        r'.partsMD5Summary = some (computePartsMD5 ["ab"]) :=
  commit_idempotent sampleConfig sampleStore (commit sampleConfig sampleStore 1 ["ab"]).2 1
    ["ab"] (Prod.ext (by decide) rfl)

set_option maxRecDepth 100000 in
/-- Claim C8, as stated, fails: upload 1 of `sampleStore` is committed with the
parts `ab`, `c`; a second commit with the different part list `a`, `bc`, whose
summary is the same, succeeds. -/
theorem commit_committed_different_parts_ok :
    (commit sampleConfig sampleStore 1 ["ab", "c"]).1 = .ok () ∧
      ["a", "bc"] ≠ ["ab", "c"] ∧
      (commit sampleConfig committedStore 1 ["a", "bc"]).1 = .ok () := by
  decide

/-- Claim C8, amended: for every upload already committed with part list `P`
and every part list whose partsMD5Summary differs from that of `P`,
`commit(id, P')` fails with the argument-invalid kind and leaves the store,
hence the result and partsMD5Summary of the record, unchanged. -/
theorem commit_committed_different_summary (cfg : Config) (s : Store) (id : Nat)
    (r : UploadRecord) (P P' : List String)
    (hr : s.records id = some r) (hs : r.state = .done) (hres : r.result = some .committed)
    (hsum : r.partsMD5Summary = some (computePartsMD5 P))
    (hne : computePartsMD5 P' ≠ computePartsMD5 P) :
    commit cfg s id P' = (.error .argumentInvalid, s) ∧
      get (commit cfg s id P').2 id = .ok r := by
  have : commit cfg s id P' = (.error .argumentInvalid, s) := by
    rw [commit_of_committed cfg s id r P' hr hs hres, if_neg]
    rw [hsum]
    intro h
    exact hne (Option.some.inj h).symm
  rw [this]
  exact ⟨rfl, by simp [get, hr]⟩

set_option maxRecDepth 100000 in
/-- Claim C8, amended, at a concrete input: upload 1 committed with `ab`, `c`,
then committed again with `ab` alone. -/
theorem commit_committed_different_summary_witness :
    commit sampleConfig committedStore 1 ["ab"] = (.error .argumentInvalid, committedStore) ∧
      get (commit sampleConfig committedStore 1 ["ab"]).2 1 = .ok committedRecord :=
  commit_committed_different_summary sampleConfig committedStore 1 committedRecord
    ["ab", "c"] ["ab"] (by decide) rfl rfl rfl (by decide)

/-- Claim C9, as stated, fails: upload 1 of `sampleStore` is aborted; a commit
with 10001 parts then fails with the state-conflict kind, not with
argument-invalid. -/
theorem commit_aborted_too_many_parts :
    (List.replicate 10001 "ab").length = 10001 ∧
      (abort sampleStore 1).1 = .ok () ∧
      (commit sampleConfig abortedStore 1 (List.replicate 10001 "ab")).1
        = .error .stateConflict := by
  refine ⟨by rw [List.length_replicate], by decide, by decide⟩

/-- Claim C9, amended: for every upload and every part list with more than 10000
entries (`MAX_PART_NUM + 1`), `commit(id, P)` fails with the argument-invalid
kind exactly when the upload is in state created, or is already committed with
a partsMD5Summary other than that of `P`; in state created this holds whether
or not the listed fingerprints match stored parts. -/
theorem commit_too_many_parts (cfg : Config) (s : Store) (id : Nat) (r : UploadRecord)
    (P : List String) (hcfg : cfg.maxParts = MAX_PART_NUM + 1)
    (hr : s.records id = some r) (hlen : 10000 < P.length) :
    (commit cfg s id P).1 = .error .argumentInvalid ↔
      (r.state = .created ∨
        (r.state = .done ∧ r.result = some .committed ∧
          r.partsMD5Summary ≠ some (computePartsMD5 P))) := by
  cases hs : r.state with
  | finalizing => simp [commit, hr, hs]
  | created =>
    have hv : validate cfg s id r P = .error .argumentInvalid := by
      have : cfg.maxParts < P.length := by rw [hcfg]; simpa [MAX_PART_NUM] using hlen
      simp [validate, this]
    simp [commit_of_created cfg s id r P hr hs, hv]
  | done =>
    cases hres : r.result with
    | none => simp [commit, hr, hs, hres]
    | some res =>
      cases res with
      | aborted => simp [commit, hr, hs, hres]
      | committed =>
        rw [commit_of_committed cfg s id r P hr hs hres]
        split <;> simp_all

/-- Claim C9, amended, at a concrete input: upload 1 of `sampleStore`, in state
created, and 10001 copies of the fingerprint of its part 0. -/
theorem commit_too_many_parts_witness :
    (commit sampleConfig sampleStore 1 (List.replicate 10001 "ab")).1
        = .error .argumentInvalid ↔
      (sampleRecord.state = .created ∨
        (sampleRecord.state = .done ∧ sampleRecord.result = some .committed ∧
          sampleRecord.partsMD5Summary ≠ some (computePartsMD5 (List.replicate 10001 "ab")))) :=
  commit_too_many_parts sampleConfig sampleStore 1 sampleRecord (List.replicate 10001 "ab")
    rfl rfl (by rw [List.length_replicate]; decide)

theorem validate_error_kind (cfg : Config) (s : Store) (id : Nat) (r : UploadRecord)
    (P : List String) (e : ErrorKind) (h : validate cfg s id r P = .error e) :
    e = .argumentInvalid := by
  unfold validate at h
  repeat' split at h
  all_goals cases h
  all_goals rfl

theorem validate_ok_headers (cfg : Config) (s : Store) (id : Nat) (r : UploadRecord)
    (P : List String) (total : Nat) (summary : String)
    (h : validate cfg s id r P = .ok (total, summary)) :
    ∃ parts, lookupParts (s.parts id) 0 P = some parts ∧
      headersOk r.headers (totalSize parts) (s.contentDigest id P.length) = true := by
  unfold validate at h
  repeat' split at h
  all_goals try cases h
  rename_i parts hparts _ hh
  exact ⟨parts, hparts, by simpa using hh⟩

theorem totalSize_lookupParts (listPart : Nat → Option Part) (P : List String) :
    ∀ (k : Nat) (parts : List Part), lookupParts listPart k P = some parts →
      totalSize parts = ((List.range P.length).map fun i =>
        match listPart (k + i) with
        | some part => part.size
        | none => 0).sum := by
  induction P with
  | nil =>
    intro k parts h
    simp only [lookupParts, Option.some.injEq] at h
    subst h
    simp [totalSize]
  | cons p ps ih =>
    intro k parts h
    unfold lookupParts at h
    cases hp : listPart k with
    | none => simp [hp] at h
    | some part =>
      simp only [hp] at h
      split at h
      · cases hrest : lookupParts listPart (k + 1) ps with
        | none => simp [hrest] at h
        | some rest =>
          simp only [hrest, Option.some.injEq] at h
          subst h
          have := ih (k + 1) rest hrest
          simp only [totalSize] at this
          simp only [totalSize, List.map_cons, List.sum_cons, List.length_cons,
            List.range_succ_eq_map, List.map_map, Nat.add_zero, hp, this]
          congr 2
          apply List.map_congr_left
          intro i _
          have e : k + 1 + i = k + (i + 1) := by omega
          simp only [Function.comp, Nat.succ_eq_add_one, e]
      · cases h

theorem minSizeOk_false_iff (cfg : Config) (s : Store) (id : Nat) (P : List String)
    (parts : List Part) (hparts : lookupParts (s.parts id) 0 P = some parts) :
    minSizeOk cfg parts = false ↔
      ∃ i part, i + 1 < P.length ∧ s.parts id i = some part ∧
        part.size < cfg.minPartSize := by
  obtain ⟨hl, hget⟩ := lookupParts_getElem? (s.parts id) P 0 parts hparts
  constructor
  · intro hmin
    have hn : ¬ (∀ i part, i + 1 < parts.length → parts[i]? = some part →
        cfg.minPartSize ≤ part.size) := by
      intro hall
      have := (minSizeOk_iff cfg parts).2 hall
      rw [hmin] at this
      cases this
    push_neg at hn
    obtain ⟨i, part, hi, hp, hsz⟩ := hn
    refine ⟨i, part, by omega, ?_, hsz⟩
    have := hget i (by omega)
    rw [hp] at this
    simpa using this.symm
  · rintro ⟨i, part, hi, hpart, hsz⟩
    cases hm : minSizeOk cfg parts with
    | false => rfl
    | true =>
      have := (minSizeOk_iff cfg parts).1 hm i part (by omega)
        (by rw [hget i (by omega)]; simpa using hpart)
      omega

/-- Claim C10, as stated, fails: while another caller's commit of upload 1 is
under way the record is in state `finalizing` and the parts are still stored;
the list `ab`, `c`, `d` has length 3 and matches the stored parts, part 1 has 3
bytes, below the minimum of 5, and `commit(id, P)` fails with the
concurrent-request kind, not with argument-invalid. -/
theorem commit_finalizing_small_nonfinal_part :
    get finalizingStore 1
        = .ok { sampleRecord with state := .finalizing, finalizationType := some .commit,
                                  partsContainer := none } ∧
      lookupParts (finalizingStore.parts 1) 0 ["ab", "c", "d"]
        = some [⟨"ab", 8⟩, ⟨"c", 3⟩, ⟨"d", 2⟩] ∧
      sampleConfig.minPartSize = 5 ∧
      (commit sampleConfig finalizingStore 1 ["ab", "c", "d"]).1
        = .error .concurrentRequest := by
  decide

set_option maxRecDepth 100000 in
/-- A last part below the minimum size does not fail a commit: upload 1 of
`sampleStore` committed with `ab` (8 bytes) and `c` (3 bytes, below the minimum
of 5) succeeds. -/
theorem commit_small_last_part_ok :
    (commit sampleConfig sampleStore 1 ["ab", "c"]).1 = .ok () := by
  decide

/-- Claim C10, amended: for every upload and every part list `P` whose
fingerprints all match the stored parts: if `P` has at least 2 entries and some
part other than the last has a stored size below the configured minimum, then
`commit(id, P)` fails with the argument-invalid kind exactly when the upload is
in state created, or is already committed with a partsMD5Summary other than
that of `P`; in state created the store is left as it was. The size of the last
part never causes this failure: for an upload in state created, with `P` within
the part-count bound, of valid fingerprints and in agreement with the declared
headers, the validator rejects `P` exactly when a part other than the last is
below the minimum, it returns the total size and the summary otherwise, and a
commit whose target path is accepted succeeds exactly when no part other than
the last is below the minimum. -/
theorem commit_small_nonfinal_part (cfg : Config) (s : Store) (id : Nat) (r : UploadRecord)
    (P : List String) (hr : s.records id = some r)
    (hmatch : ∀ i p, P[i]? = some p →
      ∃ part, s.parts id i = some part ∧ part.fingerprint = p) :
    (2 ≤ P.length →
      (∃ i part, i + 1 < P.length ∧ s.parts id i = some part ∧
        part.size < cfg.minPartSize) →
      ((commit cfg s id P).1 = .error .argumentInvalid ↔
        (r.state = .created ∨
          (r.state = .done ∧ r.result = some .committed ∧
            r.partsMD5Summary ≠ some (computePartsMD5 P)))) ∧
      (r.state = .created → commit cfg s id P = (.error .argumentInvalid, s))) ∧
    (r.state = .created → P.length ≤ cfg.maxParts →
      P.all (fingerprintValid cfg) = true →
      headersOk r.headers (storedSize s id P.length) (s.contentDigest id P.length) = true →
      (validate cfg s id r P = .error .argumentInvalid ↔
        ∃ i part, i + 1 < P.length ∧ s.parts id i = some part ∧
          part.size < cfg.minPartSize) ∧
      ((¬ ∃ i part, i + 1 < P.length ∧ s.parts id i = some part ∧
          part.size < cfg.minPartSize) →
        validate cfg s id r P = .ok (storedSize s id P.length, computePartsMD5 P)) ∧
      (s.writeError r.objectPath = none →
        ((commit cfg s id P).1 = .ok () ↔
          ¬ ∃ i part, i + 1 < P.length ∧ s.parts id i = some part ∧
            part.size < cfg.minPartSize))) := by
  obtain ⟨parts, hparts⟩ := lookupParts_of_match (s.parts id) P 0 (by simpa using hmatch)
  have hiff := minSizeOk_false_iff cfg s id P parts hparts
  have htotal : totalSize parts = storedSize s id P.length := by
    rw [totalSize_lookupParts (s.parts id) P 0 parts hparts]
    simp [storedSize]
  constructor
  · intro _ hsmall
    have hmin : minSizeOk cfg parts = false := hiff.2 hsmall
    have hv : validate cfg s id r P = .error .argumentInvalid := by
      unfold validate
      simp [hparts, hmin]
    constructor
    · cases hs : r.state with
      | finalizing => simp [commit, hr, hs]
      | created => simp [commit_of_created cfg s id r P hr hs, hv]
      | done =>
        cases hres : r.result with
        | none => simp [commit, hr, hs, hres]
        | some res =>
          cases res with
          | aborted => simp [commit, hr, hs, hres]
          | committed =>
            rw [commit_of_committed cfg s id r P hr hs hres]
            split <;> simp_all
    · intro hs
      exact commit_created_error cfg s id r P .argumentInvalid hr hs hv
  · intro hs hbound hvalid hh
    have hb : ¬ cfg.maxParts < P.length := by omega
    have hval : validate cfg s id r P =
        if minSizeOk cfg parts = false then .error .argumentInvalid
        else .ok (storedSize s id P.length, computePartsMD5 P) := by
      unfold validate
      cases hm : minSizeOk cfg parts <;> simp [hb, hvalid, hparts, hm, hh, htotal]
    refine ⟨?_, ?_, ?_⟩
    · rw [hval, ← hiff]
      cases hm : minSizeOk cfg parts <;> simp
    · intro hn
      rw [← hiff] at hn
      rw [hval, if_neg hn]
    · intro hw
      rw [commit_of_created cfg s id r P hr hs, hval, ← hiff]
      cases hm : minSizeOk cfg parts <;> simp [hw]

/-- Claim C10, amended, at a concrete input: upload 1 of `sampleStore`, in
state created with no declared headers and an accepted target path, committed
with its three stored parts, the second of which has 3 bytes, below the minimum
of 5. -/
theorem commit_small_nonfinal_part_witness :
    (∃ i part, i + 1 < ["ab", "c", "d"].length ∧ sampleStore.parts 1 i = some part ∧
        part.size < sampleConfig.minPartSize) ∧
      ((commit sampleConfig sampleStore 1 ["ab", "c", "d"]).1 = .error .argumentInvalid ↔
        (sampleRecord.state = .created ∨
          (sampleRecord.state = .done ∧ sampleRecord.result = some .committed ∧
            sampleRecord.partsMD5Summary ≠ some (computePartsMD5 ["ab", "c", "d"])))) ∧
      commit sampleConfig sampleStore 1 ["ab", "c", "d"]
        = (.error .argumentInvalid, sampleStore) ∧
      (validate sampleConfig sampleStore 1 sampleRecord ["ab", "c", "d"]
          = .error .argumentInvalid ↔
        ∃ i part, i + 1 < ["ab", "c", "d"].length ∧ sampleStore.parts 1 i = some part ∧
          part.size < sampleConfig.minPartSize) ∧
      ((commit sampleConfig sampleStore 1 ["ab", "c", "d"]).1 = .ok () ↔
        ¬ ∃ i part, i + 1 < ["ab", "c", "d"].length ∧ sampleStore.parts 1 i = some part ∧
          part.size < sampleConfig.minPartSize) := by
  have hmatch : ∀ i p, ["ab", "c", "d"][i]? = some p →
      ∃ part, sampleStore.parts 1 i = some part ∧ part.fingerprint = p := by
    intro i p h
    rcases i with _ | _ | _ | i
    · exact ⟨⟨"ab", 8⟩, rfl, by simpa using h⟩
    · exact ⟨⟨"c", 3⟩, rfl, by simpa using h⟩
    · exact ⟨⟨"d", 2⟩, rfl, by simpa using h⟩
    · simp at h
  have hsmall : ∃ i part, i + 1 < ["ab", "c", "d"].length ∧
      sampleStore.parts 1 i = some part ∧ part.size < sampleConfig.minPartSize :=
    ⟨1, ⟨"c", 3⟩, by decide, rfl, by decide⟩
  have T := commit_small_nonfinal_part sampleConfig sampleStore 1 sampleRecord
    ["ab", "c", "d"] rfl hmatch
  have A := T.1 (by decide) hsmall
  have B := T.2 rfl (by decide) (by decide) (by decide)
  exact ⟨hsmall, A.1, A.2 rfl, B.1, B.2.2 (by decide)⟩

/-- Claim C11, as stated, fails: upload 3 of `declaredStore` was created with a
declared content-length of 44 and then aborted; `commit(id, [])`, whose parts
sum to 0, fails with the state-conflict kind, not with argument-invalid. -/
theorem commit_aborted_content_length_mismatch :
    declaredRecord.headers.contentLength = some 44 ∧
      storedSize declaredStore 3 ([] : List String).length = 0 ∧
      (abort declaredStore 3).1 = .ok () ∧
      (commit sampleConfig (abort declaredStore 3).2 3 []).1 = .error .stateConflict := by
  decide

/-- Claim C11, amended: for every upload created with a declared content-length
`L` and every part list `P` whose fingerprints match the stored parts, when the
sum of the stored sizes of the referenced parts differs from `L` (the empty
list included, when `L` is not 0), `commit(id, P)` fails with the
argument-invalid kind exactly when the upload is in state created, or is
already committed with a partsMD5Summary other than that of `P`; the referenced
parts are those the validator finds, and their total size is that sum. -/
theorem commit_content_length_mismatch (cfg : Config) (s : Store) (id : Nat)
    (r : UploadRecord) (P : List String) (L : Nat)
    (hr : s.records id = some r) (hL : r.headers.contentLength = some L)
    (hmatch : ∀ i p, P[i]? = some p →
      ∃ part, s.parts id i = some part ∧ part.fingerprint = p)
    (hsum : storedSize s id P.length ≠ L) :
    ((commit cfg s id P).1 = .error .argumentInvalid ↔
      (r.state = .created ∨
        (r.state = .done ∧ r.result = some .committed ∧
          r.partsMD5Summary ≠ some (computePartsMD5 P)))) ∧
      ∃ parts, lookupParts (s.parts id) 0 P = some parts ∧
        totalSize parts = storedSize s id P.length := by
  obtain ⟨parts, hparts⟩ := lookupParts_of_match (s.parts id) P 0 (by simpa using hmatch)
  have htotal : totalSize parts = storedSize s id P.length := by
    rw [totalSize_lookupParts (s.parts id) P 0 parts hparts]
    simp [storedSize]
  refine ⟨?_, parts, hparts, htotal⟩
  cases hs : r.state with
  | finalizing => simp [commit, hr, hs]
  | created =>
    have hv : validate cfg s id r P = .error .argumentInvalid := by
      cases hval : validate cfg s id r P with
      | error e => rw [validate_error_kind cfg s id r P e hval]
      | ok v =>
        obtain ⟨total, summary⟩ := v
        obtain ⟨parts', hparts', hh⟩ := validate_ok_headers cfg s id r P total summary hval
        rw [hparts] at hparts'
        cases hparts'
        simp only [headersOk, hL, Bool.and_eq_true, decide_eq_true_eq] at hh
        exact absurd (hh.1.trans htotal).symm hsum
    simp [commit_of_created cfg s id r P hr hs, hv]
  | done =>
    cases hres : r.result with
    | none => simp [commit, hr, hs, hres]
    | some res =>
      cases res with
      | aborted => simp [commit, hr, hs, hres]
      | committed =>
        rw [commit_of_committed cfg s id r P hr hs hres]
        split <;> simp_all

/-- Claim C11, amended, at a concrete input: upload 3 of `declaredStore`,
created with a declared content-length of 44, committed with its stored part 0
of 8 bytes. -/
theorem commit_content_length_mismatch_witness :
    ((commit sampleConfig declaredStore 3 ["ab"]).1 = .error .argumentInvalid ↔
      (declaredRecord.state = .created ∨
        (declaredRecord.state = .done ∧ declaredRecord.result = some .committed ∧
          declaredRecord.partsMD5Summary ≠ some (computePartsMD5 ["ab"])))) ∧
      ∃ parts, lookupParts (declaredStore.parts 3) 0 ["ab"] = some parts ∧
        totalSize parts = storedSize declaredStore 3 ["ab"].length :=
  commit_content_length_mismatch sampleConfig declaredStore 3 declaredRecord ["ab"] 44
    rfl rfl
    (by
      intro i p h
      rcases i with _ | i
      · exact ⟨⟨"ab", 8⟩, rfl, by simpa using h⟩
      · simp at h)
    (by decide)

/-- Claim C12: for every upload whose record is done with result `aborted` and
every part list `P`, `commit(id, P)` fails with the state-conflict kind
(`InvalidMultipartUploadState`) and leaves the store as it was: the record
stays done and aborted. -/
theorem commit_aborted (cfg : Config) (s : Store) (id : Nat) (r : UploadRecord)
    (P : List String) (hr : s.records id = some r) (hs : r.state = .done)
    (hres : r.result = some .aborted) :
    commit cfg s id P = (.error .stateConflict, s) ∧
      get (commit cfg s id P).2 id = .ok r ∧
      r.state = .done ∧ r.result = some .aborted := by
  have : commit cfg s id P = (.error .stateConflict, s) := by
    simp [commit, hr, hs, hres]
  rw [this]
  exact ⟨rfl, by simp [get, hr], hs, hres⟩

/-- Claim C12 at a concrete input: upload 1 of `sampleStore`, aborted, then
committed with its stored part 0. -/
theorem commit_aborted_witness :
    commit sampleConfig abortedStore 1 ["ab"] = (.error .stateConflict, abortedStore) ∧
      get (commit sampleConfig abortedStore 1 ["ab"]).2 1 = .ok abortedRecord ∧
      abortedRecord.state = .done ∧ abortedRecord.result = some .aborted :=
  commit_aborted sampleConfig abortedStore 1 abortedRecord ["ab"] (by decide) rfl rfl

theorem create_of_fresh (range : CopiesRange) (s : Store) (id : Nat) (container : String)
    (objectPath : String) (headers : Headers) (numCopies : Nat)
    (hmin : range.minCopies ≤ numCopies) (hmax : numCopies ≤ range.maxCopies)
    (hfresh : s.records id = none) :
    create range s id container objectPath headers numCopies =
      (.ok (freshRecord id container objectPath headers numCopies),
        setRecord s id (freshRecord id container objectPath headers numCopies)) := by
  have h : ¬ (numCopies < range.minCopies ∨ range.maxCopies < numCopies) := by omega
  simp [create, h, hfresh]

theorem create_then_commit_error (range : CopiesRange) (cfg : Config) (s : Store)
    (id : Nat) (container objectPath : String) (headers : Headers) (numCopies : Nat)
    (e : ErrorKind)
    (hmin : range.minCopies ≤ numCopies) (hmax : numCopies ≤ range.maxCopies)
    (hfresh : s.records id = none) (hw : s.writeError objectPath = some e)
    (hl : headers.contentLength = none) (hm : headers.contentMD5 = none) :
    commit cfg (create range s id container objectPath headers numCopies).2 id []
      = (.error e, (create range s id container objectPath headers numCopies).2) := by
  rw [create_of_fresh range s id container objectPath headers numCopies hmin hmax hfresh]
  rw [commit_of_created cfg _ id (freshRecord id container objectPath headers numCopies) []
    (setRecord_records_self _ _ _) rfl,
    validate_nil cfg _ id _ hl hm]
  have : (setRecord s id (freshRecord id container objectPath headers numCopies)).writeError
      (freshRecord id container objectPath headers numCopies).objectPath = some e := hw
  simp only [this]

/-- Claim C13, as stated, fails: on a store whose namespace refuses the three
target paths (a top-level directory, a missing parent directory, another
account), creation of an upload for each of them succeeds and writes a record
in state created, as the tests `commit upload: path is top-level directory`,
`commit upload: parent dir does not exist ...` and
`commit upload: object path under another account` require. -/
theorem create_accepts_refused_paths :
    (emptyStore.writeError "/user/stor" = some .operationNotAllowedOnDirectory ∧
      (create sampleRange emptyStore 7 "/user/uploads/7" "/user/stor" ⟨none, none, []⟩ 2).1
        = .ok (freshRecord 7 "/user/uploads/7" "/user/stor" ⟨none, none, []⟩ 2) ∧
      get (create sampleRange emptyStore 7 "/user/uploads/7" "/user/stor"
          ⟨none, none, []⟩ 2).2 7
        = .ok (freshRecord 7 "/user/uploads/7" "/user/stor" ⟨none, none, []⟩ 2)) ∧
    (emptyStore.writeError "/user/stor/missing/foo.txt" = some .directoryDoesNotExist ∧
      (create sampleRange emptyStore 7 "/user/uploads/7" "/user/stor/missing/foo.txt"
          ⟨none, none, []⟩ 2).1
        = .ok (freshRecord 7 "/user/uploads/7" "/user/stor/missing/foo.txt"
            ⟨none, none, []⟩ 2)) ∧
    (emptyStore.writeError "/poseidon/stor/foo.txt" = some .authorizationFailed ∧
      (create sampleRange emptyStore 7 "/user/uploads/7" "/poseidon/stor/foo.txt"
          ⟨none, none, []⟩ 2).1
        = .ok (freshRecord 7 "/user/uploads/7" "/poseidon/stor/foo.txt"
            ⟨none, none, []⟩ 2)) := by
  decide

/-- Claim C13, amended: for every store whose target paths are checked as
section 4.2 lists, creation of an upload (fresh id, `numCopies` in range) for a
path under an existing account succeeds and writes a record in state created,
also when the path lies under another account, is a top-level directory, or has
a parent directory that does not exist. It is `commit(id, [])` of that upload,
created with no declared content-length or content-md5, that fails, with
`AuthorizationFailed`, `OperationNotAllowedOnDirectory` and
`DirectoryDoesNotExist` respectively, and leaves the store, with the record in
state created, as creation left it. The three failures are three distinct
members of the taxonomy of `errors.js`: the codes are those of
`AuthorizationError` (403), `DirectoryOperationError` (400) and
`DirectoryDoesNotExistError` (404), and differ from one another. -/
theorem create_then_commit_refused (range : CopiesRange) (cfg : Config) (s : Store)
    (ns : Namespace) (id : Nat) (container objectPath : String) (headers : Headers)
    (numCopies : Nat)
    (hmin : range.minCopies ≤ numCopies) (hmax : numCopies ≤ range.maxCopies)
    (hfresh : s.records id = none) (hns : s.writeError = checkTargetPath ns)
    (hacc : ns.accountExists (pathAccount objectPath) = true)
    (hl : headers.contentLength = none) (hm : headers.contentMD5 = none) :
    (create range s id container objectPath headers numCopies).1
        = .ok (freshRecord id container objectPath headers numCopies) ∧
      get (create range s id container objectPath headers numCopies).2 id
        = .ok (freshRecord id container objectPath headers numCopies) ∧
      (freshRecord id container objectPath headers numCopies).state = .created ∧
      (pathAccount objectPath ≠ ns.caller →
        commit cfg (create range s id container objectPath headers numCopies).2 id []
          = (.error .authorizationFailed,
              (create range s id container objectPath headers numCopies).2)) ∧
      (pathAccount objectPath = ns.caller → isTopLevelDirectory objectPath = true →
        commit cfg (create range s id container objectPath headers numCopies).2 id []
          = (.error .operationNotAllowedOnDirectory,
              (create range s id container objectPath headers numCopies).2)) ∧
      (pathAccount objectPath = ns.caller → isTopLevelDirectory objectPath = false →
        ns.directoryExists (dirname objectPath) = false →
        commit cfg (create range s id container objectPath headers numCopies).2 id []
          = (.error .directoryDoesNotExist,
              (create range s id container objectPath headers numCopies).2)) ∧
      (∀ (req : Request) (login _path : String) (reason : Option String),
        (AuthorizationError login _path reason).props.restCode
            = some ErrorKind.authorizationFailed.restCode ∧
          (AuthorizationError login _path reason).props.statusCode = some 403 ∧
          (DirectoryOperationError req).props.restCode
            = some ErrorKind.operationNotAllowedOnDirectory.restCode ∧
          (DirectoryOperationError req).props.statusCode = some 400 ∧
          (DirectoryDoesNotExistError req).props.restCode
            = some ErrorKind.directoryDoesNotExist.restCode ∧
          (DirectoryDoesNotExistError req).props.statusCode = some 404) ∧
      [ErrorKind.authorizationFailed.restCode,
        ErrorKind.operationNotAllowedOnDirectory.restCode,
        ErrorKind.directoryDoesNotExist.restCode].Nodup := by
  have hc := create_of_fresh range s id container objectPath headers numCopies hmin hmax hfresh
  refine ⟨by rw [hc], by rw [hc]; simp [get, setRecord], rfl, ?_, ?_, ?_, ?_, by decide⟩
  · intro hne
    apply create_then_commit_error range cfg s id container objectPath headers numCopies _
      hmin hmax hfresh _ hl hm
    rw [hns]
    simp [checkTargetPath, hacc, hne]
  · intro heq htop
    apply create_then_commit_error range cfg s id container objectPath headers numCopies _
      hmin hmax hfresh _ hl hm
    rw [hns]
    have hacc2 : ns.accountExists ns.caller = true := heq ▸ hacc
    simp [checkTargetPath, hacc2, heq, htop]
  · intro heq htop hdir
    apply create_then_commit_error range cfg s id container objectPath headers numCopies _
      hmin hmax hfresh _ hl hm
    rw [hns]
    have hacc2 : ns.accountExists ns.caller = true := heq ▸ hacc
    simp [checkTargetPath, hacc2, heq, htop, hdir]
  · intro req login _path reason
    exact ⟨rfl, rfl, rfl, rfl, rfl, rfl⟩

/-- Claim C13, amended, at concrete inputs: on `emptyStore`, whose caller is
`user`, an upload is created and then committed with no parts for a path under
the account `poseidon`, for the top-level directory `/user/stor`, and for a
path whose parent `/user/stor/missing` does not exist. -/
theorem create_then_commit_refused_witness :
    ((create sampleRange emptyStore 7 "/user/uploads/7" "/poseidon/stor/foo.txt"
        ⟨none, none, []⟩ 2).1
        = .ok (freshRecord 7 "/user/uploads/7" "/poseidon/stor/foo.txt" ⟨none, none, []⟩ 2) ∧
      commit sampleConfig
          (create sampleRange emptyStore 7 "/user/uploads/7" "/poseidon/stor/foo.txt"
            ⟨none, none, []⟩ 2).2 7 []
        = (.error .authorizationFailed,
            (create sampleRange emptyStore 7 "/user/uploads/7" "/poseidon/stor/foo.txt"
              ⟨none, none, []⟩ 2).2)) ∧
    ((create sampleRange emptyStore 7 "/user/uploads/7" "/user/stor" ⟨none, none, []⟩ 2).1
        = .ok (freshRecord 7 "/user/uploads/7" "/user/stor" ⟨none, none, []⟩ 2) ∧
      commit sampleConfig
          (create sampleRange emptyStore 7 "/user/uploads/7" "/user/stor"
            ⟨none, none, []⟩ 2).2 7 []
        = (.error .operationNotAllowedOnDirectory,
            (create sampleRange emptyStore 7 "/user/uploads/7" "/user/stor"
              ⟨none, none, []⟩ 2).2)) ∧
    ((create sampleRange emptyStore 7 "/user/uploads/7" "/user/stor/missing/foo.txt"
        ⟨none, none, []⟩ 2).1
        = .ok (freshRecord 7 "/user/uploads/7" "/user/stor/missing/foo.txt"
            ⟨none, none, []⟩ 2) ∧
      commit sampleConfig
          (create sampleRange emptyStore 7 "/user/uploads/7" "/user/stor/missing/foo.txt"
            ⟨none, none, []⟩ 2).2 7 []
        = (.error .directoryDoesNotExist,
            (create sampleRange emptyStore 7 "/user/uploads/7" "/user/stor/missing/foo.txt"
              ⟨none, none, []⟩ 2).2)) := by
  have A := create_then_commit_refused sampleRange sampleConfig emptyStore sampleNamespace 7
    "/user/uploads/7" "/poseidon/stor/foo.txt" ⟨none, none, []⟩ 2
    (by decide) (by decide) rfl rfl (by decide) rfl rfl
  have B := create_then_commit_refused sampleRange sampleConfig emptyStore sampleNamespace 7
    "/user/uploads/7" "/user/stor" ⟨none, none, []⟩ 2
    (by decide) (by decide) rfl rfl (by decide) rfl rfl
  have C := create_then_commit_refused sampleRange sampleConfig emptyStore sampleNamespace 7
    "/user/uploads/7" "/user/stor/missing/foo.txt" ⟨none, none, []⟩ 2
    (by decide) (by decide) rfl rfl (by decide) rfl rfl
  exact ⟨⟨A.1, A.2.2.2.1 (by decide)⟩, ⟨B.1, B.2.2.2.2.1 (by decide) (by decide)⟩,
    ⟨C.1, C.2.2.2.2.2.1 (by decide) (by decide) (by decide)⟩⟩

/-! ### The error kinds of `errors.js` -/

/-- The class, the restCode and the statusCode of the error a call builds do
not depend on its arguments. -/
theorem ErrorCall.construct_codes (c : ErrorCall) :
    ((c.construct).props.cls, (c.construct).props.restCode, (c.construct).props.statusCode) =
      match c with
      | .accountDoesNotExist .. =>
        (.muskie "AccountDoesNotExistError", some "AccountDoesNotExist", some 403)
      | .accountBlocked .. => (.muskie "AccountBlockedError", some "AccountBlocked", some 403)
      | .authScheme .. =>
        (.muskie "AuthSchemeError", some "AuthorizationSchemeNotAllowed", some 403)
      | .authorization .. => (.muskie "AuthorizationError", some "AuthorizationFailed", some 403)
      | .checksum .. => (.muskie "ChecksumError", some "ContentMD5Mismatch", some 400)
      | .concurrentRequest .. =>
        (.muskie "ConcurrentRequestError", some "ConcurrentRequest", some 409)
      | .contentLength => (.muskie "ContentLengthError", some "ContentLengthRequired", some 411)
      | .directoryDoesNotExist .. =>
        (.muskie "DirectoryDoesNotExistError", some "DirectoryDoesNotExist", some 404)
      | .directoryLimit .. =>
        (.muskie "DirectoryLimitError", some "DirectoryLimitExceeded", some 409)
      | .directoryNotEmpty .. =>
        (.muskie "DirectoryNotEmptyError", some "DirectoryNotEmpty", some 400)
      | .directoryOperation .. =>
        (.muskie "DirectoryOperationError", some "OperationNotAllowedOnDirectory", some 400)
      | .entityExists .. => (.muskie "EntityExistsError", some "EntityAlreadyExists", some 409)
      | .expectedUpgrade .. => (.muskie "ExpectedUpgradeError", some "ExpectedUpgrade", some 400)
      | .internal .. => (.muskie "InternalError", some "InternalError", some 500)
      | .invalidAuthToken .. =>
        (.muskie "InvalidAuthTokenError", some "InvalidAuthenticationToken", some 403)
      | .invalidHttpAuthToken .. =>
        (.muskie "InvalidHttpAuthTokenError", some "InvalidHttpAuthenticationToken", some 403)
      | .invalidDurabilityLevel .. =>
        (.muskie "InvalidDurabilityLevelError", some "InvalidDurabilityLevel", some 400)
      | .invalidJob .. => (.muskie "InvalidJobError", some "InvalidJob", some 400)
      | .invalidKeyId => (.muskie "InvalidKeyIdError", some "InvalidKeyId", some 403)
      | .invalidLimit .. => (.muskie "InvalidLimitError", some "InvalidArgumentError", some 400)
      | .invalidLink .. => (.muskie "InvalidLinkError", some "InvalidLink", some 400)
      | .invalidUpdate .. => (.muskie "InvalidUpdateError", some "InvalidUpdate", some 400)
      | .invalidParameter .. =>
        (.muskie "InvalidParameterError", some "InvalidParameter", some 400)
      | .invalidPath .. => (.muskie "InvalidPathError", some "InvalidResource", some 400)
      | .invalidRole .. => (.muskie "InvalidRoleError", some "InvalidRole", some 409)
      | .invalidRoleTag .. => (.muskie "InvalidRoleTagError", some "InvalidRoleTag", some 409)
      | .invalidSignature => (.muskie "InvalidSignatureError", some "InvalidSignature", some 403)
      | .jobState .. => (.muskie "JobStateError", some "InvalidJobState", some 409)
      | .jobNotFound .. => (.muskie "JobNotFoundError", some "JobNotFound", some 404)
      | .keyDoesNotExist .. => (.muskie "KeyDoesNotExistError", some "KeyDoesNotExist", some 403)
      | .linkNotFound .. => (.muskie "LinkNotFoundError", some "SourceObjectNotFound", some 404)
      | .linkNotObject .. => (.muskie "LinkNotObjectError", some "LinkNotObject", some 400)
      | .linkRequired => (.muskie "LinkRequiredError", some "LocationRequired", some 400)
      | .sharksExhausted .. => (.muskie "SharksExhaustedError", some "InternalError", some 503)
      | .maxContentLength .. =>
        (.muskie "MaxContentLengthError", some "InvalidMaxContentLength", some 400)
      | .maxSizeExceeded .. =>
        (.muskie "MaxSizeExceededError", some "MaxContentLengthExceeded", some 413)
      | .missingPermission .. =>
        (.muskie "MissingPermissionError", some "MissingPermission", some 403)
      | .notAcceptable .. => (.muskie "NotAcceptableError", some "NotAcceptable", some 406)
      | .noMatchingRoleTag =>
        (.muskie "NoMatchingRoleTagError", some "NoMatchingRoleTag", some 403)
      | .notEnoughSpace .. => (.muskie "NotEnoughSpaceError", some "NotEnoughSpace", some 507)
      | .notImplemented .. => (.muskie "NotImplementedError", some "NotImplemented", some 501)
      | .parentNotDirectory .. =>
        (.muskie "ParentNotDirectoryError", some "ParentNotDirectory", some 400)
      | .preSignedRequest .. =>
        (.muskie "PreSignedRequestError", some "InvalidQueryStringAuthentication", some 403)
      | .requestedRangeNotSatisfiable .. =>
        (.muskie "RequestedRangeNotSatisfiableError", some "RequestedRangeNotSatisfiable",
          some 416)
      | .rootDirectory .. =>
        (.muskie "RootDirectoryError", some "OperationNotAllowedOnRootDirectory", some 400)
      | .resourceNotFound .. =>
        (.muskie "ResourceNotFoundError", some "ResourceNotFound", some 404)
      | .serviceUnavailable .. =>
        (.muskie "ServiceUnavailableError", some "ServiceUnavailable", some 503)
      | .sslRequired => (.muskie "SSLRequiredError", some "SecureTransportRequired", some 403)
      | .uploadAbandoned => (.muskie "UploadAbandonedError", some "UploadAbandoned", some 499)
      | .uploadTimeout => (.muskie "UploadTimeoutError", some "UploadTimeout", some 408)
      | .userDoesNotExist .. =>
        (.muskie "UserDoesNotExistError", some "UserDoesNotExist", some 403) := by
  cases c
  case requestedRangeNotSatisfiable req err =>
    obtain ⟨h1, h2, h3⟩ := RequestedRangeNotSatisfiableError_props req err
    simp only [ErrorCall.construct, h1, h2, h3]
  case internal cause => cases cause <;> rfl
  all_goals rfl

/-- Claim C15, as stated, fails: `InternalError` and `SharksExhaustedError`
carry the same restCode, `InternalError`, with the statusCodes 500 and 503. -/
theorem internalError_sharksExhausted_same_restCode :
    (InternalError none).props.restCode = some "InternalError" ∧
      (SharksExhaustedError none).1.props.restCode = some "InternalError" ∧
      (InternalError none).props.statusCode = some 500 ∧
      (SharksExhaustedError none).1.props.statusCode = some 503 := by
  decide

/-- Apart from `InternalError` and `SharksExhaustedError`, the statusCode of an
error kind is a function of its restCode. -/
theorem ErrorCall.statusCode_of_restCode :
    ∃ t : Option String → Option Nat, ∀ c : ErrorCall,
      c.construct.props.cls = .muskie "InternalError" ∨
        c.construct.props.cls = .muskie "SharksExhaustedError" ∨
        c.construct.props.statusCode = t c.construct.props.restCode := by
  refine ⟨fun r =>
      match r with
      | some "AccountDoesNotExist" => some 403
      | some "AccountBlocked" => some 403
      | some "AuthorizationSchemeNotAllowed" => some 403
      | some "AuthorizationFailed" => some 403
      | some "ContentMD5Mismatch" => some 400
      | some "ConcurrentRequest" => some 409
      | some "ContentLengthRequired" => some 411
      | some "DirectoryDoesNotExist" => some 404
      | some "DirectoryLimitExceeded" => some 409
      | some "DirectoryNotEmpty" => some 400
      | some "OperationNotAllowedOnDirectory" => some 400
      | some "EntityAlreadyExists" => some 409
      | some "ExpectedUpgrade" => some 400
      | some "InvalidAuthenticationToken" => some 403
      | some "InvalidHttpAuthenticationToken" => some 403
      | some "InvalidDurabilityLevel" => some 400
      | some "InvalidJob" => some 400
      | some "InvalidKeyId" => some 403
      | some "InvalidArgumentError" => some 400
      | some "InvalidLink" => some 400
      | some "InvalidUpdate" => some 400
      | some "InvalidParameter" => some 400
      | some "InvalidResource" => some 400
      | some "InvalidRole" => some 409
      | some "InvalidRoleTag" => some 409
      | some "InvalidSignature" => some 403
      | some "InvalidJobState" => some 409
      | some "JobNotFound" => some 404
      | some "KeyDoesNotExist" => some 403
      | some "SourceObjectNotFound" => some 404
      | some "LinkNotObject" => some 400
      | some "LocationRequired" => some 400
      | some "InvalidMaxContentLength" => some 400
      | some "MaxContentLengthExceeded" => some 413
      | some "MissingPermission" => some 403
      | some "NotAcceptable" => some 406
      | some "NoMatchingRoleTag" => some 403
      | some "NotEnoughSpace" => some 507
      | some "NotImplemented" => some 501
      | some "ParentNotDirectory" => some 400
      | some "InvalidQueryStringAuthentication" => some 403
      | some "RequestedRangeNotSatisfiable" => some 416
      | some "OperationNotAllowedOnRootDirectory" => some 400
      | some "ResourceNotFound" => some 404
      | some "ServiceUnavailable" => some 503
      | some "SecureTransportRequired" => some 403
      | some "UploadAbandoned" => some 499
      | some "UploadTimeout" => some 408
      | some "UserDoesNotExist" => some 403
      | _ => none, ?_⟩
  intro c
  have h := c.construct_codes
  cases c <;> simp only [Prod.mk.injEq] at h <;> obtain ⟨hk, hr, hs⟩ := h <;>
    rw [hk, hr, hs] <;> decide

/-- Only `InternalError` and `SharksExhaustedError` carry the restCode
`InternalError`, with the statusCodes 500 and 503. -/
theorem ErrorCall.restCode_internalError (c : ErrorCall)
    (h : c.construct.props.restCode = some "InternalError") :
    (c.construct.props.cls = .muskie "InternalError" ∧
        c.construct.props.statusCode = some 500) ∨
      (c.construct.props.cls = .muskie "SharksExhaustedError" ∧
        c.construct.props.statusCode = some 503) := by
  have h' := c.construct_codes
  cases c <;> simp only [Prod.mk.injEq] at h' <;> obtain ⟨hk, hr, hs⟩ := h' <;>
    simp only [hk, hr, hs] at h ⊢ <;> first | decide | exact absurd h (by decide)

theorem ErrorCall.restCode_of_cls (c : ErrorCall)
    (h : c.construct.props.cls = .muskie "InternalError" ∨
      c.construct.props.cls = .muskie "SharksExhaustedError") :
    c.construct.props.restCode = some "InternalError" := by
  have h' := c.construct_codes
  cases c <;> simp only [Prod.mk.injEq] at h' <;> obtain ⟨hk, hr, hs⟩ := h' <;>
    simp only [hk, hr, hs] at h ⊢ <;> first | rfl | exact absurd h (by decide)

/-- Claim C15, amended: for any two error kinds of `errors.js` and any
arguments, two errors that carry the same restCode carry the same statusCode,
unless one is an `InternalError` and the other a `SharksExhaustedError`, which
share the restCode `InternalError`. -/
theorem restCode_determines_statusCode (c1 c2 : ErrorCall)
    (h : c1.construct.props.restCode = c2.construct.props.restCode) :
    c1.construct.props.statusCode = c2.construct.props.statusCode ∨
      (c1.construct.props.restCode = some "InternalError" ∧
        ((c1.construct.props.cls = .muskie "InternalError" ∧
            c2.construct.props.cls = .muskie "SharksExhaustedError") ∨
          (c1.construct.props.cls = .muskie "SharksExhaustedError" ∧
            c2.construct.props.cls = .muskie "InternalError"))) := by
  obtain ⟨t, ht⟩ := ErrorCall.statusCode_of_restCode
  by_cases hi : c1.construct.props.restCode = some "InternalError"
  · have hi2 : c2.construct.props.restCode = some "InternalError" := h ▸ hi
    rcases c1.restCode_internalError hi with ⟨k1, s1⟩ | ⟨k1, s1⟩ <;>
      rcases c2.restCode_internalError hi2 with ⟨k2, s2⟩ | ⟨k2, s2⟩
    · exact Or.inl (s1.trans s2.symm)
    · exact Or.inr ⟨hi, Or.inl ⟨k1, k2⟩⟩
    · exact Or.inr ⟨hi, Or.inr ⟨k1, k2⟩⟩
    · exact Or.inl (s1.trans s2.symm)
  · have hi2 : ¬ c2.construct.props.restCode = some "InternalError" := h ▸ hi
    have e1 : c1.construct.props.statusCode = t c1.construct.props.restCode := by
      rcases ht c1 with k | k | e
      · exact absurd (c1.restCode_of_cls (Or.inl k)) hi
      · exact absurd (c1.restCode_of_cls (Or.inr k)) hi
      · exact e
    have e2 : c2.construct.props.statusCode = t c2.construct.props.restCode := by
      rcases ht c2 with k | k | e
      · exact absurd (c2.restCode_of_cls (Or.inl k)) hi2
      · exact absurd (c2.restCode_of_cls (Or.inr k)) hi2
      · exact e
    exact Or.inl (by rw [e1, e2, h])

/-- Claim C15, amended, at a concrete input: two `ResourceNotFoundError`s for
different paths. -/
theorem restCode_determines_statusCode_witness :
    (ErrorCall.resourceNotFound "/a/stor/x").construct.props.statusCode
        = (ErrorCall.resourceNotFound "/a/stor/y").construct.props.statusCode ∨
      ((ErrorCall.resourceNotFound "/a/stor/x").construct.props.restCode
          = some "InternalError" ∧
        (((ErrorCall.resourceNotFound "/a/stor/x").construct.props.cls
              = .muskie "InternalError" ∧
            (ErrorCall.resourceNotFound "/a/stor/y").construct.props.cls
              = .muskie "SharksExhaustedError") ∨
          ((ErrorCall.resourceNotFound "/a/stor/x").construct.props.cls
              = .muskie "SharksExhaustedError" ∧
            (ErrorCall.resourceNotFound "/a/stor/y").construct.props.cls
              = .muskie "InternalError"))) :=
  restCode_determines_statusCode (.resourceNotFound "/a/stor/x")
    (.resourceNotFound "/a/stor/y") rfl

/-- Claim C16, as stated, fails: `DirectoryLimitError` carries the statusCode
409, which is neither 503 nor 507. -/
theorem directoryLimitError_statusCode :
    (DirectoryLimitError "/a/stor/dir").props.statusCode = some 409 ∧
      (DirectoryLimitError "/a/stor/dir").props.statusCode ≠ some 503 ∧
      (DirectoryLimitError "/a/stor/dir").props.statusCode ≠ some 507 := by
  decide

/-- Claim C16, amended: for every argument, `SharksExhaustedError` carries the
statusCode 503 and `NotEnoughSpaceError` the statusCode 507, while
`DirectoryLimitError` (the directory entry-count limit of 1,000,000) carries
the statusCode 409. -/
theorem capacity_kinds_statusCode (res : Option Response) (size : Nat) (p : String) :
    (SharksExhaustedError res).1.props.statusCode = some 503 ∧
      (NotEnoughSpaceError size).props.statusCode = some 507 ∧
      (DirectoryLimitError p).props.statusCode = some 409 ∧
      (DirectoryLimitError p).props.message = p ++ " cannot exceed 1,000,000 entries" :=
  ⟨rfl, rfl, rfl, rfl⟩

/-- Claim C17: every not-found kind carries the statusCode 404: for every
argument, `ResourceNotFoundError(p)` has restCode `ResourceNotFound`,
statusCode 404 and message `p` followed by ` was not found`, and
`DirectoryDoesNotExistError(req)` has restCode `DirectoryDoesNotExist`,
statusCode 404 and the message `path.dirname(req.path())` followed by
` does not exist`, which names the parent directory of the request path (for
`/a/stor/dir/obj`, `/a/stor/dir`); `JobNotFoundError` and `LinkNotFoundError`
carry 404 as well. -/
theorem notFound_kinds (p : String) (req : Request) :
    (ResourceNotFoundError p).props.restCode = some "ResourceNotFound" ∧
      (ResourceNotFoundError p).props.statusCode = some 404 ∧
      (ResourceNotFoundError p).props.message = p ++ " was not found" ∧
      (DirectoryDoesNotExistError req).props.restCode = some "DirectoryDoesNotExist" ∧
      (DirectoryDoesNotExistError req).props.statusCode = some 404 ∧
      (DirectoryDoesNotExistError req).props.message
        = dirname req.path ++ " does not exist" ∧
      (DirectoryDoesNotExistError (getRequest "/a/stor/dir/obj")).props.message
        = "/a/stor/dir does not exist" ∧
      (JobNotFoundError req).props.statusCode = some 404 ∧
      (LinkNotFoundError req).props.statusCode = some 404 :=
  ⟨rfl, rfl, rfl, rfl, rfl, rfl, by decide, rfl, rfl⟩

/-- No error kind of `errors.js` has the restCode `InvalidMultipartUploadState`
or `MultipartUploadInvalidArgument`. -/
theorem ErrorCall.restCode_ne_multipartUpload (c : ErrorCall) :
    c.construct.props.restCode ≠ some "InvalidMultipartUploadState" ∧
      c.construct.props.restCode ≠ some "MultipartUploadInvalidArgument" := by
  have h' := c.construct_codes
  cases c <;> simp only [Prod.mk.injEq] at h' <;> obtain ⟨_, hr, _⟩ := h' <;>
    rw [hr] <;> decide

/-- Claim C18, as stated, fails: no error kind of `errors.js`, whatever its
arguments, has the restCode `MultipartUploadInvalidArgument` or
`InvalidMultipartUploadState`, the names without suffix of two errors that
`test/mpu/commit.test.js` asserts. -/
theorem no_multipartUpload_kinds :
    withoutErrorSuffix "MultipartUploadInvalidArgumentError"
        = "MultipartUploadInvalidArgument" ∧
      withoutErrorSuffix "InvalidMultipartUploadStateError"
        = "InvalidMultipartUploadState" ∧
      (¬ ∃ c : ErrorCall, c.construct.props.restCode
        = some (withoutErrorSuffix "MultipartUploadInvalidArgumentError")) ∧
      (¬ ∃ c : ErrorCall, c.construct.props.restCode
        = some (withoutErrorSuffix "InvalidMultipartUploadStateError")) := by
  have e1 : withoutErrorSuffix "MultipartUploadInvalidArgumentError"
      = "MultipartUploadInvalidArgument" := by decide
  have e2 : withoutErrorSuffix "InvalidMultipartUploadStateError"
      = "InvalidMultipartUploadState" := by decide
  refine ⟨e1, e2, ?_, ?_⟩
  · rintro ⟨c, h⟩
    rw [e1] at h
    exact c.restCode_ne_multipartUpload.2 h
  · rintro ⟨c, h⟩
    rw [e2] at h
    exact c.restCode_ne_multipartUpload.1 h

/-- Claim C18, amended: for five of the seven error names the tests assert
(`OperationNotAllowedOnDirectoryError`, `DirectoryDoesNotExistError`,
`AuthorizationFailedError`, `AccountDoesNotExistError`,
`ResourceNotFoundError`), `errors.js` defines a kind whose restCode, for every
argument, is that name without its `Error` suffix; for
`InvalidMultipartUploadStateError` and `MultipartUploadInvalidArgumentError` it
defines none. -/
theorem asserted_names_in_errors_js :
    (∀ req, (DirectoryOperationError req).props.restCode
      = some (withoutErrorSuffix "OperationNotAllowedOnDirectoryError")) ∧
    (∀ req, (DirectoryDoesNotExistError req).props.restCode
      = some (withoutErrorSuffix "DirectoryDoesNotExistError")) ∧
    (∀ login path reason, (AuthorizationError login path reason).props.restCode
      = some (withoutErrorSuffix "AuthorizationFailedError")) ∧
    (∀ account, (AccountDoesNotExistError account).props.restCode
      = some (withoutErrorSuffix "AccountDoesNotExistError")) ∧
    (∀ p, (ResourceNotFoundError p).props.restCode
      = some (withoutErrorSuffix "ResourceNotFoundError")) ∧
    (∀ c : ErrorCall, c.construct.props.restCode
      ≠ some (withoutErrorSuffix "InvalidMultipartUploadStateError")) ∧
    (∀ c : ErrorCall, c.construct.props.restCode
      ≠ some (withoutErrorSuffix "MultipartUploadInvalidArgumentError")) := by
  have e1 : withoutErrorSuffix "OperationNotAllowedOnDirectoryError"
      = "OperationNotAllowedOnDirectory" := by decide
  have e2 : withoutErrorSuffix "DirectoryDoesNotExistError" = "DirectoryDoesNotExist" := by
    decide
  have e3 : withoutErrorSuffix "AuthorizationFailedError" = "AuthorizationFailed" := by decide
  have e4 : withoutErrorSuffix "AccountDoesNotExistError" = "AccountDoesNotExist" := by decide
  have e5 : withoutErrorSuffix "ResourceNotFoundError" = "ResourceNotFound" := by decide
  have e6 : withoutErrorSuffix "InvalidMultipartUploadStateError"
      = "InvalidMultipartUploadState" := by decide
  have e7 : withoutErrorSuffix "MultipartUploadInvalidArgumentError"
      = "MultipartUploadInvalidArgument" := by decide
  refine ⟨fun _ => by rw [e1]; rfl, fun _ => by rw [e2]; rfl, fun _ _ _ => by rw [e3]; rfl,
    fun _ => by rw [e4]; rfl, fun _ => by rw [e5]; rfl, ?_, ?_⟩
  · intro c
    rw [e6]
    exact c.restCode_ne_multipartUpload.1
  · intro c
    rw [e7]
    exact c.restCode_ne_multipartUpload.2

/-! ### `checkGetResponse` -/

theorem checkGetResponse_fields_of_accept (this : Tester) (u : UploadObject)
    (h : checkGetResponse this (some u) = none) :
    u.id.truthy = true ∧ checkGetResponse.fields u = none := by
  unfold checkGetResponse at h
  simp only at h
  by_cases h1 : u.id.truthy = true
  case neg => rw [if_pos h1] at h; cases h
  rw [if_neg (not_not_intro h1)] at h
  refine ⟨h1, ?_⟩
  by_cases h2 : this.uploadId.truthy = true
  · rw [if_pos h2] at h
    by_cases h3 : this.uploadId ≠ u.id
    · rw [if_pos h3] at h; cases h
    rw [if_neg h3] at h
    by_cases h4 : u.state = .string "created" ∧ this.partsDirectory ≠ u.partsDirectory
    · rw [if_pos h4] at h; cases h
    rw [if_neg h4] at h
    exact h
  · rw [if_neg h2] at h
    exact h

theorem checkGetResponse_fields_accept (u : UploadObject)
    (h : checkGetResponse.fields u = none) :
    u.state.truthy = true ∧ u.targetObject.truthy = true ∧ u.headers.truthy = true ∧
      u.numCopies.truthy = true ∧
      ((u.state = .string "created" ∧ u.partsDirectory.truthy = true) ∨
        (u.state = .string "finalizing" ∧ u.type.truthy = true ∧
          (u.type = .string "abort" ∨ u.type = .string "commit")) ∨
        (u.state = .string "done" ∧ u.result.truthy = true ∧
          (u.result = .string "aborted" ∨
            (u.result = .string "committed" ∧ u.partsMD5Summary.truthy = true)))) := by
  unfold checkGetResponse.fields at h
  by_cases h1 : u.state.truthy = true
  case neg => rw [if_pos h1] at h; cases h
  rw [if_neg (not_not_intro h1)] at h
  by_cases h2 : u.state = .string "created" ∨ u.state = .string "finalizing" ∨
      u.state = .string "done"
  case neg => rw [if_pos h2] at h; cases h
  rw [if_neg (not_not_intro h2)] at h
  by_cases h3 : u.targetObject.truthy = true
  case neg => rw [if_pos h3] at h; cases h
  rw [if_neg (not_not_intro h3)] at h
  by_cases h4 : u.headers.truthy = true
  case neg => rw [if_pos h4] at h; cases h
  rw [if_neg (not_not_intro h4)] at h
  by_cases h5 : u.numCopies.truthy = true
  case neg => rw [if_pos h5] at h; cases h
  rw [if_neg (not_not_intro h5), if_neg (not_not_intro h4)] at h
  refine ⟨h1, h3, h4, h5, ?_⟩
  by_cases hc : u.state = .string "created"
  · rw [if_pos hc] at h
    by_cases h6 : u.partsDirectory.truthy = true
    · exact Or.inl ⟨hc, h6⟩
    · rw [if_pos h6] at h; cases h
  rw [if_neg hc] at h
  by_cases hf : u.state = .string "finalizing"
  · rw [if_pos hf] at h
    by_cases h7 : u.type.truthy = true
    case neg => rw [if_pos h7] at h; cases h
    rw [if_neg (not_not_intro h7)] at h
    by_cases h8 : u.type = .string "abort" ∨ u.type = .string "commit"
    · exact Or.inr (Or.inl ⟨hf, h7, h8⟩)
    · rw [if_pos h8] at h; cases h
  rw [if_neg hf] at h
  have hd : u.state = .string "done" := by
    rcases h2 with h2 | h2 | h2
    · exact absurd h2 hc
    · exact absurd h2 hf
    · exact h2
  by_cases h9 : u.result.truthy = true
  case neg => rw [if_pos h9] at h; cases h
  rw [if_neg (not_not_intro h9)] at h
  by_cases h10 : u.result = .string "aborted" ∨ u.result = .string "committed"
  case neg => rw [if_pos h10] at h; cases h
  rw [if_neg (not_not_intro h10)] at h
  by_cases h11 : u.result = .string "committed"
  · rw [if_pos h11] at h
    by_cases h12 : u.partsMD5Summary.truthy = true
    · exact Or.inr (Or.inr ⟨hd, h9, Or.inr ⟨h11, h12⟩⟩)
    · rw [if_pos h12] at h; cases h
  · rcases h10 with h10 | h10
    · exact Or.inr (Or.inr ⟨hd, h9, Or.inl h10⟩)
    · exact absurd h10 h11

/-- Claim C19, as stated, fails: a response in state `created` with result
`committed` and no partsMD5Summary is accepted by `checkGetResponse`, which
reads the result of an upload in state `done` only. -/
theorem checkGetResponse_accepts_created_with_result :
    checkGetResponse freshTester (some createdWithResult) = none ∧
      createdWithResult.result = .string "committed" ∧
      createdWithResult.partsMD5Summary.truthy = false := by
  decide

/-- Claim C19, amended: if `checkGetResponse(u)` returns null then `u` is
present, `u.id`, `u.targetObject`, `u.headers` and `u.numCopies` are present,
`u.state` is one of `created`, `finalizing`, `done`, and: state `created`
implies partsDirectory is present; state `finalizing` implies type is `abort`
or `commit`; state `done` implies result is `aborted` or `committed`; in state
`done`, result `committed` implies partsMD5Summary is present. -/
theorem checkGetResponse_field_presence (this : Tester) (u : Option UploadObject)
    (h : checkGetResponse this u = none) :
    ∃ o, u = some o ∧
      o.id.truthy = true ∧ o.targetObject.truthy = true ∧ o.headers.truthy = true ∧
      o.numCopies.truthy = true ∧
      (o.state = .string "created" ∨ o.state = .string "finalizing" ∨
        o.state = .string "done") ∧
      (o.state = .string "created" → o.partsDirectory.truthy = true) ∧
      (o.state = .string "finalizing" →
        o.type = .string "abort" ∨ o.type = .string "commit") ∧
      (o.state = .string "done" →
        o.result = .string "aborted" ∨ o.result = .string "committed") ∧
      (o.state = .string "done" → o.result = .string "committed" →
        o.partsMD5Summary.truthy = true) := by
  cases u with
  | none => simp [checkGetResponse] at h
  | some o =>
    obtain ⟨hid, hf⟩ := checkGetResponse_fields_of_accept this o h
    obtain ⟨_, ht, hh, hn, hstate⟩ := checkGetResponse_fields_accept o hf
    refine ⟨o, rfl, hid, ht, hh, hn, ?_, ?_, ?_, ?_, ?_⟩
    · rcases hstate with ⟨hs, _⟩ | ⟨hs, _⟩ | ⟨hs, _⟩
      · exact Or.inl hs
      · exact Or.inr (Or.inl hs)
      · exact Or.inr (Or.inr hs)
    · intro hc
      rcases hstate with ⟨_, hp⟩ | ⟨hs, _⟩ | ⟨hs, _⟩
      · exact hp
      · rw [hc] at hs; exact absurd hs (by decide)
      · rw [hc] at hs; exact absurd hs (by decide)
    · intro hc
      rcases hstate with ⟨hs, _⟩ | ⟨_, _, hty⟩ | ⟨hs, _⟩
      · rw [hc] at hs; exact absurd hs (by decide)
      · exact hty
      · rw [hc] at hs; exact absurd hs (by decide)
    · intro hc
      rcases hstate with ⟨hs, _⟩ | ⟨hs, _⟩ | ⟨_, _, hres⟩
      · rw [hc] at hs; exact absurd hs (by decide)
      · rw [hc] at hs; exact absurd hs (by decide)
      · rcases hres with hres | ⟨hres, _⟩
        · exact Or.inl hres
        · exact Or.inr hres
    · intro hc hcom
      rcases hstate with ⟨hs, _⟩ | ⟨hs, _⟩ | ⟨_, _, hres⟩
      · rw [hc] at hs; exact absurd hs (by decide)
      · rw [hc] at hs; exact absurd hs (by decide)
      · rcases hres with hres | ⟨_, hsum⟩
        · rw [hcom] at hres; exact absurd hres (by decide)
        · exact hsum

/-- Claim C19, amended, at a concrete input: a response in state `done`,
result `committed`, with its summary. -/
theorem checkGetResponse_field_presence_witness :
    ∃ o, some committedResponse = some o ∧
      o.id.truthy = true ∧ o.targetObject.truthy = true ∧ o.headers.truthy = true ∧
      o.numCopies.truthy = true ∧
      (o.state = .string "created" ∨ o.state = .string "finalizing" ∨
        o.state = .string "done") ∧
      (o.state = .string "created" → o.partsDirectory.truthy = true) ∧
      (o.state = .string "finalizing" →
        o.type = .string "abort" ∨ o.type = .string "commit") ∧
      (o.state = .string "done" →
        o.result = .string "aborted" ∨ o.result = .string "committed") ∧
      (o.state = .string "done" → o.result = .string "committed" →
        o.partsMD5Summary.truthy = true) :=
  checkGetResponse_field_presence freshTester (some committedResponse) (by decide)

/-- Claim C20, as stated, fails: a response in state `done`, result `aborted`,
that still carries a partsDirectory and a type is accepted by
`checkGetResponse`, so partsDirectory, type and result are all present. -/
theorem checkGetResponse_accepts_done_with_partsDirectory :
    checkGetResponse freshTester (some doneWithPartsDirectory) = none ∧
      doneWithPartsDirectory.state = .string "done" ∧
      doneWithPartsDirectory.partsDirectory.truthy = true ∧
      doneWithPartsDirectory.type.truthy = true ∧
      doneWithPartsDirectory.result.truthy = true := by
  decide

/-- Claim C20, amended: for every upload `u` that `checkGetResponse` accepts,
exactly one of the following holds: the state is `created` and partsDirectory
is present; the state is `finalizing` and a finalization type is present; the
state is `done` and a result is present. Nothing is required of the fields of
the other states. -/
theorem checkGetResponse_state_field (this : Tester) (o : UploadObject)
    (h : checkGetResponse this (some o) = none) :
    ((o.state = .string "created" ∧ o.partsDirectory.truthy = true) ∨
      (o.state = .string "finalizing" ∧ o.type.truthy = true) ∨
      (o.state = .string "done" ∧ o.result.truthy = true)) ∧
    ¬ ((o.state = .string "created" ∧ o.partsDirectory.truthy = true) ∧
      (o.state = .string "finalizing" ∧ o.type.truthy = true)) ∧
    ¬ ((o.state = .string "created" ∧ o.partsDirectory.truthy = true) ∧
      (o.state = .string "done" ∧ o.result.truthy = true)) ∧
    ¬ ((o.state = .string "finalizing" ∧ o.type.truthy = true) ∧
      (o.state = .string "done" ∧ o.result.truthy = true)) := by
  obtain ⟨_, hf⟩ := checkGetResponse_fields_of_accept this o h
  obtain ⟨_, _, _, _, hstate⟩ := checkGetResponse_fields_accept o hf
  refine ⟨?_, ?_, ?_, ?_⟩
  · rcases hstate with ⟨hs, hp⟩ | ⟨hs, hty, _⟩ | ⟨hs, hres, _⟩
    · exact Or.inl ⟨hs, hp⟩
    · exact Or.inr (Or.inl ⟨hs, hty⟩)
    · exact Or.inr (Or.inr ⟨hs, hres⟩)
  · rintro ⟨⟨h1, _⟩, ⟨h2, _⟩⟩
    rw [h1] at h2; exact absurd h2 (by decide)
  · rintro ⟨⟨h1, _⟩, ⟨h2, _⟩⟩
    rw [h1] at h2; exact absurd h2 (by decide)
  · rintro ⟨⟨h1, _⟩, ⟨h2, _⟩⟩
    rw [h1] at h2; exact absurd h2 (by decide)

/-- Claim C20, amended, at a concrete input: the accepted response in state
`done` that still carries a partsDirectory and a type. -/
theorem checkGetResponse_state_field_witness :
    ((doneWithPartsDirectory.state = .string "created" ∧
        doneWithPartsDirectory.partsDirectory.truthy = true) ∨
      (doneWithPartsDirectory.state = .string "finalizing" ∧
        doneWithPartsDirectory.type.truthy = true) ∨
      (doneWithPartsDirectory.state = .string "done" ∧
        doneWithPartsDirectory.result.truthy = true)) ∧
    ¬ ((doneWithPartsDirectory.state = .string "created" ∧
        doneWithPartsDirectory.partsDirectory.truthy = true) ∧
      (doneWithPartsDirectory.state = .string "finalizing" ∧
        doneWithPartsDirectory.type.truthy = true)) ∧
    ¬ ((doneWithPartsDirectory.state = .string "created" ∧
        doneWithPartsDirectory.partsDirectory.truthy = true) ∧
      (doneWithPartsDirectory.state = .string "done" ∧
        doneWithPartsDirectory.result.truthy = true)) ∧
    ¬ ((doneWithPartsDirectory.state = .string "finalizing" ∧
        doneWithPartsDirectory.type.truthy = true) ∧
      (doneWithPartsDirectory.state = .string "done" ∧
        doneWithPartsDirectory.result.truthy = true)) :=
  checkGetResponse_state_field freshTester doneWithPartsDirectory (by decide)

/-! ### Part boundaries in `computePartsMD5` -/

theorem computePartsMD5_eq_md5_join (parts : List String) :
    computePartsMD5 parts = writeObjectHelper.md5 (String.join parts) := by
  unfold computePartsMD5 writeObjectHelper.md5 String.join
  have := foldl_update_eq parts createHash ""
  rw [Hash.update_empty] at this
  rw [this]

/-- Claim C24: `computePartsMD5` does not see part boundaries. Two part lists
whose concatenations `p0 ∥ p1 ∥ ...` are the same string have the same digest;
in particular `['']` and `[]` have the same digest, and so have `['ab', 'c']`
and `['a', 'bc']`, although the lists differ. -/
theorem computePartsMD5_boundary_blind (P Q : List String)
    (h : String.join P = String.join Q) :
    computePartsMD5 P = computePartsMD5 Q ∧
      computePartsMD5 [""] = computePartsMD5 [] ∧
      computePartsMD5 ["ab", "c"] = computePartsMD5 ["a", "bc"] ∧
      [""] ≠ ([] : List String) ∧ ["ab", "c"] ≠ ["a", "bc"] := by
  refine ⟨?_, ?_, ?_, by decide, by decide⟩
  · rw [computePartsMD5_eq_md5_join, computePartsMD5_eq_md5_join, h]
  · rw [computePartsMD5_eq_md5_join, computePartsMD5_eq_md5_join]
    rfl
  · rw [computePartsMD5_eq_md5_join, computePartsMD5_eq_md5_join]
    have : String.join ["ab", "c"] = String.join ["a", "bc"] := by decide
    rw [this]

/-- Claim C24 at a concrete input: the part lists `['ab', 'c']` and
`['a', 'bc']`, which both concatenate to `abc`. -/
theorem computePartsMD5_boundary_blind_witness :
    String.join ["ab", "c"] = String.join ["a", "bc"] ∧
      (computePartsMD5 ["ab", "c"] = computePartsMD5 ["a", "bc"] ∧
        computePartsMD5 [""] = computePartsMD5 [] ∧
        computePartsMD5 ["ab", "c"] = computePartsMD5 ["a", "bc"] ∧
        [""] ≠ ([] : List String) ∧ ["ab", "c"] ≠ ["a", "bc"]) :=
  ⟨by decide, computePartsMD5_boundary_blind ["ab", "c"] ["a", "bc"] (by decide)⟩

/-! ### Repeated and wrapped `translateError` -/

theorem JsError.ne_caused (c : JsError) : ∀ p : ErrorProps, c ≠ .caused p c := by
  induction c with
  | plain q => intro p h; cases h
  | caused q d ih =>
    intro p h
    injection h with h1 h2
    exact ih q h2

theorem translateError_fixed_iff (e : JsError) (req : Request) :
    translateError e req = e ↔
      (isTaxonomyMember e = true ∨
        (e.jse_cause = none ∧ e.name = "PreconditionFailedError")) := by
  by_cases hm : isTaxonomyMember e = true
  · simp [translateError_of_member e req hm, hm]
  · have hm' : isTaxonomyMember e = false := by simpa using hm
    have key : ∀ r : JsError, isTaxonomyMember r = true → r ≠ e := by
      intro r hr he
      rw [he] at hr
      exact hm hr
    rw [translateError_of_raw e req hm']
    cases e with
    | plain p =>
      have he : effectiveError (.plain p) = .plain p := rfl
      rw [he]
      split
      · simp [hm', key _ (isTaxonomyMember_ResourceNotFound _ _), *]
      · simp [JsError.jse_cause, *]
      · simp [hm', key _ (isTaxonomyMember_RequestedRange _ _), *]
      · simp [hm', key _ (isTaxonomyMember_ConcurrentRequest _), *]
      · simp [hm', key _ (isTaxonomyMember_ConcurrentRequest _), *]
      · simp only [hm', key _ (isTaxonomyMember_InternalError _), false_iff]
        simp_all
    | caused p c =>
      have he : effectiveError (.caused p c) = c := rfl
      rw [he]
      have hc : c ≠ .caused p c := JsError.ne_caused c p
      split
      · simp [hm', key _ (isTaxonomyMember_ResourceNotFound _ _), JsError.jse_cause]
      · simp [hm', hc, JsError.jse_cause]
      · simp [hm', key _ (isTaxonomyMember_RequestedRange _ _), JsError.jse_cause]
      · simp [hm', key _ (isTaxonomyMember_ConcurrentRequest _), JsError.jse_cause]
      · simp [hm', key _ (isTaxonomyMember_ConcurrentRequest _), JsError.jse_cause]
      · simp [hm', key _ (isTaxonomyMember_InternalError _), JsError.jse_cause]

/-- Claim C25, as stated, fails: for a `VError` whose cause is named
`PreconditionFailedError` and has a cause of its own, the first call hands
back that cause, which is outside the taxonomy, and the second call classifies
it by the name of its own cause and builds an `InternalError`. -/
theorem translateError_not_idempotent :
    translateError wrappedTwice (getRequest "/a/stor/x")
        = .caused (rawError "PreconditionFailedError") (.plain (rawError "TypeError")) ∧
      translateError (translateError wrappedTwice (getRequest "/a/stor/x"))
        (getRequest "/a/stor/x") = InternalError none ∧
      translateError (translateError wrappedTwice (getRequest "/a/stor/x"))
        (getRequest "/a/stor/x") ≠ translateError wrappedTwice (getRequest "/a/stor/x") := by
  decide

/-- Claim C25, amended: for every `err` and `req`,
`translateError(translateError(err, req), req)` returns the value that
`translateError(err, req)` returned exactly when that value is a `MuskieError`
or a restify `HttpError`, or has no `jse_cause` set; and `translateError`
returns its argument unchanged when that is already a `MuskieError` or an
`HttpError`. -/
theorem translateError_idempotent_iff (err : JsError) (req : Request) :
    (translateError (translateError err req) req = translateError err req ↔
      (isTaxonomyMember (translateError err req) = true ∨
        (translateError err req).jse_cause = none)) ∧
    (isTaxonomyMember err = true → translateError err req = err) := by
  refine ⟨?_, translateError_of_member err req⟩
  rw [translateError_fixed_iff]
  constructor
  · rintro (h | ⟨h, _⟩)
    · exact Or.inl h
    · exact Or.inr h
  · rintro (h | h)
    · exact Or.inl h
    · by_cases hm : isTaxonomyMember (translateError err req) = true
      · exact Or.inl hm
      · refine Or.inr ⟨h, ?_⟩
        have hn := (translateError_member_iff_aux err req).not.mp hm
        push_neg at hn
        obtain ⟨h1, h2, _⟩ := hn
        have h1' : isTaxonomyMember err = false := by simpa using h1
        have hr : translateError err req = effectiveError err := by
          rw [translateError_of_raw err req h1']
          simp [h2]
        rw [hr]
        exact h2

theorem ErrorCall.construct_name (c : ErrorCall) : (c.construct).name = "WError" := by
  cases c
  case requestedRangeNotSatisfiable req err =>
    simp only [ErrorCall.construct, RequestedRangeNotSatisfiableError, JsError.name,
      JsError.props, MuskieError, RestError]
    cases err with
    | none => rfl
    | some e =>
      dsimp only
      split <;> rfl
  case internal cause => cases cause <;> rfl
  all_goals rfl

theorem ErrorCall.construct_eq_internalError (c : ErrorCall)
    (h : InternalError none = c.construct) : c = .internal none := by
  have hc := ErrorCall.construct_codes c
  rw [← h] at hc
  cases c
  case internal cause =>
    cases cause with
    | none => rfl
    | some x => cases h
  all_goals
    simp only [InternalError, JsError.props, MuskieError, RestError, newObject, Prod.mk.injEq,
      ErrorClass.muskie.injEq] at hc
    exact absurd hc.1 (by decide)

/-- Claim C26: `translateError` classifies a wrapped error by the name of its
direct cause only. When `err` is not itself a `MuskieError` or an `HttpError`
and `err.jse_cause` is set, the result is what the `switch` gives for
`err.jse_cause.name`: it does not depend on `err.name` or on any other property
of `err`, and its properties do not depend on what the cause itself wraps, so
one level of cause is unwrapped. The taxonomy check is made on `err` before the
unwrapping and not on the cause: a cause that is already a `MuskieError`, built
by any constructor of `errors.js` with any arguments, is not returned as it is
but classified by its name, which is no label of the `switch`, so the result is
the value of `new InternalError()`; it differs from the cause unless the cause
is itself an `InternalError` built without a cause. -/
theorem translateError_wrapped (props : ErrorProps) (cause : JsError) (req : Request)
    (h : isTaxonomyMember (.caused props cause) = false) :
    translateError (.caused props cause) req =
        (match cause.name with
        | "ObjectNotFoundError" => restify.ResourceNotFoundError cause req.path
        | "PreconditionFailedError" => cause
        | "RequestedRangeNotSatisfiableError" =>
            RequestedRangeNotSatisfiableError req (some cause)
        | "EtagConflictError" => ConcurrentRequestError req.path
        | "UniqueAttributeError" => ConcurrentRequestError req.path
        | _ => InternalError none) ∧
      (∀ props2 : ErrorProps, isTaxonomyMember (.caused props2 cause) = false →
        translateError (.caused props2 cause) req = translateError (.caused props cause) req) ∧
      (∀ cause2 : JsError, cause2.props = cause.props →
        (translateError (.caused props cause2) req).props
          = (translateError (.caused props cause) req).props) ∧
      (∀ c : ErrorCall,
        instanceofMuskieError c.construct = true ∧
        translateError (.caused props c.construct) req = InternalError none ∧
        (c ≠ .internal none →
          translateError (.caused props c.construct) req ≠ c.construct)) := by
  have h1 := translateError_of_raw (.caused props cause) req h
  have he : ∀ (p : ErrorProps) (c : JsError), effectiveError (.caused p c) = c :=
    fun _ _ => rfl
  rw [he] at h1
  refine ⟨h1, ?_, ?_, ?_⟩
  · intro props2 h2
    have h3 := translateError_of_raw (.caused props2 cause) req h2
    rw [he] at h3
    rw [h1, h3]
  · intro cause2 hp
    have h2 : isTaxonomyMember (.caused props cause2) = false := h
    have h3 := translateError_of_raw (.caused props cause2) req h2
    rw [he] at h3
    have hn : cause2.name = cause.name := by simp [JsError.name, hp]
    rw [h1, h3, hn]
    split
    · rfl
    · exact hp
    · simp only [RequestedRangeNotSatisfiableError, hp]
    · rfl
    · rfl
    · rfl
  · intro c
    have h2 : isTaxonomyMember (.caused props c.construct) = false := h
    have h3 := translateError_of_raw (.caused props c.construct) req h2
    rw [he, ErrorCall.construct_name c] at h3
    have h4 : translateError (.caused props c.construct) req = InternalError none := h3
    have hm : instanceofMuskieError c.construct = true := by
      have hc := congrArg Prod.fst (ErrorCall.construct_codes c)
      simp only at hc
      unfold instanceofMuskieError
      rw [hc]
      cases c <;> rfl
    refine ⟨hm, h4, ?_⟩
    intro hne heq
    rw [h4] at heq
    exact hne (ErrorCall.construct_eq_internalError c heq)

/-- Claim C26 at a concrete input: a `VError` whose cause is the
`ConcurrentRequestError` of `/a/stor/x`, a `MuskieError` of status 409; the
result is a fresh `InternalError`, not the cause. -/
theorem translateError_wrapped_witness :
    isTaxonomyMember (.caused (rawError "VError") (ConcurrentRequestError "/a/stor/x")) = false ∧
      instanceofMuskieError (ErrorCall.concurrentRequest "/a/stor/x").construct = true ∧
      translateError
          (.caused (rawError "VError") (ErrorCall.concurrentRequest "/a/stor/x").construct)
          (getRequest "/a/stor/x") = InternalError none ∧
      (ErrorCall.concurrentRequest "/a/stor/x" ≠ .internal none →
        translateError
            (.caused (rawError "VError") (ErrorCall.concurrentRequest "/a/stor/x").construct)
            (getRequest "/a/stor/x") ≠ (ErrorCall.concurrentRequest "/a/stor/x").construct) :=
  ⟨by decide,
    (translateError_wrapped (rawError "VError") (ConcurrentRequestError "/a/stor/x")
      (getRequest "/a/stor/x") (by decide)).2.2.2 (.concurrentRequest "/a/stor/x")⟩

/-! ### `checkCreateResponse` and `createUploadHelper` -/

/-- Values of `basename` on sample paths, as Node's `path.basename` gives
them, and a response that `checkCreateResponse` accepts. -/
theorem basename_examples :
    basename "/user/uploads/0/0f1e" = "0f1e" ∧ basename "/user/uploads/0/0f1e/" = "0f1e" ∧
      basename "0f1e" = "0f1e" ∧ basename "/" = "" ∧ basename "" = "" ∧
      checkCreateResponse
        (some { id := .string "0f1e", partsDirectory := some "/user/uploads/0/0f1e" }) = none := by
  decide

/-- Claim C21: `checkCreateResponse(o)` returns `null` exactly when `o` is
present, `o.id` is present, `o.partsDirectory` is present (each in the sense of
the `!` test: the value is truthy) and `o.id` equals `path.basename` of
`o.partsDirectory`; in every other case it returns an `Error`. -/
theorem checkCreateResponse_null_iff (o : Option CreateObject) :
    (checkCreateResponse o = none ↔
      ∃ obj dir, o = some obj ∧ obj.id.truthy = true ∧
        obj.partsDirectory = some dir ∧ (JsValue.string dir).truthy = true ∧
        obj.id = .string (basename dir)) ∧
    ((¬ ∃ obj dir, o = some obj ∧ obj.id.truthy = true ∧
        obj.partsDirectory = some dir ∧ (JsValue.string dir).truthy = true ∧
        obj.id = .string (basename dir)) →
      ∃ msg, checkCreateResponse o = some msg) := by
  have h1 : checkCreateResponse o = none ↔
      ∃ obj dir, o = some obj ∧ obj.id.truthy = true ∧
        obj.partsDirectory = some dir ∧ (JsValue.string dir).truthy = true ∧
        obj.id = .string (basename dir) := by
    cases o with
    | none => simp [checkCreateResponse]
    | some obj =>
      cases hd : obj.partsDirectory with
      | none =>
        by_cases hi : obj.id.truthy = true
        · simp [checkCreateResponse, hd, hi]
        · simp [checkCreateResponse, hd, hi]
      | some dir =>
        by_cases hi : obj.id.truthy = true
        · by_cases ht : (JsValue.string dir).truthy = true
          · by_cases he : obj.id = .string (basename dir)
            · simp [checkCreateResponse, hd, hi, ht, he]
            · simp [checkCreateResponse, hd, hi, ht, he]
          · simp [checkCreateResponse, hd, hi, ht]
        · simp [checkCreateResponse, hd, hi]
  refine ⟨h1, ?_⟩
  intro hn
  cases hc : checkCreateResponse o with
  | none => exact absurd (h1.mp hc) hn
  | some msg => exact ⟨msg, rfl⟩

/-- Evaluation for claim C23, which the code does not meet: create-mpu
answers without a transport error and with an object whose id does not match
its parts directory; `checkCreateResponse` rejects the object, and
`createUploadHelper` calls the callback with `err2`, which is `null`, and
without the object. -/
theorem createUploadHelper_drops_check_error :
    checkCreateResponse (some mismatchedCreateObject)
        = some "create-mpu returned an upload ID that does not match its parts directory" ∧
      createUploadHelper freshTester .null .null (some mismatchedCreateObject)
        = some ({ err := .null, object := none },
                { uploadId := .string "0f1e",
                  partsDirectory := .string "/user/uploads/0/ffff" }) := by
  decide

/-! ### The exports of `errors.js` -/

theorem execFunctionLine_of_not_begins (l : String) (h : beginsWithFunction l = false) :
    execFunctionLine l = none := by
  unfold execFunctionLine
  unfold beginsWithFunction at h
  split
  · rename_i rest heq
    rw [heq] at h
    simp at h
  · rfl

theorem autoExport_filter (lines : List String) :
    ∀ exports : List (String × DeclaredFunction),
      autoExport lines exports = autoExport (lines.filter beginsWithFunction) exports := by
  induction lines with
  | nil => intro exports; rfl
  | cons l ls ih =>
    intro exports
    cases hb : beginsWithFunction l with
    | true =>
      rw [List.filter_cons_of_pos hb]
      simp only [autoExport, List.foldl_cons]
      exact ih _
    | false =>
      rw [List.filter_cons_of_neg (by simp [hb])]
      simp only [autoExport, List.foldl_cons, execFunctionLine_of_not_begins l hb]
      exact ih _

theorem filterMap_execFunctionLine_filter (lines : List String) :
    lines.filterMap execFunctionLine
      = (lines.filter beginsWithFunction).filterMap execFunctionLine := by
  induction lines with
  | nil => rfl
  | cons l ls ih =>
    cases hb : beginsWithFunction l with
    | true =>
      rw [List.filter_cons_of_pos hb]
      cases he : execFunctionLine l <;> simp [List.filterMap_cons, he, ih]
    | false =>
      rw [List.filter_cons_of_neg (by simp [hb])]
      simp [List.filterMap_cons, execFunctionLine_of_not_begins l hb, ih]

theorem injectGlobals_of_not_key (exports : List (String × DeclaredFunction)) (k : String) :
    ∀ global : String → Option DeclaredFunction, k ∉ exports.map (fun kv => kv.1) →
      injectGlobals exports global k = global k := by
  induction exports with
  | nil => intro global _; rfl
  | cons kv tl ih =>
    intro global hk
    simp only [List.map_cons, List.mem_cons, not_or] at hk
    simp only [injectGlobals, List.foldl_cons]
    have := ih (fun k => if k = kv.1 then some kv.2 else global k) hk.2
    simp only [injectGlobals] at this
    rw [this]
    simp [hk.1]

theorem injectGlobals_of_mem (exports : List (String × DeclaredFunction)) (k : String)
    (v : DeclaredFunction) :
    ∀ global : String → Option DeclaredFunction, (exports.map (fun kv => kv.1)).Nodup →
      (k, v) ∈ exports → injectGlobals exports global k = some v := by
  induction exports with
  | nil => intro global _ h; simp at h
  | cons kv tl ih =>
    intro global hnd hmem
    simp only [List.map_cons, List.nodup_cons] at hnd
    simp only [List.mem_cons] at hmem
    rcases hmem with hmem | hmem
    · subst hmem
      have h1 := injectGlobals_of_not_key tl k
        (fun k2 => if k2 = k then some v else global k2) hnd.1
      simp only [injectGlobals, List.foldl_cons]
      simp only [injectGlobals] at h1
      rw [h1]
      simp
    · simp only [injectGlobals, List.foldl_cons]
      exact ih _ hnd.2 hmem

set_option maxRecDepth 100000 in
theorem autoExport_declarationLines :
    autoExport declarationLines [] = exportedNames.map (fun n => (n, DeclaredFunction.mk n)) := by
  decide

set_option maxRecDepth 100000 in
theorem ErrorCall.construct_cls_exported (c : ErrorCall) :
    ∃ ctor, (c.construct).props.cls = .muskie ctor ∧ ctor ∈ exportedNames := by
  have h := ErrorCall.construct_codes c
  cases c <;> exact ⟨_, congrArg Prod.fst h, by decide⟩

set_option maxRecDepth 100000 in
/-- Claim C22: the exports of `errors.js` are exactly the functions declared
on a line of the form `function <Name>(` at the start of the line, with `Name`
matching `\w+Error`. Given the lines of the file that begin with `function`,
those are `MuskieError`, each of the 51 kinds that inherit from it, and
`translateError`, which passes by the same rule; each is exported under its
own name, and for every exported key the global of that name is set to the
same value. -/
theorem errors_js_exports (lines : List String) (global : String → Option DeclaredFunction)
    (h : lines.filter beginsWithFunction = declarationLines) :
    (loadErrors lines global).exports
        = exportedNames.map (fun n => (n, DeclaredFunction.mk n)) ∧
      (loadErrors lines global).exports.map (fun kv => kv.1)
        = (lines.filterMap execFunctionLine).filter testErrorName ∧
      lines.filterMap execFunctionLine = exportedNames ∧
      "MuskieError" ∈ exportedNames ∧ "translateError" ∈ exportedNames ∧
      (∀ c : ErrorCall, ∃ ctor, (c.construct).props.cls = .muskie ctor ∧
        ctor ∈ exportedNames) ∧
      (∀ k v, (k, v) ∈ (loadErrors lines global).exports →
        v.name = k ∧ (loadErrors lines global).global k = some v) := by
  have he : (loadErrors lines global).exports
      = exportedNames.map (fun n => (n, DeclaredFunction.mk n)) := by
    show autoExport lines [] = _
    rw [autoExport_filter, h, autoExport_declarationLines]
  have hf : lines.filterMap execFunctionLine = exportedNames := by
    rw [filterMap_execFunctionLine_filter, h]
    decide
  refine ⟨he, ?_, hf, by decide, by decide, ErrorCall.construct_cls_exported, ?_⟩
  · rw [he, hf]
    decide
  · intro k v hkv
    refine ⟨?_, ?_⟩
    · rw [he] at hkv
      simp only [List.mem_map] at hkv
      obtain ⟨n, _, hn⟩ := hkv
      cases hn
      rfl
    · show injectGlobals (loadErrors lines global).exports global k = some v
      apply injectGlobals_of_mem _ _ _ _ _ hkv
      rw [he]
      decide

set_option maxRecDepth 100000 in
/-- Claim C22 at a concrete input: a text made of the declaration lines of
`errors.js` among lines of other kinds, loaded with no global set before. -/
theorem errors_js_exports_witness :
    sampleErrorsText.filter beginsWithFunction = declarationLines ∧
      (loadErrors sampleErrorsText (fun _ => none)).exports
        = exportedNames.map (fun n => (n, DeclaredFunction.mk n)) ∧
      (loadErrors sampleErrorsText (fun _ => none)).global "translateError"
        = some ⟨"translateError"⟩ :=
  ⟨by decide,
    (errors_js_exports sampleErrorsText (fun _ => none) (by decide)).1,
    ((errors_js_exports sampleErrorsText (fun _ => none) (by decide)).2.2.2.2.2.2
      "translateError" ⟨"translateError"⟩
      (by
        rw [(errors_js_exports sampleErrorsText (fun _ => none) (by decide)).1]
        decide)).2⟩

end Muskie
